import Mathlib

/-!
# GDK X11 core device manager: event translation

A shallow embedding of `gdk/x11/gdkdevicemanager-core-x11.c`.

* C pointers to GObjects become values; a `NULL` pointer is `none`.
* Object identity of a `GdkWindow` is its `id` field, so the pointer
  comparison `w == parent` is `w.id == parent.id`.
* Everything the translator reads from its collaborators (window registry,
  grab table, keymap, Xlib queue, screen table) is a field of `GdkX11Display`;
  everything it writes (focus records, reference counts, user-time calls, the
  GDK event queue) is a field of the same record, passed through explicitly.
* `g_assert_not_reached ()` aborts the process: the translator returns
  `Option`, and `none` is the abort.
* C `int` fields are `Int`, unsigned fields are `Nat`; modifier masks are
  32 bits wide, so `~consumed` is the exclusive or with `0xFFFFFFFF`.
-/

namespace Gdk

/-! ## X11 protocol constants

The event codes, notify modes and notify details of the X protocol (X.h). The
order of the modes and details is the one of the tables `notify_modes` and
`notify_details` of the source. -/

/-- An X resource identifier (`Window`, `XID`); `None` is 0. -/
abbrev Window := Nat

def KeyPress : Int := 2
def KeyRelease : Int := 3
def ButtonPress : Int := 4
def ButtonRelease : Int := 5
def MotionNotify : Int := 6
def EnterNotify : Int := 7
def LeaveNotify : Int := 8
def FocusIn : Int := 9
def FocusOut : Int := 10
def DestroyNotify : Int := 17

def NotifyNormal : Int := 0
def NotifyGrab : Int := 1
def NotifyUngrab : Int := 2
def NotifyWhileGrabbed : Int := 3

def NotifyAncestor : Int := 0
def NotifyVirtual : Int := 1
def NotifyInferior : Int := 2
def NotifyNonlinear : Int := 3
def NotifyNonlinearVirtual : Int := 4
def NotifyPointer : Int := 5
def NotifyPointerRoot : Int := 6
def NotifyDetailNone : Int := 7

/-- The X resource id `None`. -/
def XNone : Window := 0

/-! ## GDK constants

The values of gdktypes.h and gdkkeysyms.h, which are not among the sources.
The properties below are stated with the names, not with the numbers. -/

def GDK_CURRENT_TIME : Nat := 0
def GDK_CONTROL_MASK : Nat := 4
def GDK_KEY_VoidSymbol : Nat := 0xffffff
def GDK_KEY_Escape : Nat := 0xff1b
def GDK_KEY_Return : Nat := 0xff0d
def GDK_KEY_KP_Enter : Nat := 0xff8d

/-! ## Data model -/

inductive GdkDeviceType where
  | GDK_DEVICE_TYPE_MASTER
  | GDK_DEVICE_TYPE_SLAVE
  | GDK_DEVICE_TYPE_FLOATING
  deriving DecidableEq, Repr

inductive GdkInputSource where
  | GDK_SOURCE_MOUSE
  | GDK_SOURCE_PEN
  | GDK_SOURCE_ERASER
  | GDK_SOURCE_CURSOR
  | GDK_SOURCE_KEYBOARD
  deriving DecidableEq, Repr

inductive GdkInputMode where
  | GDK_MODE_DISABLED
  | GDK_MODE_SCREEN
  | GDK_MODE_WINDOW
  deriving DecidableEq, Repr

/-- A `GdkDevice` with the properties the constructors of the core manager set. -/
structure GdkDevice where
  name : String
  type : GdkDeviceType
  input_source : GdkInputSource
  input_mode : GdkInputMode
  has_cursor : Bool
  deriving DecidableEq, Repr

/-- The instance data of `GdkX11DeviceManagerCore`. -/
structure GdkX11DeviceManagerCore where
  core_pointer : GdkDevice
  core_keyboard : GdkDevice
  deriving DecidableEq, Repr

/-- A `GdkWindow`: its identity `id`, the destroyed mark and the parent link.
    `top` is a window whose `gdk_window_get_parent` is `NULL`; `child` carries
    its parent, so every parent chain is finite. -/
inductive GdkWindow where
  | top (id : Nat) (destroyed : Bool)
  | child (id : Nat) (destroyed : Bool) (parent : GdkWindow)
  deriving DecidableEq, Repr

namespace GdkWindow

def id : GdkWindow → Nat
  | top i _ => i
  | child i _ _ => i

def destroyed : GdkWindow → Bool
  | top _ d => d
  | child _ d _ => d

end GdkWindow

/-- Modelled from the spec: `gdk_window_get_parent` (gdk/gdkwindow.c is not
    among the sources), the parent link of the window registry. -/
def gdk_window_get_parent : GdkWindow → Option GdkWindow
  | .top _ _ => none
  | .child _ _ p => some p

/-- Modelled from the spec: the macro `GDK_WINDOW_DESTROYED` (its header is not
    among the sources); the window is marked destroyed. -/
def GDK_WINDOW_DESTROYED (window : GdkWindow) : Bool := window.destroyed

/-- The GObject type check `GDK_IS_WINDOW`: every value of type `GdkWindow`
    is an instance of the window class. -/
def GDK_IS_WINDOW (_window : GdkWindow) : Bool := true

structure GdkScreen where
  number : Nat
  deriving DecidableEq, Repr

/-- The focus part of `GdkToplevelX11` (bit fields of the toplevel record). -/
structure GdkToplevelX11 where
  has_focus : Bool
  has_focus_window : Bool
  has_pointer_focus : Bool
  has_pointer : Bool
  deriving DecidableEq, Repr

/-- The record `GdkDeviceGrabInfo`. -/
structure GdkDeviceGrabInfo where
  window : GdkWindow
  owner_events : Bool
  serial_start : Nat
  deriving DecidableEq, Repr

inductive GdkEventType where
  | GDK_NOTHING
  | GDK_DELETE
  | GDK_DESTROY
  | GDK_EXPOSE
  | GDK_MOTION_NOTIFY
  | GDK_BUTTON_PRESS
  | GDK_BUTTON_RELEASE
  | GDK_KEY_PRESS
  | GDK_KEY_RELEASE
  | GDK_ENTER_NOTIFY
  | GDK_LEAVE_NOTIFY
  | GDK_FOCUS_CHANGE
  | GDK_SCROLL
  deriving DecidableEq, Repr

inductive GdkScrollDirection where
  | GDK_SCROLL_UP
  | GDK_SCROLL_DOWN
  | GDK_SCROLL_LEFT
  | GDK_SCROLL_RIGHT
  deriving DecidableEq, Repr

inductive GdkCrossingMode where
  | GDK_CROSSING_NORMAL
  | GDK_CROSSING_GRAB
  | GDK_CROSSING_UNGRAB
  deriving DecidableEq, Repr

inductive GdkNotifyType where
  | GDK_NOTIFY_ANCESTOR
  | GDK_NOTIFY_VIRTUAL
  | GDK_NOTIFY_INFERIOR
  | GDK_NOTIFY_NONLINEAR
  | GDK_NOTIFY_NONLINEAR_VIRTUAL
  | GDK_NOTIFY_UNKNOWN
  deriving DecidableEq, Repr

open GdkEventType GdkScrollDirection GdkCrossingMode GdkNotifyType

/-- The union `GdkEvent`, flattened. The members `any`, `key`, `button`,
    `scroll`, `motion`, `crossing`, `focus_change` and `client` all start with
    `type`, `window`, `send_event`; those that have `time`, `x`, `y`, `state`
    and so on are written one variant at a time, so each field is kept once.
    `device` and `screen` are what `gdk_event_set_device` / the member `device`
    and `gdk_event_set_screen` store. `string` is the payload without its
    terminating NUL (`none` is the `NULL` pointer); `in_` is the member `in` of
    `focus_change`. Coordinates are C `int`s converted to `gdouble`, which is
    exact, so they stay integers. -/
structure GdkEvent where
  type : GdkEventType
  window : Option GdkWindow
  send_event : Bool
  time : Nat
  x : Int
  y : Int
  x_root : Int
  y_root : Int
  axes : Option (List Int)
  state : Nat
  button : Nat
  direction : GdkScrollDirection
  is_hint : Int
  device : Option GdkDevice
  screen : Option GdkScreen
  subwindow : Option GdkWindow
  mode : GdkCrossingMode
  detail : GdkNotifyType
  focus : Bool
  keyval : Nat
  length : Int
  string : Option (List Nat)
  hardware_keycode : Nat
  group : Nat
  is_modifier : Bool
  in_ : Bool
  deriving DecidableEq, Repr

/-- The union `XEvent`, flattened. `XKeyEvent`, `XButtonEvent`, `XMotionEvent`
    and `XCrossingEvent` share the layout `window, root, subwindow, time, x, y,
    x_root, y_root`, so `xbutton.root` read on a motion or crossing event is
    this `root`. `time` has the Xlib type `Time`, an `unsigned long`; a copy
    into the `guint32` time of an event keeps its low 32 bits. -/
structure XEvent where
  type : Int
  send_event : Bool
  window : Window
  root : Window
  subwindow : Window
  time : Nat
  x : Int
  y : Int
  x_root : Int
  y_root : Int
  state : Nat
  keycode : Nat
  button : Nat
  is_hint : Int
  mode : Int
  detail : Int
  focus : Bool
  deriving DecidableEq, Repr

/-- The display as the translator sees it. The first group of fields is what
    the translator reads from its collaborators, named after the function or
    field that supplies it; the second group is the state it writes. -/
structure GdkX11Display where
  /-- Window registry `gdk_x11_window_lookup_for_display (display, xid)`. -/
  gdk_x11_window_lookup_for_display : Window → Option GdkWindow
  /-- Serial counter `_gdk_display_get_next_serial (display)`. -/
  next_serial : Nat
  /-- Grab table `_gdk_display_has_device_grab (display, device, serial)`. -/
  has_device_grab : GdkDevice → Nat → Option GdkDeviceGrabInfo
  /-- Screen table `_gdk_x11_display_screen_for_xrootwin (display, xrootwin)`. -/
  screen_for_xrootwin : Window → Option GdkScreen
  /-- The field `display_x11->have_xkb_autorepeat`. -/
  have_xkb_autorepeat : Bool
  /-- The Xlib queue: `XPending` is its length, `XPeekEvent` its head. -/
  pending : List XEvent
  /-- Outcome of `_gdk_x11_moveresize_handle_event (xevent)`. -/
  moveresize_handle_event : XEvent → Bool
  /-- The function `gdk_window_get_toplevel`. -/
  gdk_window_get_toplevel : GdkWindow → GdkWindow
  /-- The function `_gdk_x11_get_group_for_state (display, state)`. -/
  get_group_for_state : Nat → Nat
  /-- The function `gdk_keymap_translate_keyboard_state (keymap, keycode, state,
      group, &keyval, NULL, NULL, &consumed)`: the key value and the consumed
      modifiers it stores. -/
  translate_keyboard_state : Nat → Nat → Nat → Nat × Nat
  /-- The function `_gdk_x11_keymap_add_virt_mods (keymap, &state)`. -/
  add_virt_mods : Nat → Nat
  /-- The function `_gdk_x11_keymap_key_is_modifier (keymap, keycode)`. -/
  key_is_modifier : Nat → Bool
  /-- The function `gdk_keyval_to_unicode`. -/
  gdk_keyval_to_unicode : Nat → Nat
  /-- The function `g_locale_from_utf8 (buf, len, NULL, &bytes_written, NULL)`:
      the converted bytes, or `none` when the conversion fails;
      `bytes_written` is the length of the result. -/
  g_locale_from_utf8 : List Nat → Option (List Nat)
  /-- The toplevel record `_gdk_x11_window_get_toplevel (window)`, by window
      identity; `none` for a window that is not a toplevel. -/
  toplevel : Nat → Option GdkToplevelX11
  /-- GObject reference count of each window, by window identity. -/
  ref_count : Nat → Nat
  /-- Calls of `gdk_x11_window_set_user_time (window, time)`, oldest first. -/
  user_time_calls : List (Nat × Nat)
  /-- The GDK event queue filled by `gdk_event_put`, oldest first. -/
  event_queue : List GdkEvent

/-! ## Helpers of the translator -/

/-- The macro `HAS_FOCUS (toplevel)`. -/
def HAS_FOCUS (toplevel : GdkToplevelX11) : Bool :=
  toplevel.has_focus || toplevel.has_pointer_focus

/-- The call `g_object_ref (window)`. -/
def g_object_ref (display : GdkX11Display) (window : GdkWindow) : GdkX11Display :=
  { display with ref_count := Function.update display.ref_count window.id
                                (display.ref_count window.id + 1) }

/-- The call `g_object_unref (window)`. -/
def g_object_unref (display : GdkX11Display) (window : GdkWindow) : GdkX11Display :=
  { display with ref_count := Function.update display.ref_count window.id
                                (display.ref_count window.id - 1) }

/-- Modelled from the spec: `gdk_event_new` (gdk/gdkevents.c is not among the
    sources) gives an event value with the given type tag; every other field
    is zero. -/
def gdk_event_new (type : GdkEventType) : GdkEvent :=
  { type := type, window := none, send_event := false, time := 0,
    x := 0, y := 0, x_root := 0, y_root := 0, axes := none, state := 0,
    button := 0, direction := GDK_SCROLL_UP, is_hint := 0, device := none,
    screen := none, subwindow := none, mode := GDK_CROSSING_NORMAL,
    detail := GDK_NOTIFY_ANCESTOR, focus := false, keyval := 0, length := 0,
    string := none, hardware_keycode := 0, group := 0, is_modifier := false,
    in_ := false }

/-- Modelled from the spec: `gdk_event_set_device` (gdk/gdkevents.c is not
    among the sources); the event carries the device. -/
def gdk_event_set_device (event : GdkEvent) (device : GdkDevice) : GdkEvent :=
  { event with device := some device }

/-- Modelled from the spec: `gdk_event_set_screen` (gdk/gdkevents.c is not
    among the sources); the event carries the screen resolved from the root
    window. -/
def gdk_event_set_screen (event : GdkEvent) (screen : GdkScreen) : GdkEvent :=
  { event with screen := some screen }

/-- Modelled from the spec: `gdk_event_get_time` (gdk/gdkevents.c is not among
    the sources); the time stamp of the event types whose payload has one,
    `GDK_CURRENT_TIME` for the others. -/
def gdk_event_get_time (event : GdkEvent) : Nat :=
  match event.type with
  | GDK_MOTION_NOTIFY => event.time
  | GDK_BUTTON_PRESS => event.time
  | GDK_BUTTON_RELEASE => event.time
  | GDK_SCROLL => event.time
  | GDK_KEY_PRESS => event.time
  | GDK_KEY_RELEASE => event.time
  | GDK_ENTER_NOTIFY => event.time
  | GDK_LEAVE_NOTIFY => event.time
  | _ => GDK_CURRENT_TIME

/-- Modelled from the spec: `gdk_event_put` (gdk/gdkevents.c is not among the
    sources) injects the event into the event queue immediately; the queued
    copy holds its own reference to the window. -/
def gdk_event_put (display : GdkX11Display) (event : GdkEvent) : GdkX11Display :=
  let display := { display with event_queue := display.event_queue ++ [event] }
  match event.window with
  | some w => g_object_ref display w
  | none => display

/-- Modelled from the spec: `gdk_event_free` (gdk/gdkevents.c is not among the
    sources); the event releases the reference its window field holds. -/
def gdk_event_free (display : GdkX11Display) (event : GdkEvent) : GdkX11Display :=
  match event.window with
  | some w => g_object_unref display w
  | none => display

/-- Continuation bytes written by the loop of `g_unichar_to_utf8`:
    `outbuf[i] = (c & 0x3f) | 0x80; c >>= 6` for `i = n .. 1`. -/
def g_unichar_to_utf8_tail : Nat → Nat → List Nat
  | 0, _ => []
  | n + 1, c => g_unichar_to_utf8_tail n (c >>> 6) ++ [(c &&& 0x3f) ||| 0x80]

/-- The GLib function `g_unichar_to_utf8 (c, buf)`: the `len` bytes stored. -/
def g_unichar_to_utf8 (c : Nat) : List Nat :=
  let fl : Nat × Nat :=
    if c < 0x80 then (0, 1)
    else if c < 0x800 then (0xc0, 2)
    else if c < 0x10000 then (0xe0, 3)
    else if c < 0x200000 then (0xf0, 4)
    else if c < 0x4000000 then (0xf8, 5)
    else (0xfc, 6)
  ((c >>> (6 * (fl.2 - 1))) ||| fl.1) :: g_unichar_to_utf8_tail (fl.2 - 1) c

/-- The control-key block of `translate_key_event` (the body of
    `if (event->key.state & GDK_CONTROL_MASK)`): the new value of `c`, or
    `none` on the branch of the digit 2, which leaves by `goto out`. -/
def apply_control_key (c : Nat) : Option Nat :=
  if (c ≥ 0x40 /- '@' -/ ∧ c < 0x7f /- '\177' -/) ∨ c = 0x20 /- ' ' -/ then some (c &&& 0x1F)
  else if c = 0x32 /- '2' -/ then none
  else if c ≥ 0x33 /- '3' -/ ∧ c ≤ 0x37 /- '7' -/ then some (c - (0x33 - 0x1b /- '\033' -/))
  else if c = 0x38 /- '8' -/ then some 0x7f /- '\177' -/
  else if c = 0x2f /- '/' -/ then some (0x5f /- '_' -/ &&& 0x1F)
  else some c

/-- The tail of `translate_key_event` before the label `out`: a payload that
    is still `NULL` becomes the empty string with length 0. -/
def key_string_default (event : GdkEvent) : GdkEvent :=
  match event.string with
  | none => { event with length := 0, string := some [] }
  | some _ => event

/-- The first part of `translate_key_event` (lines 151 to 172): type, time,
    device, state, group, key code, key value and the modifier flag. -/
def translate_key_event_fields (display : GdkX11Display)
    (device_manager : GdkX11DeviceManagerCore) (event : GdkEvent) (xevent : XEvent) :
    GdkEvent :=
  let event := { event with
    type := if xevent.type = KeyPress then GDK_KEY_PRESS else GDK_KEY_RELEASE,
    time := xevent.time % 2 ^ 32 }
  let event := gdk_event_set_device event device_manager.core_keyboard
  let event := { event with
    state := xevent.state,
    group := display.get_group_for_state xevent.state % 2 ^ 8,
    hardware_keycode := xevent.keycode % 2 ^ 16 }
  let event := { event with keyval := GDK_KEY_VoidSymbol }
  let kc := display.translate_keyboard_state event.hardware_keycode event.state event.group
  let event := { event with keyval := kc.1 }
  let consumed := kc.2
  let state := event.state &&& (0xFFFFFFFF ^^^ (consumed % 2 ^ 32))
  let state := display.add_virt_mods state
  let event := { event with state := event.state ||| state }
  { event with is_modifier := display.key_is_modifier event.hardware_keycode }

/-- The second part of `translate_key_event` (lines 174 to 229): the payload
    `event->key.string` and `event->key.length`, computed from the key value
    and the state stored by the first part. -/
def translate_key_event_string (display : GdkX11Display) (event : GdkEvent) : GdkEvent :=
  let event := { event with string := none }
  let c : Nat :=
    if event.keyval ≠ GDK_KEY_VoidSymbol then display.gdk_keyval_to_unicode event.keyval else 0
  if c ≠ 0 then
    let folded : Option Nat :=
      if event.state &&& GDK_CONTROL_MASK ≠ 0 then apply_control_key c else some c
    match folded with
    | none =>
      -- `g_memdup ("\0\0", 2)`: one NUL byte of payload and its terminator
      { event with string := some [0], length := 1 }
    | some c =>
      let buf := g_unichar_to_utf8 c
      let event :=
        match display.g_locale_from_utf8 buf with
        | some s => { event with string := some s, length := s.length }
        | none => event
      key_string_default event
  else if event.keyval = GDK_KEY_Escape then
    key_string_default { event with length := 1, string := some [0x1b] }
  else if event.keyval = GDK_KEY_Return ∨ event.keyval = GDK_KEY_KP_Enter then
    key_string_default { event with length := 1, string := some [0x0d] }
  else
    key_string_default event

/-- The function `translate_key_event`. -/
def translate_key_event (display : GdkX11Display)
    (device_manager : GdkX11DeviceManagerCore) (event : GdkEvent) (xevent : XEvent) :
    GdkEvent :=
  translate_key_event_string display
    (translate_key_event_fields display device_manager event xevent)

/-- The function `set_user_time`. The window argument is overwritten at once
    by the toplevel of `event->client.window`, the window member every event
    variant shares; a `NULL` window fails the `GDK_IS_WINDOW` check. -/
def set_user_time (display : GdkX11Display) (_window : GdkWindow) (event : GdkEvent) :
    GdkX11Display :=
  match event.window with
  | none => display
  | some w =>
    let window := display.gdk_window_get_toplevel w
    if !GDK_IS_WINDOW window then display
    else if gdk_event_get_time event ≠ GDK_CURRENT_TIME then
      { display with user_time_calls := display.user_time_calls ++
          [((display.gdk_window_get_toplevel window).id, gdk_event_get_time event)] }
    else display

/-- The function `generate_focus_event`. -/
def generate_focus_event (display : GdkX11Display)
    (device_manager : GdkX11DeviceManagerCore) (window : GdkWindow) (in_ : Bool) :
    GdkX11Display :=
  let event := gdk_event_new GDK_FOCUS_CHANGE
  let display := g_object_ref display window
  let event := { event with window := some window }
  let event := { event with send_event := false }
  let event := { event with in_ := in_ }
  let event := gdk_event_set_device event device_manager.core_keyboard
  let display := gdk_event_put display event
  gdk_event_free display event

/-- The function `set_screen_from_root`: the event with its screen set, or
    `none` for the result `FALSE`. -/
def set_screen_from_root (display : GdkX11Display) (event : GdkEvent) (xrootwin : Window) :
    Option GdkEvent :=
  match display.screen_for_xrootwin xrootwin with
  | some screen => some (gdk_event_set_screen event screen)
  | none => none

/-- The function `translate_crossing_mode`; `none` is `g_assert_not_reached ()`. -/
def translate_crossing_mode (mode : Int) : Option GdkCrossingMode :=
  if mode = NotifyNormal then some GDK_CROSSING_NORMAL
  else if mode = NotifyGrab then some GDK_CROSSING_GRAB
  else if mode = NotifyUngrab then some GDK_CROSSING_UNGRAB
  else none

/-- The function `translate_notify_type`; `none` is `g_assert_not_reached ()`. -/
def translate_notify_type (detail : Int) : Option GdkNotifyType :=
  if detail = NotifyInferior then some GDK_NOTIFY_INFERIOR
  else if detail = NotifyAncestor then some GDK_NOTIFY_ANCESTOR
  else if detail = NotifyVirtual then some GDK_NOTIFY_VIRTUAL
  else if detail = NotifyNonlinear then some GDK_NOTIFY_NONLINEAR
  else if detail = NotifyNonlinearVirtual then some GDK_NOTIFY_NONLINEAR_VIRTUAL
  else none

/-- The loop of `is_parent_of`, entered with `w != NULL`. -/
def is_parent_of_loop (parent : GdkWindow) : GdkWindow → Bool
  | .top i _ => if i = parent.id then true else false
  | .child i _ p => if i = parent.id then true else is_parent_of_loop parent p

/-- The function `is_parent_of (parent, child)`. -/
def is_parent_of (parent : GdkWindow) (child : Option GdkWindow) : Bool :=
  match child with
  | none => false
  | some w => is_parent_of_loop parent w

/-- The function `get_event_window`. -/
def get_event_window (device_manager : GdkX11DeviceManagerCore) (display : GdkX11Display)
    (xevent : XEvent) : Option GdkWindow :=
  let window := display.gdk_x11_window_lookup_for_display xevent.window
  if xevent.type = KeyPress ∨ xevent.type = KeyRelease then
    let serial := display.next_serial
    match display.has_device_grab device_manager.core_keyboard serial with
    | some info =>
      if !is_parent_of info.window window || !info.owner_events then some info.window
      else window
    | none => window
  else window

/-- What one call of the translator leaves behind: the `gboolean` it returns,
    the output event and the display state. -/
structure TranslateResult where
  return_val : Bool
  event : GdkEvent
  display : GdkX11Display

/-- The code after the label `done` of
    `gdk_x11_device_manager_core_translate_event`. -/
def translate_event_done (return_val : Bool) (window : Option GdkWindow) (event : GdkEvent)
    (display : GdkX11Display) : TranslateResult :=
  let ed : GdkEvent × GdkX11Display :=
    if return_val then
      let display :=
        match event.window with
        | some w => g_object_ref display w
        | none => display
      let display :=
        if event.type = GDK_ENTER_NOTIFY ∨ event.type = GDK_LEAVE_NOTIFY then
          match event.subwindow with
          | some sw => g_object_ref display sw
          | none => display
        else display
      (event, display)
    else
      ({ event with window := none, type := GDK_NOTHING }, display)
  let display :=
    match window with
    | some w => g_object_unref ed.2 w
    | none => ed.2
  { return_val := return_val, event := ed.1, display := display }

/-- The rule shared by the cases `NotifyNonlinear` / `NotifyNonlinearVirtual`
    of the `FocusIn` switch (the cases `NotifyAncestor` / `NotifyVirtual` fall
    through into it). -/
def focus_in_nonlinear (toplevel : GdkToplevelX11) (mode : Int) : GdkToplevelX11 :=
  let toplevel :=
    if mode ≠ NotifyGrab ∧ mode ≠ NotifyUngrab then { toplevel with has_focus_window := true }
    else toplevel
  if mode ≠ NotifyWhileGrabbed then { toplevel with has_focus := true } else toplevel

/-- The statement `switch (xevent->xfocus.detail)` of the case `FocusIn`. -/
def focus_in_switch (toplevel : GdkToplevelX11) (detail mode : Int) : GdkToplevelX11 :=
  if detail = NotifyAncestor ∨ detail = NotifyVirtual then
    let toplevel :=
      if toplevel.has_pointer = true ∧ mode ≠ NotifyGrab ∧ mode ≠ NotifyUngrab then
        { toplevel with has_pointer_focus := false }
      else toplevel
    focus_in_nonlinear toplevel mode
  else if detail = NotifyNonlinear ∨ detail = NotifyNonlinearVirtual then
    focus_in_nonlinear toplevel mode
  else if detail = NotifyPointer then
    if mode ≠ NotifyGrab ∧ mode ≠ NotifyUngrab then { toplevel with has_pointer_focus := true }
    else toplevel
  else toplevel

/-- The rule shared by the cases `NotifyNonlinear` / `NotifyNonlinearVirtual`
    of the `FocusOut` switch. -/
def focus_out_nonlinear (toplevel : GdkToplevelX11) (mode : Int) : GdkToplevelX11 :=
  let toplevel :=
    if mode ≠ NotifyGrab ∧ mode ≠ NotifyUngrab then { toplevel with has_focus_window := false }
    else toplevel
  if mode ≠ NotifyWhileGrabbed then { toplevel with has_focus := false } else toplevel

/-- The statement `switch (xevent->xfocus.detail)` of the case `FocusOut`. -/
def focus_out_switch (toplevel : GdkToplevelX11) (detail mode : Int) : GdkToplevelX11 :=
  if detail = NotifyAncestor ∨ detail = NotifyVirtual then
    let toplevel :=
      if toplevel.has_pointer = true ∧ mode ≠ NotifyGrab ∧ mode ≠ NotifyUngrab then
        { toplevel with has_pointer_focus := true }
      else toplevel
    focus_out_nonlinear toplevel mode
  else if detail = NotifyNonlinear ∨ detail = NotifyNonlinearVirtual then
    focus_out_nonlinear toplevel mode
  else if detail = NotifyPointer then
    if mode ≠ NotifyGrab ∧ mode ≠ NotifyUngrab then { toplevel with has_pointer_focus := false }
    else toplevel
  else toplevel

/-- The auto-repeat test of the case `KeyRelease`: the display has no
    detectable auto-repeat, an event is pending, and the next event is a
    `KeyPress` of the same key code and time. -/
def key_release_is_repeat (display : GdkX11Display) (xevent : XEvent) : Bool :=
  if !display.have_xkb_autorepeat && display.pending.length ≠ 0 then
    match display.pending.head? with
    | some next_event =>
      next_event.type = KeyPress && next_event.keycode = xevent.keycode &&
        next_event.time = xevent.time
    | none => false
  else false

/-- The fields the cases `ButtonPress` (default branch) and `ButtonRelease`
    store in `event->button`. -/
def fill_button_event (device_manager : GdkX11DeviceManagerCore) (type : GdkEventType)
    (window : GdkWindow) (event : GdkEvent) (xevent : XEvent) : GdkEvent :=
  { event with
    type := type, window := some window, time := xevent.time % 2 ^ 32,
    x := xevent.x, y := xevent.y, x_root := xevent.x_root, y_root := xevent.y_root,
    axes := none, state := xevent.state, button := xevent.button,
    device := some device_manager.core_pointer }

/-- The body of the cases `EnterNotify` and `LeaveNotify` after the window
    check; the outer `none` is the abort of `g_assert_not_reached ()`. -/
def translate_crossing (device_manager : GdkX11DeviceManagerCore) (display : GdkX11Display)
    (type : GdkEventType) (window : GdkWindow) (event : GdkEvent) (xevent : XEvent) :
    Option (Bool × GdkEvent × GdkX11Display) :=
  match set_screen_from_root display event xevent.root with
  | none => some (false, event, display)
  | some event =>
    let event := { event with type := type, window := some window }
    let event := gdk_event_set_device event device_manager.core_pointer
    let event := { event with
      subwindow :=
        if xevent.subwindow ≠ XNone then
          display.gdk_x11_window_lookup_for_display xevent.subwindow
        else none }
    let event := { event with
      time := xevent.time % 2 ^ 32, x := xevent.x, y := xevent.y,
      x_root := xevent.x_root, y_root := xevent.y_root }
    match translate_crossing_mode xevent.mode with
    | none => none
    | some mode =>
      let event := { event with mode := mode }
      match translate_notify_type xevent.detail with
      | none => none
      | some detail =>
        let event := { event with detail := detail }
        let event := { event with focus := xevent.focus, state := xevent.state }
        some (true, event, display)

/-- The cases `FocusIn` (`in_ = true`) and `FocusOut` (`in_ = false`): the
    toplevel record is updated and a focus event generated when `HAS_FOCUS`
    changed. Nothing happens without a toplevel record. -/
def translate_focus (device_manager : GdkX11DeviceManagerCore) (display : GdkX11Display)
    (window : Option GdkWindow) (in_ : Bool) (xevent : XEvent) : GdkX11Display :=
  match window with
  | none => display
  | some w =>
    match display.toplevel w.id with
    | none => display
    | some toplevel =>
      let had_focus := HAS_FOCUS toplevel
      let toplevel :=
        if in_ then focus_in_switch toplevel xevent.detail xevent.mode
        else focus_out_switch toplevel xevent.detail xevent.mode
      let display :=
        { display with toplevel := Function.update display.toplevel w.id (some toplevel) }
      if HAS_FOCUS toplevel ≠ had_focus then generate_focus_event display device_manager w in_
      else display

/-- The statement `switch (xevent->type)` of
    `gdk_x11_device_manager_core_translate_event`: the value of `return_val`,
    the event and the display when control reaches the label `done`; `none`
    when the process aborts. -/
def translate_event_switch (device_manager : GdkX11DeviceManagerCore)
    (display : GdkX11Display) (window : Option GdkWindow) (event : GdkEvent)
    (xevent : XEvent) : Option (Bool × GdkEvent × GdkX11Display) :=
  if xevent.type = KeyPress then
    match window with
    | none => some (false, event, display)
    | some w =>
      let event := translate_key_event display device_manager event xevent
      let display := set_user_time display w event
      some (true, event, display)
  else if xevent.type = KeyRelease then
    match window with
    | none => some (false, event, display)
    | some _ =>
      if key_release_is_repeat display xevent then some (false, event, display)
      else some (true, translate_key_event display device_manager event xevent, display)
  else if xevent.type = ButtonPress then
    match window with
    | none => some (false, event, display)
    | some w =>
      let re : Bool × GdkEvent :=
        if xevent.button = 4 ∨ xevent.button = 5 ∨ xevent.button = 6 ∨ xevent.button = 7 then
          let event := { event with type := GDK_SCROLL }
          let event := { event with
            direction :=
              if xevent.button = 4 then GDK_SCROLL_UP
              else if xevent.button = 5 then GDK_SCROLL_DOWN
              else if xevent.button = 6 then GDK_SCROLL_LEFT
              else GDK_SCROLL_RIGHT }
          let event := { event with
            window := some w, time := xevent.time % 2 ^ 32,
            x := xevent.x, y := xevent.y, x_root := xevent.x_root, y_root := xevent.y_root,
            state := xevent.state, device := some device_manager.core_pointer }
          match set_screen_from_root display event xevent.root with
          | none => (false, event)
          | some event => (true, event)
        else
          let event := fill_button_event device_manager GDK_BUTTON_PRESS w event xevent
          match set_screen_from_root display event xevent.root with
          | none => (false, event)
          | some event => (true, event)
      let display := set_user_time display w re.2
      some (re.1, re.2, display)
  else if xevent.type = ButtonRelease then
    match window with
    | none => some (false, event, display)
    | some w =>
      if xevent.button = 4 ∨ xevent.button = 5 ∨ xevent.button = 6 ∨ xevent.button = 7 then
        some (false, event, display)
      else
        let event := fill_button_event device_manager GDK_BUTTON_RELEASE w event xevent
        match set_screen_from_root display event xevent.root with
        | none => some (false, event, display)
        | some event => some (true, event, display)
  else if xevent.type = MotionNotify then
    match window with
    | none => some (false, event, display)
    | some w =>
      let event := { event with
        type := GDK_MOTION_NOTIFY, window := some w, time := xevent.time % 2 ^ 32,
        x := xevent.x, y := xevent.y, x_root := xevent.x_root, y_root := xevent.y_root,
        axes := none, state := xevent.state, is_hint := xevent.is_hint,
        device := some device_manager.core_pointer }
      match set_screen_from_root display event xevent.root with
      | none => some (false, event, display)
      | some event => some (true, event, display)
  else if xevent.type = EnterNotify then
    match window with
    | none => some (false, event, display)
    | some w => translate_crossing device_manager display GDK_ENTER_NOTIFY w event xevent
  else if xevent.type = LeaveNotify then
    match window with
    | none => some (false, event, display)
    | some w => translate_crossing device_manager display GDK_LEAVE_NOTIFY w event xevent
  else if xevent.type = FocusIn then
    some (true, event, translate_focus device_manager display window true xevent)
  else if xevent.type = FocusOut then
    some (true, event, translate_focus device_manager display window false xevent)
  else some (false, event, display)

/-- The function `gdk_x11_device_manager_core_translate_event` from the
    assignment `event->any.window = window` on. -/
def translate_event_body (device_manager : GdkX11DeviceManagerCore)
    (display : GdkX11Display) (window : Option GdkWindow) (event : GdkEvent)
    (xevent : XEvent) : Option TranslateResult :=
  let event := { event with window := window }
  let event := { event with send_event := xevent.send_event }
  let destroyed : Bool :=
    match window with
    | some w => GDK_WINDOW_DESTROYED w
    | none => false
  if destroyed = true ∧ xevent.type ≠ DestroyNotify then
    some (translate_event_done false window event display)
  else if window.isSome = true ∧ (xevent.type = MotionNotify ∨ xevent.type = ButtonRelease) ∧
      display.moveresize_handle_event xevent = true then
    some (translate_event_done false window event display)
  else
    match translate_event_switch device_manager display window event xevent with
    | none => none
    | some r => some (translate_event_done r.1 window r.2.1 r.2.2)

/-- The function `gdk_x11_device_manager_core_translate_event`. The translator
    is the device manager; `none` is the abort of `g_assert_not_reached ()`. -/
def gdk_x11_device_manager_core_translate_event (device_manager : GdkX11DeviceManagerCore)
    (display : GdkX11Display) (event : GdkEvent) (xevent : XEvent) : Option TranslateResult :=
  let window := get_event_window device_manager display xevent
  match window with
  | some w =>
    if GDK_WINDOW_DESTROYED w || !GDK_IS_WINDOW w then
      some { return_val := false, event := event, display := display }
    else
      let display := g_object_ref display w
      translate_event_body device_manager display window event xevent
  | none => translate_event_body device_manager display window event xevent

/-! ## Device construction -/

/-- The function `create_core_pointer`. -/
def create_core_pointer : GdkDevice :=
  { name := "Core Pointer", type := .GDK_DEVICE_TYPE_MASTER,
    input_source := .GDK_SOURCE_MOUSE, input_mode := .GDK_MODE_SCREEN, has_cursor := true }

/-- The function `create_core_keyboard`. -/
def create_core_keyboard : GdkDevice :=
  { name := "Core Keyboard", type := .GDK_DEVICE_TYPE_MASTER,
    input_source := .GDK_SOURCE_KEYBOARD, input_mode := .GDK_MODE_SCREEN, has_cursor := false }

/-- The devices `gdk_x11_device_manager_core_constructed` stores in the manager. -/
def gdk_x11_device_manager_core_constructed : GdkX11DeviceManagerCore :=
  { core_pointer := create_core_pointer, core_keyboard := create_core_keyboard }

/-! ## Vocabulary of the specification -/

/-- The derived value as the specification words it:
    `has_focus_window OR has_pointer_focus`. -/
def spec_HAS_FOCUS (toplevel : GdkToplevelX11) : Bool :=
  toplevel.has_focus_window || toplevel.has_pointer_focus

/-- Ancestor-or-self in the window hierarchy: the reflexive-transitive closure
    of the parent link. -/
inductive AncestorOrSelf (g : GdkWindow) : GdkWindow → Prop where
  | self (w : GdkWindow) (h : w.id = g.id) : AncestorOrSelf g w
  | step (i : Nat) (d : Bool) (p : GdkWindow) (h : AncestorOrSelf g p) :
      AncestorOrSelf g (GdkWindow.child i d p)

/-! ## Concrete inputs -/

/-- A live toplevel window with identity 1. -/
def sampleToplevel : GdkWindow := .top 1 false

/-- A live child of `sampleToplevel`, with identity 2. -/
def sampleChild : GdkWindow := .child 2 false sampleToplevel

/-- A destroyed window with identity 3. -/
def sampleDestroyed : GdkWindow := .top 3 true

/-- A display that registers X window 10 as `sampleToplevel`, 20 as
    `sampleChild` and 30 as `sampleDestroyed`, has one screen with root window
    100, no grab, an empty Xlib queue, a keymap that maps key code `k` to key
    value `k` and consumes nothing, Latin-1 for `gdk_keyval_to_unicode`, and a
    locale that passes bytes through. The toplevel has an all-zero focus
    record. -/
def sampleDisplay : GdkX11Display :=
  { gdk_x11_window_lookup_for_display := fun xid =>
      if xid = 10 then some sampleToplevel
      else if xid = 20 then some sampleChild
      else if xid = 30 then some sampleDestroyed
      else none,
    next_serial := 0,
    has_device_grab := fun _ _ => none,
    screen_for_xrootwin := fun xid => if xid = 100 then some { number := 0 } else none,
    have_xkb_autorepeat := false,
    pending := [],
    moveresize_handle_event := fun _ => false,
    gdk_window_get_toplevel := fun _ => sampleToplevel,
    get_group_for_state := fun _ => 0,
    translate_keyboard_state := fun keycode _ _ => (keycode, 0),
    add_virt_mods := fun state => state,
    key_is_modifier := fun _ => false,
    gdk_keyval_to_unicode := fun keyval => if keyval < 0x100 then keyval else 0,
    g_locale_from_utf8 := fun buf => some buf,
    toplevel := fun i =>
      if i = 1 then
        some { has_focus := false, has_focus_window := false,
               has_pointer_focus := false, has_pointer := false }
      else none,
    ref_count := fun _ => 1,
    user_time_calls := [],
    event_queue := [] }

/-- A native event of the given type on X window 10 with root window 100 and
    all other fields zero. -/
def sampleXEvent (type : Int) : XEvent :=
  { type := type, send_event := false, window := 10, root := 100, subwindow := 0,
    time := 0, x := 0, y := 0, x_root := 0, y_root := 0, state := 0, keycode := 0,
    button := 0, is_hint := 0, mode := 0, detail := 0, focus := false }

/-! ## Descriptions used in the statements -/

/-- The event that `generate_focus_event` queues. -/
def focus_change_event (dm : GdkX11DeviceManagerCore) (w : GdkWindow) (in_ : Bool) : GdkEvent :=
  { gdk_event_new GDK_FOCUS_CHANGE with
    window := some w, in_ := in_, device := some dm.core_keyboard }

/-- The focus record after a native focus event: the `FocusIn` switch for
    `in_ = true`, the `FocusOut` switch otherwise. -/
def focus_switch (in_ : Bool) (t : GdkToplevelX11) (detail mode : Int) : GdkToplevelX11 :=
  if in_ then focus_in_switch t detail mode else focus_out_switch t detail mode

/-- The native event `FocusIn` with detail `NotifyNonlinear` and mode
    `NotifyGrab` on X window 10. -/
def focusInNonlinearGrab : XEvent :=
  { sampleXEvent FocusIn with detail := NotifyNonlinear, mode := NotifyGrab }

/-- The native event `FocusOut` with detail `NotifyAncestor` and mode
    `NotifyNormal` on X window 10. -/
def focusOutAncestorNormal : XEvent :=
  { sampleXEvent FocusOut with detail := NotifyAncestor, mode := NotifyNormal }

/-- The display `sampleDisplay` with the pointer inside the toplevel: the
    focus record has `has_pointer` set and the other flags clear. -/
def pointerInsideDisplay : GdkX11Display :=
  { sampleDisplay with
    toplevel := fun i =>
      if i = 1 then
        some { has_focus := false, has_focus_window := false,
               has_pointer_focus := false, has_pointer := true }
      else none }

/-- The native event `FocusIn` with detail `NotifyPointer` and mode
    `NotifyNormal` on X window 10. -/
def focusInPointerNormal : XEvent :=
  { sampleXEvent FocusIn with detail := NotifyPointer, mode := NotifyNormal }

/-- The display `sampleDisplay` with a keyboard grab on `sampleToplevel` whose
    `owner_events` flag is clear. -/
def keyboardGrabDisplay : GdkX11Display :=
  { sampleDisplay with
    has_device_grab := fun device _ =>
      if device = create_core_keyboard then
        some { window := sampleToplevel, owner_events := false, serial_start := 0 }
      else none }

/-- A `KeyPress` on X window 20, which is registered as `sampleChild`. -/
def keyPressOnChild : XEvent :=
  { sampleXEvent KeyPress with window := 20 }

/-- A `KeyRelease` of key code 38 at time 1000 on X window 10. -/
def keyRelease38 : XEvent :=
  { sampleXEvent KeyRelease with keycode := 38, time := 1000 }

/-- The display `sampleDisplay` whose Xlib queue holds a `KeyPress` of key
    code 38 at time 1000: the second half of an auto-repeat pair. -/
def repeatPendingDisplay : GdkX11Display :=
  { sampleDisplay with
    pending := [{ sampleXEvent KeyPress with keycode := 38, time := 1000 }] }

/-- The display `sampleDisplay` whose Xlib queue holds a `KeyPress` of key
    code 39 at time 1000. -/
def otherKeyPendingDisplay : GdkX11Display :=
  { sampleDisplay with
    pending := [{ sampleXEvent KeyPress with keycode := 39, time := 1000 }] }

/-- A `ButtonPress` of button 4 at (5, 6), root (105, 106), time 1000, with
    modifier state 1, on X window 10. -/
def buttonPress4 : XEvent :=
  { sampleXEvent ButtonPress with
    button := 4, x := 5, y := 6, x_root := 105, y_root := 106, time := 1000, state := 1 }

/-- A `ButtonRelease` of button 4 on X window 30, which is registered as the
    destroyed window `sampleDestroyed`. -/
def buttonRelease4OnDestroyed : XEvent :=
  { sampleXEvent ButtonRelease with button := 4, window := 30 }

/-- The payload the translator stores for the UTF-8 bytes `buf`: the result of
    the locale conversion, or the empty string when the conversion fails. -/
def locale_payload (display : GdkX11Display) (buf : List Nat) : List Nat :=
  (display.g_locale_from_utf8 buf).getD []

/-- A `KeyPress` of the given key code with the CONTROL modifier, on X window
    10. Under the keymap of `sampleDisplay` the key value and the character are
    the key code. -/
def controlKeyPress (keycode : Nat) : XEvent :=
  { sampleXEvent KeyPress with keycode := keycode, state := GDK_CONTROL_MASK }

/-- A `MotionNotify` on X window 30, which is registered as the destroyed
    window `sampleDestroyed`. -/
def motionOnDestroyed : XEvent :=
  { sampleXEvent MotionNotify with window := 30 }

/-- A native event of the given type on X window 99, which the registry of
    `sampleDisplay` does not know. -/
def unregisteredXEvent (type : Int) : XEvent :=
  { sampleXEvent type with window := 99 }

/-- The references an event owns on the window of identity `x`: one through
    its window field, and one through its subwindow field when the event is
    an ENTER_NOTIFY or a LEAVE_NOTIFY. -/
def event_refs (e : GdkEvent) (x : Nat) : Nat :=
  (match e.window with
    | some w => if w.id = x then 1 else 0
    | none => 0) +
  (if e.type = GDK_ENTER_NOTIFY ∨ e.type = GDK_LEAVE_NOTIFY then
    match e.subwindow with
    | some sw => if sw.id = x then 1 else 0
    | none => 0
  else 0)

/-- An `EnterNotify` on X window 10 with subwindow 20, mode `NotifyNormal` and
    detail `NotifyAncestor`. -/
def enterWithSubwindow : XEvent :=
  { sampleXEvent EnterNotify with subwindow := 20 }

/-! ## Device registry -/

/-- The association links of the devices: for each device its associated
    device (`NULL` is `none`). The links are kept beside the devices, as a
    relation, because the two core devices point at each other. -/
abbrev DeviceLinks := GdkDevice → Option GdkDevice

/-- Modelled from the spec: `_gdk_device_set_associated_device` (gdk/gdkdevice.c
    is not among the sources) sets the associated-device back-reference of
    `device`, and of no other device. -/
def _gdk_device_set_associated_device (links : DeviceLinks) (device associated : GdkDevice) :
    DeviceLinks :=
  Function.update links device (some associated)

/-- Modelled from the spec: `gdk_device_get_associated_device` (gdk/gdkdevice.c
    is not among the sources) reads the associated-device back-reference. -/
def gdk_device_get_associated_device (links : DeviceLinks) (device : GdkDevice) :
    Option GdkDevice :=
  links device

/-- The two calls of `_gdk_device_set_associated_device` that end
    `gdk_x11_device_manager_core_constructed`, on devices without links. -/
def gdk_x11_device_manager_core_constructed_links : DeviceLinks :=
  let device_manager := gdk_x11_device_manager_core_constructed
  let links : DeviceLinks := fun _ => none
  let links := _gdk_device_set_associated_device links device_manager.core_pointer
    device_manager.core_keyboard
  _gdk_device_set_associated_device links device_manager.core_keyboard
    device_manager.core_pointer

/-- The function `gdk_x11_device_manager_core_list_devices`; the `GList` is a
    list and `g_list_prepend` puts an element in front. -/
def gdk_x11_device_manager_core_list_devices (device_manager : GdkX11DeviceManagerCore)
    (type : GdkDeviceType) : List GdkDevice :=
  let devices : List GdkDevice := []
  if type = GdkDeviceType.GDK_DEVICE_TYPE_MASTER then
    let devices := device_manager.core_keyboard :: devices
    let devices := device_manager.core_pointer :: devices
    devices
  else devices

/-- The function `gdk_x11_device_manager_core_get_client_pointer`. -/
def gdk_x11_device_manager_core_get_client_pointer
    (device_manager : GdkX11DeviceManagerCore) : GdkDevice :=
  device_manager.core_pointer

/-- The slots of `GdkDeviceManagerClass` that the public functions dispatch
    through; an unset slot is `none`. -/
structure GdkDeviceManagerClass where
  list_devices : Option (GdkX11DeviceManagerCore → GdkDeviceType → List GdkDevice)
  get_client_pointer : Option (GdkX11DeviceManagerCore → GdkDevice)

/-- The slots `gdk_x11_device_manager_core_class_init` sets. -/
def gdk_x11_device_manager_core_class_init : GdkDeviceManagerClass :=
  { list_devices := some gdk_x11_device_manager_core_list_devices,
    get_client_pointer := some gdk_x11_device_manager_core_get_client_pointer }

/-- The function `gdk_device_manager_list_devices` of gdkdevicemanager.c: the
    call through the class slot. The check `GDK_IS_DEVICE_MANAGER` holds of
    every manager value; `none` is a call through an unset slot. -/
def gdk_device_manager_list_devices (klass : GdkDeviceManagerClass)
    (device_manager : GdkX11DeviceManagerCore) (type : GdkDeviceType) :
    Option (List GdkDevice) :=
  match klass.list_devices with
  | some list_devices => some (list_devices device_manager type)
  | none => none

/-- The function `gdk_device_manager_get_client_pointer` of gdkdevicemanager.c. -/
def gdk_device_manager_get_client_pointer (klass : GdkDeviceManagerClass)
    (device_manager : GdkX11DeviceManagerCore) : Option GdkDevice :=
  match klass.get_client_pointer with
  | some get_client_pointer => some (get_client_pointer device_manager)
  | none => none

/-- An `EnterNotify` with the mode `NotifyWhileGrabbed`, which is no crossing
    mode, on X window 99, which the registry of `sampleDisplay` does not
    know. -/
def enterBadModeUnregistered : XEvent :=
  { unregisteredXEvent EnterNotify with mode := NotifyWhileGrabbed }

/-- An `EnterNotify` with mode `NotifyGrab` and detail `NotifyInferior` on X
    window 10. -/
def enterGrabInferior : XEvent :=
  { sampleXEvent EnterNotify with mode := NotifyGrab, detail := NotifyInferior }

/-- The display `sampleDisplay` whose toplevel record has `has_focus` set and
    the other three flags clear: it differs from the record of
    `sampleDisplay` in `has_focus` only. -/
def hasFocusFlagDisplay : GdkX11Display :=
  { sampleDisplay with
    toplevel := fun i =>
      if i = 1 then
        some { has_focus := true, has_focus_window := false,
               has_pointer_focus := false, has_pointer := false }
      else none }

/-- The display `sampleDisplay` whose toplevel record has `has_focus_window`
    set and the other three flags clear. -/
def hasFocusWindowFlagDisplay : GdkX11Display :=
  { sampleDisplay with
    toplevel := fun i =>
      if i = 1 then
        some { has_focus := false, has_focus_window := true,
               has_pointer_focus := false, has_pointer := false }
      else none }

/-- The native event `FocusIn` with detail `NotifyNonlinear` and mode
    `NotifyNormal` on X window 10. -/
def focusInNonlinearNormal : XEvent :=
  { sampleXEvent FocusIn with detail := NotifyNonlinear, mode := NotifyNormal }

/-! ## Cell areas (gtk/gtkcellarea.c)

The public functions of `GtkCellArea` dispatch through the slots of
`GtkCellAreaClass`. A slot is `none` when it is `NULL`. A pointer argument
that the function checks (`GTK_IS_WIDGET (widget)`, `callback != NULL`, ...)
is an `Option`, and `none` fails the check. A call returns the area, what was
logged and the value; the outer `none` of a call is a call through a `NULL`
function pointer. -/

/-- A cell renderer, by identity. -/
abbrev GtkCellRenderer := Nat

/-- A cell area iter, by identity. -/
abbrev GtkCellAreaIter := Nat

/-- A widget, by identity. -/
abbrev GtkWidget := Nat

/-- The enumeration `GtkSizeRequestMode`. -/
inductive GtkSizeRequestMode where
  | GTK_SIZE_REQUEST_HEIGHT_FOR_WIDTH
  | GTK_SIZE_REQUEST_WIDTH_FOR_HEIGHT
  deriving DecidableEq, Repr

/-- The structure `GdkRectangle`. -/
structure GdkRectangle where
  x : Int
  y : Int
  width : Int
  height : Int
  deriving DecidableEq, Repr

/-- The structure `GtkBorder`. Its fields are `gint16` in gtk/gtkborder.h, which
    is not among the sources; they are read as integers. -/
structure GtkBorder where
  left : Int
  right : Int
  top : Int
  bottom : Int
  deriving DecidableEq, Repr

/-- An instance of `GtkCellArea`: the name of its type, the private data of
    the base class (`cell_info` holds the keys of the hash table) and the
    state of the concrete variant. -/
structure GtkCellArea where
  type_name : String
  cell_info : List GtkCellRenderer
  cell_border : GtkBorder
  focus_cell : Option GtkCellRenderer
  can_focus : Bool
  variant_state : Nat
  deriving DecidableEq, Repr

/-- What the functions log: the `g_warning` of an unimplemented class slot,
    with the slot and the type name it prints, and the `g_critical` of a
    failed `g_return_if_fail` check, with the checked expression. Neither
    stops the program. -/
inductive GtkLogEntry where
  | not_implemented (slot : String) (type_name : String)
  | check_failed (expression : String)
  deriving DecidableEq, Repr

/-- What a call of a cell-area function leaves behind. -/
structure GtkCellAreaCall (α : Type) where
  area : GtkCellArea
  log : List GtkLogEntry
  value : α

/-- The two out-parameters `minimum` and `natural` of a size request. -/
abbrev GtkRequestedSize := Int × Int

/-- A slot for a size request at a given size in the other orientation
    (`get_preferred_height_for_width`, `get_preferred_width_for_height`):
    `NULL`, the handler `gtk_cell_area_real_get_preferred_..._for_...` of the
    base class, or a handler of the concrete variant. -/
inductive GtkSizeForSizeSlot where
  | null
  | real
  | variant (handler : GtkCellArea → Option GtkCellAreaIter → GtkWidget → Int →
      GtkRequestedSize → GtkCellArea × GtkRequestedSize)

/-- The slots of `GtkCellAreaClass` that the public functions call. -/
structure GtkCellAreaClass where
  add : Option (GtkCellArea → GtkCellRenderer → GtkCellArea)
  remove : Option (GtkCellArea → GtkCellRenderer → GtkCellArea)
  forall_ : Option (GtkCellArea → (GtkCellRenderer → Nat → Bool) → Nat → GtkCellArea)
  event : Option (GtkCellArea → GtkCellAreaIter → GtkWidget → GdkEvent → GdkRectangle →
    Nat → GtkCellArea × Int)
  render : Option (GtkCellArea → GtkCellAreaIter → GtkWidget → Nat → GdkRectangle →
    Nat → GtkCellArea)
  create_iter : Option (GtkCellArea → GtkCellArea × Option GtkCellAreaIter)
  get_request_mode : Option (GtkCellArea → GtkCellArea × GtkSizeRequestMode)
  get_preferred_width : Option (GtkCellArea → Option GtkCellAreaIter → GtkWidget →
    GtkRequestedSize → GtkCellArea × GtkRequestedSize)
  get_preferred_height : Option (GtkCellArea → Option GtkCellAreaIter → GtkWidget →
    GtkRequestedSize → GtkCellArea × GtkRequestedSize)
  get_preferred_height_for_width : GtkSizeForSizeSlot
  get_preferred_width_for_height : GtkSizeForSizeSlot
  grab_focus : Option (GtkCellArea → Nat → GtkCellArea)

/-- The slots `gtk_cell_area_class_init` sets: what a concrete variant has in
    every slot it leaves unimplemented. -/
def gtk_cell_area_class_init : GtkCellAreaClass :=
  { add := none, remove := none, forall_ := none, event := none, render := none,
    create_iter := none, get_request_mode := none, get_preferred_width := none,
    get_preferred_height := none,
    get_preferred_height_for_width := GtkSizeForSizeSlot.real,
    get_preferred_width_for_height := GtkSizeForSizeSlot.real,
    grab_focus := none }

/-- The statement `g_warning ("GtkCellAreaClass::... not implemented for ...")`. -/
def g_warning_not_implemented (area : GtkCellArea) (slot : String) : GtkLogEntry :=
  GtkLogEntry.not_implemented slot area.type_name

/-- A return through a failed `g_return_if_fail` or `g_return_val_if_fail`. -/
def g_return_val_if_fail {α : Type} (area : GtkCellArea) (expression : String) (value : α) :
    Option (GtkCellAreaCall α) :=
  some { area := area, log := [GtkLogEntry.check_failed expression], value := value }

/-- The function `gtk_cell_area_real_get_preferred_height_for_width`: it calls
    the slot `get_preferred_width` of the class without testing it. -/
def gtk_cell_area_real_get_preferred_height_for_width (klass : GtkCellAreaClass)
    (area : GtkCellArea) (iter : Option GtkCellAreaIter) (widget : GtkWidget) (_width : Int)
    (size : GtkRequestedSize) : Option (GtkCellArea × GtkRequestedSize) :=
  match klass.get_preferred_width with
  | some get_preferred_width => some (get_preferred_width area iter widget size)
  | none => none

/-- The function `gtk_cell_area_real_get_preferred_width_for_height`: it calls
    the slot `get_preferred_width` of the class without testing it. -/
def gtk_cell_area_real_get_preferred_width_for_height (klass : GtkCellAreaClass)
    (area : GtkCellArea) (iter : Option GtkCellAreaIter) (widget : GtkWidget) (_height : Int)
    (size : GtkRequestedSize) : Option (GtkCellArea × GtkRequestedSize) :=
  match klass.get_preferred_width with
  | some get_preferred_width => some (get_preferred_width area iter widget size)
  | none => none

/-- The function `gtk_cell_area_add`. -/
def gtk_cell_area_add (klass : GtkCellAreaClass) (area : GtkCellArea)
    (renderer : Option GtkCellRenderer) : Option (GtkCellAreaCall Unit) :=
  match renderer with
  | none => g_return_val_if_fail area "GTK_IS_CELL_RENDERER (renderer)" ()
  | some renderer =>
    match klass.add with
    | some add => some { area := add area renderer, log := [], value := () }
    | none => some { area := area, log := [g_warning_not_implemented area "add"], value := () }

/-- The function `gtk_cell_area_remove`. -/
def gtk_cell_area_remove (klass : GtkCellAreaClass) (area : GtkCellArea)
    (renderer : Option GtkCellRenderer) : Option (GtkCellAreaCall Unit) :=
  match renderer with
  | none => g_return_val_if_fail area "GTK_IS_CELL_RENDERER (renderer)" ()
  | some renderer =>
    -- g_hash_table_remove (priv->cell_info, renderer)
    let area := { area with cell_info := area.cell_info.filter (fun r => r ≠ renderer) }
    match klass.remove with
    | some remove => some { area := remove area renderer, log := [], value := () }
    | none =>
      some { area := area, log := [g_warning_not_implemented area "remove"], value := () }

/-- The function `gtk_cell_area_forall`. -/
def gtk_cell_area_forall (klass : GtkCellAreaClass) (area : GtkCellArea)
    (callback : Option (GtkCellRenderer → Nat → Bool)) (callback_data : Nat) :
    Option (GtkCellAreaCall Unit) :=
  match callback with
  | none => g_return_val_if_fail area "callback != NULL" ()
  | some callback =>
    match klass.forall_ with
    | some forall_ =>
      some { area := forall_ area callback callback_data, log := [], value := () }
    | none =>
      some { area := area, log := [g_warning_not_implemented area "forall"], value := () }

/-- The function `gtk_cell_area_event`. -/
def gtk_cell_area_event (klass : GtkCellAreaClass) (area : GtkCellArea)
    (iter : Option GtkCellAreaIter) (widget : Option GtkWidget) (event : Option GdkEvent)
    (cell_area : Option GdkRectangle) (flags : Nat) : Option (GtkCellAreaCall Int) :=
  match iter with
  | none => g_return_val_if_fail area "GTK_IS_CELL_AREA_ITER (iter)" 0
  | some iter =>
    match widget with
    | none => g_return_val_if_fail area "GTK_IS_WIDGET (widget)" 0
    | some widget =>
      match event with
      | none => g_return_val_if_fail area "event != NULL" 0
      | some event =>
        match cell_area with
        | none => g_return_val_if_fail area "cell_area != NULL" 0
        | some cell_area =>
          match klass.event with
          | some handler =>
            let r := handler area iter widget event cell_area flags
            some { area := r.1, log := [], value := r.2 }
          | none =>
            some { area := area, log := [g_warning_not_implemented area "event"], value := 0 }

/-- The function `gtk_cell_area_render`. -/
def gtk_cell_area_render (klass : GtkCellAreaClass) (area : GtkCellArea)
    (iter : Option GtkCellAreaIter) (widget : Option GtkWidget) (cr : Option Nat)
    (cell_area : Option GdkRectangle) (flags : Nat) : Option (GtkCellAreaCall Unit) :=
  match iter with
  | none => g_return_val_if_fail area "GTK_IS_CELL_AREA_ITER (iter)" ()
  | some iter =>
    match widget with
    | none => g_return_val_if_fail area "GTK_IS_WIDGET (widget)" ()
    | some widget =>
      match cr with
      | none => g_return_val_if_fail area "cr != NULL" ()
      | some cr =>
        match cell_area with
        | none => g_return_val_if_fail area "cell_area != NULL" ()
        | some cell_area =>
          match klass.render with
          | some render =>
            some { area := render area iter widget cr cell_area flags, log := [], value := () }
          | none =>
            some { area := area, log := [g_warning_not_implemented area "render"],
                   value := () }

/-- The function `gtk_cell_area_create_iter`. -/
def gtk_cell_area_create_iter (klass : GtkCellAreaClass) (area : GtkCellArea) :
    Option (GtkCellAreaCall (Option GtkCellAreaIter)) :=
  match klass.create_iter with
  | some create_iter =>
    let r := create_iter area
    some { area := r.1, log := [], value := r.2 }
  | none =>
    some { area := area, log := [g_warning_not_implemented area "create_iter"], value := none }

/-- The function `gtk_cell_area_get_request_mode`. -/
def gtk_cell_area_get_request_mode (klass : GtkCellAreaClass) (area : GtkCellArea) :
    Option (GtkCellAreaCall GtkSizeRequestMode) :=
  match klass.get_request_mode with
  | some get_request_mode =>
    let r := get_request_mode area
    some { area := r.1, log := [], value := r.2 }
  | none =>
    some { area := area, log := [g_warning_not_implemented area "get_request_mode"],
           value := GtkSizeRequestMode.GTK_SIZE_REQUEST_HEIGHT_FOR_WIDTH }

/-- The function `gtk_cell_area_get_preferred_width`; `size` is what the two
    out-parameters hold before the call, the value what they hold after. -/
def gtk_cell_area_get_preferred_width (klass : GtkCellAreaClass) (area : GtkCellArea)
    (iter : Option GtkCellAreaIter) (widget : Option GtkWidget) (size : GtkRequestedSize) :
    Option (GtkCellAreaCall GtkRequestedSize) :=
  match widget with
  | none => g_return_val_if_fail area "GTK_IS_WIDGET (widget)" size
  | some widget =>
    match klass.get_preferred_width with
    | some get_preferred_width =>
      let r := get_preferred_width area iter widget size
      some { area := r.1, log := [], value := r.2 }
    | none =>
      some { area := area, log := [g_warning_not_implemented area "get_preferred_width"],
             value := size }

/-- The function `gtk_cell_area_get_preferred_height`. -/
def gtk_cell_area_get_preferred_height (klass : GtkCellAreaClass) (area : GtkCellArea)
    (iter : Option GtkCellAreaIter) (widget : Option GtkWidget) (size : GtkRequestedSize) :
    Option (GtkCellAreaCall GtkRequestedSize) :=
  match widget with
  | none => g_return_val_if_fail area "GTK_IS_WIDGET (widget)" size
  | some widget =>
    match klass.get_preferred_height with
    | some get_preferred_height =>
      let r := get_preferred_height area iter widget size
      some { area := r.1, log := [], value := r.2 }
    | none =>
      some { area := area, log := [g_warning_not_implemented area "get_preferred_height"],
             value := size }

/-- The function `gtk_cell_area_get_preferred_height_for_width`: the slot is
    called without a test. -/
def gtk_cell_area_get_preferred_height_for_width (klass : GtkCellAreaClass)
    (area : GtkCellArea) (iter : Option GtkCellAreaIter) (widget : Option GtkWidget)
    (width : Int) (size : GtkRequestedSize) : Option (GtkCellAreaCall GtkRequestedSize) :=
  match widget with
  | none => g_return_val_if_fail area "GTK_IS_WIDGET (widget)" size
  | some widget =>
    match klass.get_preferred_height_for_width with
    | GtkSizeForSizeSlot.null => none
    | GtkSizeForSizeSlot.real =>
      match gtk_cell_area_real_get_preferred_height_for_width klass area iter widget width
          size with
      | some r => some { area := r.1, log := [], value := r.2 }
      | none => none
    | GtkSizeForSizeSlot.variant handler =>
      let r := handler area iter widget width size
      some { area := r.1, log := [], value := r.2 }

/-- The function `gtk_cell_area_get_preferred_width_for_height`: the slot is
    called without a test. -/
def gtk_cell_area_get_preferred_width_for_height (klass : GtkCellAreaClass)
    (area : GtkCellArea) (iter : Option GtkCellAreaIter) (widget : Option GtkWidget)
    (height : Int) (size : GtkRequestedSize) : Option (GtkCellAreaCall GtkRequestedSize) :=
  match widget with
  | none => g_return_val_if_fail area "GTK_IS_WIDGET (widget)" size
  | some widget =>
    match klass.get_preferred_width_for_height with
    | GtkSizeForSizeSlot.null => none
    | GtkSizeForSizeSlot.real =>
      match gtk_cell_area_real_get_preferred_width_for_height klass area iter widget height
          size with
      | some r => some { area := r.1, log := [], value := r.2 }
      | none => none
    | GtkSizeForSizeSlot.variant handler =>
      let r := handler area iter widget height size
      some { area := r.1, log := [], value := r.2 }

/-- The function `gtk_cell_area_grab_focus`. -/
def gtk_cell_area_grab_focus (klass : GtkCellAreaClass) (area : GtkCellArea)
    (direction : Nat) : Option (GtkCellAreaCall Unit) :=
  match klass.grab_focus with
  | some grab_focus => some { area := grab_focus area direction, log := [], value := () }
  | none =>
    some { area := area, log := [g_warning_not_implemented area "grab_focus"], value := () }

/-- A cell area of a variant named `SampleArea` with two renderers that have
    cell information. -/
def sampleArea : GtkCellArea :=
  { type_name := "SampleArea", cell_info := [1, 2],
    cell_border := { left := 0, right := 0, top := 0, bottom := 0 },
    focus_cell := none, can_focus := false, variant_state := 0 }

/-- The class of a variant that implements `get_preferred_width`, answering
    minimum 10 and natural 20, and leaves every other slot as
    `gtk_cell_area_class_init` set it. -/
def widthOnlyClass : GtkCellAreaClass :=
  { gtk_cell_area_class_init with
    get_preferred_width := some (fun area _ _ _ => (area, (10, 20))) }

/-- The call reported the warning of the unimplemented slot and did nothing
    else: it returned the given area and the given value, with that one
    warning logged. -/
def WarnsAndDefaults {α : Type} (call : Option (GtkCellAreaCall α)) (area : GtkCellArea)
    (slot : String) (value : α) : Prop :=
  ∃ c, call = some c ∧ c.area = area ∧ c.value = value ∧
    c.log = [GtkLogEntry.not_implemented slot area.type_name]

/-- The native type of a focus event of the given direction: `FocusIn` for
    `in_ = true`, `FocusOut` otherwise. -/
def focus_xevent_type (in_ : Bool) : Int :=
  if in_ then FocusIn else FocusOut

/-- The NONLINEAR rule in the words of the specification, for the direction
    `in_` (In sets, Out clears): if the mode is neither GRAB nor UNGRAB,
    `has_focus_window` takes the direction; if the mode is not WHILE_GRABBED,
    `has_focus` takes the direction; nothing else changes. -/
def spec_nonlinear_rule (in_ : Bool) (t : GdkToplevelX11) (mode : Int) : GdkToplevelX11 :=
  { has_focus := if mode ≠ NotifyWhileGrabbed then in_ else t.has_focus,
    has_focus_window :=
      if mode ≠ NotifyGrab ∧ mode ≠ NotifyUngrab then in_ else t.has_focus_window,
    has_pointer_focus := t.has_pointer_focus,
    has_pointer := t.has_pointer }

/-- The first step of the ANCESTOR/VIRTUAL rule in the words of the
    specification: if the pointer is inside and the mode is neither GRAB nor
    UNGRAB, `has_pointer_focus` is cleared for In and set for Out; otherwise
    the record is left as it is. -/
def spec_ancestor_step (in_ : Bool) (t : GdkToplevelX11) (mode : Int) : GdkToplevelX11 :=
  { t with
    has_pointer_focus :=
      if t.has_pointer = true ∧ mode ≠ NotifyGrab ∧ mode ≠ NotifyUngrab then !in_
      else t.has_pointer_focus }

/-- The ANCESTOR/VIRTUAL rule in the words of the specification: the first
    step, then the NONLINEAR rule on the intermediate record. -/
def spec_ancestor_rule (in_ : Bool) (t : GdkToplevelX11) (mode : Int) : GdkToplevelX11 :=
  spec_nonlinear_rule in_ (spec_ancestor_step in_ t mode) mode

/-- The display `sampleDisplay` whose toplevel record has every flag set. -/
def allFlagsDisplay : GdkX11Display :=
  { sampleDisplay with
    toplevel := fun i =>
      if i = 1 then
        some { has_focus := true, has_focus_window := true,
               has_pointer_focus := true, has_pointer := true }
      else none }

/-- The native event `FocusIn` with detail `NotifyVirtual` and mode
    `NotifyNormal` on X window 10. -/
def focusInVirtualNormal : XEvent :=
  { sampleXEvent FocusIn with detail := NotifyVirtual, mode := NotifyNormal }

/-- The native event `FocusOut` with detail `NotifyNonlinearVirtual` and mode
    `NotifyWhileGrabbed` on X window 10. -/
def focusOutNonlinearVirtualWhileGrabbed : XEvent :=
  { sampleXEvent FocusOut with detail := NotifyNonlinearVirtual, mode := NotifyWhileGrabbed }

/-- The native event `FocusOut` with detail `NotifyPointer` and mode
    `NotifyNormal` on X window 10. -/
def focusOutPointerNormal : XEvent :=
  { sampleXEvent FocusOut with detail := NotifyPointer, mode := NotifyNormal }

/-- The native event `FocusOut` with detail `NotifyInferior` and mode
    `NotifyNormal` on X window 10. -/
def focusOutInferiorNormal : XEvent :=
  { sampleXEvent FocusOut with detail := NotifyInferior, mode := NotifyNormal }

/-- The modifiers `gdk_keymap_translate_keyboard_state` reports as consumed
    for the native key event: the value it stores in `consumed`, asked with
    the key code and the group as the event holds them (`guint16`, `guint8`). -/
def consumed_modifiers (display : GdkX11Display) (xevent : XEvent) : Nat :=
  (display.translate_keyboard_state (xevent.keycode % 2 ^ 16) xevent.state
    (display.get_group_for_state xevent.state % 2 ^ 8)).2

/-- The display `sampleDisplay` under a keymap whose virtual-modifier
    expansion adds CONTROL to a state that has the modifier bit 8 (Mod1). -/
def virtualControlDisplay : GdkX11Display :=
  { sampleDisplay with
    add_virt_mods := fun state =>
      if state &&& 8 ≠ 0 then state ||| GDK_CONTROL_MASK else state }

/-- A `KeyPress` of key code 0x61 (the letter a under the keymap of
    `sampleDisplay`) with the native state 8: Mod1 set, CONTROL clear. -/
def mod1KeyPress : XEvent :=
  { sampleXEvent KeyPress with keycode := 0x61, state := 8 }

/-- What `set_user_time` adds to the calls of `gdk_x11_window_set_user_time`
    for an event on the window `w` with the time stamp `time`: the call on
    the toplevel of `w`, unless the time stamp is `GDK_CURRENT_TIME`. -/
def user_time_call (display : GdkX11Display) (w : GdkWindow) (time : Nat) : List (Nat × Nat) :=
  if time ≠ GDK_CURRENT_TIME then
    [((display.gdk_window_get_toplevel (display.gdk_window_get_toplevel w)).id, time)]
  else []

/-- A `ButtonPress` of button 1 at time 1000 on X window 10 whose root window
    101 resolves to no screen. -/
def buttonPressUnknownRoot : XEvent :=
  { sampleXEvent ButtonPress with button := 1, time := 1000, root := 101 }

/-- A `KeyPress` of key code 38 at time 1000 on X window 10. -/
def keyPress38 : XEvent :=
  { sampleXEvent KeyPress with keycode := 38, time := 1000 }

/-- The class of a variant that implements `get_preferred_width`, answering
    minimum 10 and natural 20, and `get_preferred_height`, answering minimum
    30 and natural 40, and leaves every other slot as
    `gtk_cell_area_class_init` set it. -/
def widthHeightClass : GtkCellAreaClass :=
  { gtk_cell_area_class_init with
    get_preferred_width := some (fun area _ _ _ => (area, (10, 20))),
    get_preferred_height := some (fun area _ _ _ => (area, (30, 40))) }

/-- The enumeration `GtkOrientation`. -/
inductive GtkOrientation where
  | GTK_ORIENTATION_HORIZONTAL
  | GTK_ORIENTATION_VERTICAL
  deriving DecidableEq, Repr

/-- The GLib constant `G_MAXINT`. -/
def G_MAXINT : Int := 2147483647

/-- The GLib constant `G_MININT`. -/
def G_MININT : Int := -2147483648

/-- The value a `gint` holds after an arithmetic result `x` is stored in it:
    32 bits, two's complement, so a result outside `G_MININT .. G_MAXINT`
    wraps around. -/
def gint (x : Int) : Int :=
  (x + 2147483648) % 4294967296 - 2147483648

/-- The GLib macro `MAX (a, b)`. -/
def MAX (a b : Int) : Int :=
  if a > b then a else b

/-- The size requests of the cell renderers: the functions
    `gtk_cell_renderer_get_preferred_width`, `..._height`,
    `..._width_for_height` and `..._height_for_width`
    (gtk/gtkcellrenderer.c is not among the sources), each as the values it
    stores in its out-parameters `minimum_size` and `natural_size`. -/
structure GtkCellRendererRequests where
  get_preferred_width : GtkCellRenderer → GtkWidget → GtkRequestedSize
  get_preferred_height : GtkCellRenderer → GtkWidget → GtkRequestedSize
  get_preferred_width_for_height : GtkCellRenderer → GtkWidget → Int → GtkRequestedSize
  get_preferred_height_for_width : GtkCellRenderer → GtkWidget → Int → GtkRequestedSize

/-- The function `gtk_cell_area_request_renderer`. The out-parameters
    `minimum_size` and `natural_size` are `none` for a `NULL` pointer and hold
    the pointed-to `gint` otherwise; the value of the call is what they hold
    afterwards. -/
def gtk_cell_area_request_renderer (requests : GtkCellRendererRequests) (area : GtkCellArea)
    (renderer : Option GtkCellRenderer) (orientation : GtkOrientation)
    (widget : Option GtkWidget) (for_size : Int) (minimum_size natural_size : Option Int) :
    GtkCellAreaCall (Option Int × Option Int) :=
  match renderer with
  | none =>
    { area := area, log := [GtkLogEntry.check_failed "GTK_IS_CELL_RENDERER (renderer)"],
      value := (minimum_size, natural_size) }
  | some renderer =>
    match widget with
    | none =>
      { area := area, log := [GtkLogEntry.check_failed "GTK_IS_WIDGET (widget)"],
        value := (minimum_size, natural_size) }
    | some widget =>
      match minimum_size with
      | none =>
        { area := area, log := [GtkLogEntry.check_failed "minimum_size != NULL"],
          value := (minimum_size, natural_size) }
      | some _ =>
        match natural_size with
        | none =>
          { area := area, log := [GtkLogEntry.check_failed "natural_size != NULL"],
            value := (minimum_size, natural_size) }
        | some _ =>
          let cell_border := area.cell_border
          if orientation = GtkOrientation.GTK_ORIENTATION_HORIZONTAL then
            let size : GtkRequestedSize :=
              if for_size < 0 then requests.get_preferred_width renderer widget
              else
                let for_size :=
                  MAX 0 (gint (for_size - gint (cell_border.top + cell_border.bottom)))
                requests.get_preferred_width_for_height renderer widget for_size
            { area := area, log := [],
              value :=
                (some (gint (size.1 + gint (cell_border.left + cell_border.right))),
                 some (gint (size.2 + gint (cell_border.left + cell_border.right)))) }
          else
            let size : GtkRequestedSize :=
              if for_size < 0 then requests.get_preferred_height renderer widget
              else
                let for_size :=
                  MAX 0 (gint (for_size - gint (cell_border.left + cell_border.right)))
                requests.get_preferred_height_for_width renderer widget for_size
            { area := area, log := [],
              value :=
                (some (gint (size.1 + gint (cell_border.top + cell_border.bottom))),
                 some (gint (size.2 + gint (cell_border.top + cell_border.bottom)))) }

/-- The integer `x` is a value of the type `gint`. -/
def gint_representable (x : Int) : Prop :=
  G_MININT ≤ x ∧ x ≤ G_MAXINT

instance (x : Int) : Decidable (gint_representable x) := by
  unfold gint_representable
  infer_instance

/-- The area `sampleArea` with the cell border left 1, right 2, top 3,
    bottom 4. -/
def borderedArea : GtkCellArea :=
  { sampleArea with cell_border := { left := 1, right := 2, top := 3, bottom := 4 } }

/-- Renderers that answer the plain requests with (10, 20) for the width and
    (30, 40) for the height, and a request at a given size `n` with
    `(n, n + 100)`. -/
def sampleRequests : GtkCellRendererRequests :=
  { get_preferred_width := fun _ _ => (10, 20),
    get_preferred_height := fun _ _ => (30, 40),
    get_preferred_width_for_height := fun _ _ n => (n, n + 100),
    get_preferred_height_for_width := fun _ _ n => (n, n + 100) }

/-- Renderers whose preferred width is `G_MAXINT`, minimum and natural. -/
def hugeRequests : GtkCellRendererRequests :=
  { sampleRequests with get_preferred_width := fun _ _ => (G_MAXINT, G_MAXINT) }

/-! ## Lemmas shared by the properties -/

theorem translate_event_live (dm : GdkX11DeviceManagerCore) (display : GdkX11Display)
    (event : GdkEvent) (xevent : XEvent) (w : GdkWindow)
    (hw : get_event_window dm display xevent = some w)
    (hd : GDK_WINDOW_DESTROYED w = false) :
    gdk_x11_device_manager_core_translate_event dm display event xevent =
      translate_event_body dm (g_object_ref display w) (some w) event xevent := by
  simp [gdk_x11_device_manager_core_translate_event, hw, hd, GDK_IS_WINDOW]

theorem translate_event_destroyed (dm : GdkX11DeviceManagerCore) (display : GdkX11Display)
    (event : GdkEvent) (xevent : XEvent) (w : GdkWindow)
    (hw : get_event_window dm display xevent = some w)
    (hd : GDK_WINDOW_DESTROYED w = true) :
    gdk_x11_device_manager_core_translate_event dm display event xevent =
      some { return_val := false, event := event, display := display } := by
  simp [gdk_x11_device_manager_core_translate_event, hw, hd]

theorem translate_event_unresolved (dm : GdkX11DeviceManagerCore) (display : GdkX11Display)
    (event : GdkEvent) (xevent : XEvent)
    (hw : get_event_window dm display xevent = none) :
    gdk_x11_device_manager_core_translate_event dm display event xevent =
      translate_event_body dm display none event xevent := by
  simp [gdk_x11_device_manager_core_translate_event, hw]

theorem translate_event_body_focus (dm : GdkX11DeviceManagerCore) (display : GdkX11Display)
    (event : GdkEvent) (xevent : XEvent) (w : GdkWindow)
    (hd : GDK_WINDOW_DESTROYED w = false)
    (htype : xevent.type = FocusIn ∨ xevent.type = FocusOut) :
    translate_event_body dm display (some w) event xevent =
      some (translate_event_done true (some w)
        { event with window := some w, send_event := xevent.send_event }
        (translate_focus dm display (some w) (decide (xevent.type = FocusIn)) xevent)) := by
  rcases htype with h | h <;>
    simp [translate_event_body, translate_event_switch, h, hd, FocusIn, FocusOut, KeyPress,
      KeyRelease, ButtonPress, ButtonRelease, MotionNotify, EnterNotify, LeaveNotify]

@[simp] theorem translate_event_done_return_val (rv : Bool) (window : Option GdkWindow)
    (e : GdkEvent) (d : GdkX11Display) :
    (translate_event_done rv window e d).return_val = rv := rfl

@[simp] theorem translate_event_done_event_queue (rv : Bool) (window : Option GdkWindow)
    (e : GdkEvent) (d : GdkX11Display) :
    (translate_event_done rv window e d).display.event_queue = d.event_queue := by
  unfold translate_event_done
  cases rv <;> cases window <;> simp [g_object_ref, g_object_unref] <;>
    (repeat' split) <;> rfl

@[simp] theorem translate_event_done_toplevel (rv : Bool) (window : Option GdkWindow)
    (e : GdkEvent) (d : GdkX11Display) :
    (translate_event_done rv window e d).display.toplevel = d.toplevel := by
  unfold translate_event_done
  cases rv <;> cases window <;> simp [g_object_ref, g_object_unref] <;>
    (repeat' split) <;> rfl

theorem translate_event_done_event_true (window : Option GdkWindow)
    (e : GdkEvent) (d : GdkX11Display) :
    (translate_event_done true window e d).event = e := rfl

theorem translate_event_done_event_false (window : Option GdkWindow)
    (e : GdkEvent) (d : GdkX11Display) :
    (translate_event_done false window e d).event =
      { e with window := none, type := GDK_NOTHING } := rfl

theorem generate_focus_event_queue (display : GdkX11Display) (dm : GdkX11DeviceManagerCore)
    (w : GdkWindow) (in_ : Bool) :
    (generate_focus_event display dm w in_).event_queue =
      display.event_queue ++ [focus_change_event dm w in_] := rfl

theorem generate_focus_event_toplevel (display : GdkX11Display) (dm : GdkX11DeviceManagerCore)
    (w : GdkWindow) (in_ : Bool) :
    (generate_focus_event display dm w in_).toplevel = display.toplevel := rfl

theorem translate_focus_toplevel (dm : GdkX11DeviceManagerCore) (display : GdkX11Display)
    (w : GdkWindow) (t : GdkToplevelX11) (in_ : Bool) (xevent : XEvent)
    (ht : display.toplevel w.id = some t) :
    (translate_focus dm display (some w) in_ xevent).toplevel w.id =
      some (focus_switch in_ t xevent.detail xevent.mode) := by
  unfold translate_focus focus_switch
  simp only [ht]
  by_cases h : HAS_FOCUS (if in_ = true then focus_in_switch t xevent.detail xevent.mode
      else focus_out_switch t xevent.detail xevent.mode) = HAS_FOCUS t
  · simp [h]
  · simp [h, generate_focus_event_toplevel]

theorem translate_focus_queue (dm : GdkX11DeviceManagerCore) (display : GdkX11Display)
    (w : GdkWindow) (t : GdkToplevelX11) (in_ : Bool) (xevent : XEvent)
    (ht : display.toplevel w.id = some t) :
    (translate_focus dm display (some w) in_ xevent).event_queue =
      if HAS_FOCUS (focus_switch in_ t xevent.detail xevent.mode) ≠ HAS_FOCUS t then
        display.event_queue ++ [focus_change_event dm w in_]
      else display.event_queue := by
  unfold translate_focus focus_switch
  simp only [ht]
  by_cases h : HAS_FOCUS (if in_ = true then focus_in_switch t xevent.detail xevent.mode
      else focus_out_switch t xevent.detail xevent.mode) = HAS_FOCUS t
  · simp [h]
  · simp [h, generate_focus_event_queue]

/-- A focus event on a live window with a toplevel record: the result of the
    translator, its focus record and its event queue. -/
theorem translate_event_focus (dm : GdkX11DeviceManagerCore) (display : GdkX11Display)
    (event : GdkEvent) (xevent : XEvent) (w : GdkWindow) (t : GdkToplevelX11)
    (htype : xevent.type = FocusIn ∨ xevent.type = FocusOut)
    (hw : get_event_window dm display xevent = some w)
    (hd : GDK_WINDOW_DESTROYED w = false)
    (ht : display.toplevel w.id = some t) :
    ∃ r, gdk_x11_device_manager_core_translate_event dm display event xevent = some r ∧
      r.return_val = true ∧
      r.display.toplevel w.id =
        some (focus_switch (decide (xevent.type = FocusIn)) t xevent.detail xevent.mode) ∧
      r.display.event_queue =
        if HAS_FOCUS (focus_switch (decide (xevent.type = FocusIn)) t xevent.detail xevent.mode)
            ≠ HAS_FOCUS t then
          display.event_queue ++ [focus_change_event dm w (decide (xevent.type = FocusIn))]
        else display.event_queue := by
  have ht2 : (g_object_ref display w).toplevel w.id = some t := ht
  refine ⟨_, (translate_event_live dm display event xevent w hw hd).trans
    (translate_event_body_focus dm _ event xevent w hd htype), rfl, ?_, ?_⟩
  · rw [translate_event_done_toplevel]
    exact translate_focus_toplevel dm _ w t _ xevent ht2
  · rw [translate_event_done_event_queue]
    exact translate_focus_queue dm _ w t _ xevent ht2

/-! ## Focus events -/

/-- C1 (amended): for a native FocusIn or FocusOut event on a resolved live window
    with a toplevel focus record, the translator injects a FOCUS_CHANGE event
    if and only if the value of the macro HAS_FOCUS, which is
    has_focus OR has_pointer_focus, differs before and after the transition;
    otherwise the event queue is unchanged. -/
theorem focus_event_iff_HAS_FOCUS_toggles (dm : GdkX11DeviceManagerCore)
    (display : GdkX11Display) (event : GdkEvent) (xevent : XEvent) (w : GdkWindow)
    (t : GdkToplevelX11)
    (htype : xevent.type = FocusIn ∨ xevent.type = FocusOut)
    (hw : get_event_window dm display xevent = some w)
    (hd : GDK_WINDOW_DESTROYED w = false)
    (ht : display.toplevel w.id = some t) :
    ∃ r t', gdk_x11_device_manager_core_translate_event dm display event xevent = some r ∧
      r.display.toplevel w.id = some t' ∧
      ((∃ e, e.type = GDK_FOCUS_CHANGE ∧
          r.display.event_queue = display.event_queue ++ [e]) ↔ HAS_FOCUS t' ≠ HAS_FOCUS t) ∧
      (HAS_FOCUS t' = HAS_FOCUS t → r.display.event_queue = display.event_queue) := by
  obtain ⟨r, hr, -, htop, hq⟩ := translate_event_focus dm display event xevent w t htype hw hd ht
  refine ⟨r, _, hr, htop, ⟨?_, ?_⟩, ?_⟩
  · rintro ⟨e, -, he⟩ hsame
    rw [hq, if_neg (not_not.mpr hsame)] at he
    simp at he
  · intro hne
    exact ⟨_, rfl, by rw [hq, if_pos hne]⟩
  · intro hsame
    rw [hq, if_neg (not_not.mpr hsame)]

theorem focus_event_iff_HAS_FOCUS_toggles_witness :
    (focusInNonlinearGrab.type = FocusIn ∨ focusInNonlinearGrab.type = FocusOut) ∧
    get_event_window gdk_x11_device_manager_core_constructed sampleDisplay
      focusInNonlinearGrab = some sampleToplevel ∧
    GDK_WINDOW_DESTROYED sampleToplevel = false ∧
    sampleDisplay.toplevel sampleToplevel.id = some (GdkToplevelX11.mk false false false false) ∧
    ∃ r t', gdk_x11_device_manager_core_translate_event gdk_x11_device_manager_core_constructed
        sampleDisplay (gdk_event_new GDK_NOTHING) focusInNonlinearGrab = some r ∧
      r.display.toplevel sampleToplevel.id = some t' ∧
      ((∃ e, e.type = GDK_FOCUS_CHANGE ∧
          r.display.event_queue = sampleDisplay.event_queue ++ [e]) ↔
        HAS_FOCUS t' ≠ HAS_FOCUS (GdkToplevelX11.mk false false false false)) ∧
      (HAS_FOCUS t' = HAS_FOCUS (GdkToplevelX11.mk false false false false) →
        r.display.event_queue = sampleDisplay.event_queue) :=
  ⟨Or.inl rfl, rfl, rfl, rfl,
    focus_event_iff_HAS_FOCUS_toggles gdk_x11_device_manager_core_constructed sampleDisplay
      (gdk_event_new GDK_NOTHING) focusInNonlinearGrab sampleToplevel _ (Or.inl rfl) rfl rfl rfl⟩

/-- C1 (as stated, refuted): on the all-zero focus record, a FocusIn with detail
    NotifyNonlinear and mode NotifyGrab injects a FOCUS_CHANGE event (the queue
    goes from empty to one event) although has_focus_window OR
    has_pointer_focus is false before and false after. -/
theorem focus_event_without_spec_flag_toggle :
    (sampleDisplay.event_queue.map (fun e => e.type),
      (sampleDisplay.toplevel 1).map spec_HAS_FOCUS) = ([], some false) ∧
    (gdk_x11_device_manager_core_translate_event gdk_x11_device_manager_core_constructed
        sampleDisplay (gdk_event_new GDK_NOTHING) focusInNonlinearGrab).map
      (fun r => (r.display.event_queue.map (fun e => e.type),
        (r.display.toplevel 1).map spec_HAS_FOCUS)) =
      some ([GDK_FOCUS_CHANGE], some false) := by
  decide

theorem focus_in_switch_direction (t : GdkToplevelX11) (detail mode : Int)
    (hne : HAS_FOCUS (focus_in_switch t detail mode) ≠ HAS_FOCUS t)
    (hc : ¬ ((detail = NotifyAncestor ∨ detail = NotifyVirtual) ∧ t.has_pointer = true ∧
      mode ≠ NotifyGrab ∧ mode ≠ NotifyUngrab)) :
    HAS_FOCUS (focus_in_switch t detail mode) = true := by
  obtain ⟨a, b, c, d⟩ := t
  revert hne hc
  cases a <;> cases c <;>
    simp only [focus_in_switch, focus_in_nonlinear, HAS_FOCUS] <;>
    intro hne hc <;> split_ifs at hne ⊢ <;> simp_all

theorem focus_out_switch_direction (t : GdkToplevelX11) (detail mode : Int)
    (hne : HAS_FOCUS (focus_out_switch t detail mode) ≠ HAS_FOCUS t)
    (hc : ¬ ((detail = NotifyAncestor ∨ detail = NotifyVirtual) ∧ t.has_pointer = true ∧
      mode ≠ NotifyGrab ∧ mode ≠ NotifyUngrab)) :
    HAS_FOCUS (focus_out_switch t detail mode) = false := by
  obtain ⟨a, b, c, d⟩ := t
  revert hne hc
  cases a <;> cases c <;>
    simp only [focus_out_switch, focus_out_nonlinear, HAS_FOCUS] <;>
    intro hne hc <;> split_ifs at hne ⊢ <;> simp_all

/-- C2 (amended): whenever translation of a native FocusIn or FocusOut event
    injects a FOCUS_CHANGE event, that event targets the resolved window,
    carries the core keyboard device, and its field in is TRUE for FocusIn and
    FALSE for FocusOut. That value equals HAS_FOCUS (has_focus OR
    has_pointer_focus) after the transition unless the detail is
    NotifyAncestor or NotifyVirtual, the pointer is inside (has_pointer) and
    the mode is neither NotifyGrab nor NotifyUngrab. -/
theorem focus_event_carries_direction (dm : GdkX11DeviceManagerCore)
    (display : GdkX11Display) (event : GdkEvent) (xevent : XEvent) (w : GdkWindow)
    (t : GdkToplevelX11)
    (htype : xevent.type = FocusIn ∨ xevent.type = FocusOut)
    (hw : get_event_window dm display xevent = some w)
    (hd : GDK_WINDOW_DESTROYED w = false)
    (ht : display.toplevel w.id = some t) :
    ∃ r t', gdk_x11_device_manager_core_translate_event dm display event xevent = some r ∧
      r.display.toplevel w.id = some t' ∧
      ∀ e, r.display.event_queue = display.event_queue ++ [e] →
        e.type = GDK_FOCUS_CHANGE ∧ e.window = some w ∧
        e.device = some dm.core_keyboard ∧
        e.in_ = decide (xevent.type = FocusIn) ∧
        (¬ ((xevent.detail = NotifyAncestor ∨ xevent.detail = NotifyVirtual) ∧
            t.has_pointer = true ∧ xevent.mode ≠ NotifyGrab ∧ xevent.mode ≠ NotifyUngrab) →
          e.in_ = HAS_FOCUS t') := by
  obtain ⟨r, hr, -, htop, hq⟩ := translate_event_focus dm display event xevent w t htype hw hd ht
  refine ⟨r, _, hr, htop, ?_⟩
  intro e he
  by_cases hne : HAS_FOCUS (focus_switch (decide (xevent.type = FocusIn)) t xevent.detail
      xevent.mode) ≠ HAS_FOCUS t
  · rw [hq, if_pos hne] at he
    have hee : e = focus_change_event dm w (decide (xevent.type = FocusIn)) := by
      simpa using he.symm
    subst hee
    refine ⟨rfl, rfl, rfl, rfl, ?_⟩
    intro hc
    rcases htype with h | h
    · have h1 : decide (xevent.type = FocusIn) = true := by simp [h]
      rw [h1] at hne ⊢
      exact (focus_in_switch_direction t _ _ hne hc).symm
    · have h1 : decide (xevent.type = FocusIn) = false := by simp [h, FocusIn, FocusOut]
      rw [h1] at hne ⊢
      exact (focus_out_switch_direction t _ _ hne hc).symm
  · rw [hq, if_neg hne] at he
    simp at he

theorem focus_event_carries_direction_witness :
    (focusInPointerNormal.type = FocusIn ∨ focusInPointerNormal.type = FocusOut) ∧
    get_event_window gdk_x11_device_manager_core_constructed sampleDisplay
      focusInPointerNormal = some sampleToplevel ∧
    GDK_WINDOW_DESTROYED sampleToplevel = false ∧
    sampleDisplay.toplevel sampleToplevel.id = some (GdkToplevelX11.mk false false false false) ∧
    ∃ r t', gdk_x11_device_manager_core_translate_event gdk_x11_device_manager_core_constructed
        sampleDisplay (gdk_event_new GDK_NOTHING) focusInPointerNormal = some r ∧
      r.display.toplevel sampleToplevel.id = some t' ∧
      ∀ e, r.display.event_queue = sampleDisplay.event_queue ++ [e] →
        e.type = GDK_FOCUS_CHANGE ∧ e.window = some sampleToplevel ∧
        e.device = some gdk_x11_device_manager_core_constructed.core_keyboard ∧
        e.in_ = decide (focusInPointerNormal.type = FocusIn) ∧
        (¬ ((focusInPointerNormal.detail = NotifyAncestor ∨
              focusInPointerNormal.detail = NotifyVirtual) ∧
            (GdkToplevelX11.mk false false false false).has_pointer = true ∧
            focusInPointerNormal.mode ≠ NotifyGrab ∧ focusInPointerNormal.mode ≠ NotifyUngrab) →
          e.in_ = HAS_FOCUS t') :=
  ⟨Or.inl rfl, rfl, rfl, rfl,
    focus_event_carries_direction gdk_x11_device_manager_core_constructed sampleDisplay
      (gdk_event_new GDK_NOTHING) focusInPointerNormal sampleToplevel _ (Or.inl rfl) rfl rfl rfl⟩

/-- C2 (as stated, refuted): with the pointer inside and no focus flag set, a
    FocusOut with detail NotifyAncestor and mode NotifyNormal injects a
    FOCUS_CHANGE event whose field in is FALSE, while HAS_FOCUS after the
    transition is TRUE (under the macro of the code and under the wording of
    the specification alike). -/
theorem focus_out_event_in_differs_from_new_HAS_FOCUS :
    (gdk_x11_device_manager_core_translate_event gdk_x11_device_manager_core_constructed
        pointerInsideDisplay (gdk_event_new GDK_NOTHING) focusOutAncestorNormal).map
      (fun r => (r.display.event_queue.map (fun e => (e.type, e.in_)),
        (r.display.toplevel 1).map HAS_FOCUS, (r.display.toplevel 1).map spec_HAS_FOCUS)) =
      some ([(GDK_FOCUS_CHANGE, false)], some true, some true) := by
  decide

/-! ## Window resolution -/

theorem is_parent_of_loop_iff (g w : GdkWindow) :
    is_parent_of_loop g w = true ↔ AncestorOrSelf g w := by
  induction w with
  | top i d =>
    constructor
    · intro h
      refine AncestorOrSelf.self _ ?_
      simpa [is_parent_of_loop, GdkWindow.id] using h
    · intro h
      cases h with
      | self _ h => simpa [is_parent_of_loop, GdkWindow.id] using h
  | child i d p ih =>
    constructor
    · intro h
      by_cases hi : i = g.id
      · exact AncestorOrSelf.self _ hi
      · refine AncestorOrSelf.step i d p (ih.mp ?_)
        simpa [is_parent_of_loop, hi] using h
    · intro h
      cases h with
      | self _ h =>
        have hi : i = g.id := h
        simp [is_parent_of_loop, hi]
      | step _ _ _ h =>
        by_cases hi : i = g.id
        · simp [is_parent_of_loop, hi]
        · simpa [is_parent_of_loop, hi] using ih.mpr h

theorem is_parent_of_iff (g : GdkWindow) (child : Option GdkWindow) :
    is_parent_of g child = true ↔ ∃ c, child = some c ∧ AncestorOrSelf g c := by
  cases child with
  | none => simp [is_parent_of]
  | some c => simp [is_parent_of, is_parent_of_loop_iff]

/-- C3: the resolved window of a native event. For a KeyPress or KeyRelease
    with a grab active on the core keyboard device, it is the grab window when
    the grab window is not an ancestor-or-self of the looked-up window or the
    flag owner_events of the grab is false; in every other case, so for every
    event that is not a key event whatever the grab table holds, it is the
    window registered for the native window id. In particular a KeyPress on a
    descendant C of G under a keyboard grab on G with owner_events false
    resolves to G. -/
theorem get_event_window_resolution (dm : GdkX11DeviceManagerCore)
    (display : GdkX11Display) (xevent : XEvent) :
    (∀ info, (xevent.type = KeyPress ∨ xevent.type = KeyRelease) →
      display.has_device_grab dm.core_keyboard display.next_serial = some info →
      ((¬ ∃ c, display.gdk_x11_window_lookup_for_display xevent.window = some c ∧
          AncestorOrSelf info.window c) ∨ info.owner_events = false) →
      get_event_window dm display xevent = some info.window) ∧
    (¬ ((xevent.type = KeyPress ∨ xevent.type = KeyRelease) ∧
        ∃ info, display.has_device_grab dm.core_keyboard display.next_serial = some info ∧
          ((¬ ∃ c, display.gdk_x11_window_lookup_for_display xevent.window = some c ∧
            AncestorOrSelf info.window c) ∨ info.owner_events = false)) →
      get_event_window dm display xevent =
        display.gdk_x11_window_lookup_for_display xevent.window) ∧
    (∀ G C serial, xevent.type = KeyPress →
      display.has_device_grab dm.core_keyboard display.next_serial =
        some { window := G, owner_events := false, serial_start := serial } →
      display.gdk_x11_window_lookup_for_display xevent.window = some C →
      AncestorOrSelf G C →
      get_event_window dm display xevent = some G) := by
  have key : ∀ info, (xevent.type = KeyPress ∨ xevent.type = KeyRelease) →
      display.has_device_grab dm.core_keyboard display.next_serial = some info →
      ((¬ ∃ c, display.gdk_x11_window_lookup_for_display xevent.window = some c ∧
          AncestorOrSelf info.window c) ∨ info.owner_events = false) →
      get_event_window dm display xevent = some info.window := by
    intro info hk hg hc
    have hb : (!is_parent_of info.window
        (display.gdk_x11_window_lookup_for_display xevent.window) || !info.owner_events)
        = true := by
      rcases hc with hc | hc
      · have : is_parent_of info.window
            (display.gdk_x11_window_lookup_for_display xevent.window) = false := by
          rw [← Bool.not_eq_true, is_parent_of_iff]
          exact hc
        simp [this]
      · simp [hc]
    simp only [get_event_window, if_pos hk, hg, hb, if_true]
  refine ⟨key, ?_, ?_⟩
  · intro hn
    unfold get_event_window
    by_cases hk : xevent.type = KeyPress ∨ xevent.type = KeyRelease
    · rw [if_pos hk]
      cases hg : display.has_device_grab dm.core_keyboard display.next_serial with
      | none => simp only [hg]
      | some info =>
        have hb : (!is_parent_of info.window
            (display.gdk_x11_window_lookup_for_display xevent.window) || !info.owner_events)
            = false := by
          rw [← Bool.not_eq_true]
          intro hb
          apply hn
          refine ⟨hk, info, hg, ?_⟩
          rcases Bool.or_eq_true _ _ ▸ hb with h | h
          · left
            rw [← is_parent_of_iff]
            simpa using h
          · right
            simpa using h
        simp [hg, hb]
    · rw [if_neg hk]
  · intro G C serial hk hg _ _
    exact key _ (Or.inl hk) hg (Or.inr rfl)

theorem get_event_window_resolution_witness :
    keyPressOnChild.type = KeyPress ∧
    keyboardGrabDisplay.has_device_grab gdk_x11_device_manager_core_constructed.core_keyboard
      keyboardGrabDisplay.next_serial =
        some { window := sampleToplevel, owner_events := false, serial_start := 0 } ∧
    keyboardGrabDisplay.gdk_x11_window_lookup_for_display keyPressOnChild.window =
      some sampleChild ∧
    AncestorOrSelf sampleToplevel sampleChild ∧
    get_event_window gdk_x11_device_manager_core_constructed keyboardGrabDisplay
      keyPressOnChild = some sampleToplevel :=
  ⟨rfl, rfl, rfl, AncestorOrSelf.step 2 false sampleToplevel (AncestorOrSelf.self _ rfl),
    (get_event_window_resolution gdk_x11_device_manager_core_constructed keyboardGrabDisplay
      keyPressOnChild).2.2 sampleToplevel sampleChild 0 rfl rfl rfl
      (AncestorOrSelf.step 2 false sampleToplevel (AncestorOrSelf.self _ rfl))⟩

/-! ## Key events -/

theorem key_string_default_type (event : GdkEvent) :
    (key_string_default event).type = event.type := by
  unfold key_string_default
  split <;> rfl

theorem translate_key_event_string_type (display : GdkX11Display) (event : GdkEvent) :
    (translate_key_event_string display event).type = event.type := by
  unfold translate_key_event_string
  simp only []
  split_ifs <;> (try split) <;> (try split) <;> simp [key_string_default_type]

theorem translate_key_event_type (display : GdkX11Display) (dm : GdkX11DeviceManagerCore)
    (event : GdkEvent) (xevent : XEvent) :
    (translate_key_event display dm event xevent).type =
      if xevent.type = KeyPress then GDK_KEY_PRESS else GDK_KEY_RELEASE := by
  rw [translate_key_event, translate_key_event_string_type]
  rfl

theorem key_string_default_window (event : GdkEvent) :
    (key_string_default event).window = event.window := by
  unfold key_string_default
  split <;> rfl

theorem translate_key_event_string_window (display : GdkX11Display) (event : GdkEvent) :
    (translate_key_event_string display event).window = event.window := by
  unfold translate_key_event_string
  simp only []
  split_ifs <;> (try split) <;> (try split) <;> simp [key_string_default_window]

theorem translate_key_event_window (display : GdkX11Display) (dm : GdkX11DeviceManagerCore)
    (event : GdkEvent) (xevent : XEvent) :
    (translate_key_event display dm event xevent).window = event.window := by
  rw [translate_key_event, translate_key_event_string_window]
  rfl

theorem key_release_is_repeat_iff (display : GdkX11Display) (xevent : XEvent) :
    key_release_is_repeat display xevent = true ↔
      display.have_xkb_autorepeat = false ∧ display.pending ≠ [] ∧
      ∃ next_event, display.pending.head? = some next_event ∧ next_event.type = KeyPress ∧
        next_event.keycode = xevent.keycode ∧ next_event.time = xevent.time := by
  unfold key_release_is_repeat
  cases hp : display.pending with
  | nil => simp
  | cons next_event rest =>
    cases ha : display.have_xkb_autorepeat <;> simp [and_assoc]

theorem translate_event_body_key_release (dm : GdkX11DeviceManagerCore)
    (display : GdkX11Display) (event : GdkEvent) (xevent : XEvent) (w : GdkWindow)
    (hd : GDK_WINDOW_DESTROYED w = false) (htype : xevent.type = KeyRelease) :
    translate_event_body dm display (some w) event xevent =
      if key_release_is_repeat display xevent = true then
        some (translate_event_done false (some w)
          { event with window := some w, send_event := xevent.send_event } display)
      else
        some (translate_event_done true (some w)
          (translate_key_event display dm
            { event with window := some w, send_event := xevent.send_event } xevent) display) := by
  by_cases h : key_release_is_repeat display xevent = true <;>
    simp [translate_event_body, translate_event_switch, h, hd, htype, FocusIn, FocusOut,
      KeyPress, KeyRelease, ButtonPress, ButtonRelease, MotionNotify, EnterNotify, LeaveNotify,
      DestroyNotify]

/-- C4: for every KeyRelease on a resolved, non-destroyed window the translator
    returns, and it returns FALSE if and only if the display does not report
    detectable auto-repeat, the native queue has a pending event, and the next
    queued event is a KeyPress with the same key code and the same time stamp;
    when it returns TRUE the event is a KEY_RELEASE, in particular when the
    next queued event differs in key code or in time stamp. -/
theorem key_release_fails_iff_repeat (dm : GdkX11DeviceManagerCore)
    (display : GdkX11Display) (event : GdkEvent) (xevent : XEvent) (w : GdkWindow)
    (htype : xevent.type = KeyRelease)
    (hw : get_event_window dm display xevent = some w)
    (hd : GDK_WINDOW_DESTROYED w = false) :
    ∃ r, gdk_x11_device_manager_core_translate_event dm display event xevent = some r ∧
      (r.return_val = false ↔
        (display.have_xkb_autorepeat = false ∧ display.pending ≠ [] ∧
          ∃ next_event, display.pending.head? = some next_event ∧
            next_event.type = KeyPress ∧ next_event.keycode = xevent.keycode ∧
            next_event.time = xevent.time)) ∧
      (r.return_val = true → r.event.type = GDK_KEY_RELEASE ∧ r.event.window = some w) ∧
      (∀ next_event rest, display.pending = next_event :: rest →
        next_event.keycode ≠ xevent.keycode ∨ next_event.time ≠ xevent.time →
        r.return_val = true ∧ r.event.type = GDK_KEY_RELEASE) := by
  have hrep : key_release_is_repeat (g_object_ref display w) xevent =
      key_release_is_repeat display xevent := rfl
  have hnk : ¬ xevent.type = KeyPress := by simp [htype, KeyPress, KeyRelease]
  have hbody := (translate_event_live dm display event xevent w hw hd).trans
    (translate_event_body_key_release dm _ event xevent w hd htype)
  rw [hrep] at hbody
  by_cases h : key_release_is_repeat display xevent = true
  · rw [if_pos h] at hbody
    refine ⟨_, hbody, ?_, ?_, ?_⟩
    · simpa using (key_release_is_repeat_iff display xevent).mp h
    · simp
    · intro next_event rest hp hne
      obtain ⟨-, -, n, hn, -, hk, ht⟩ := (key_release_is_repeat_iff display xevent).mp h
      rw [hp] at hn
      simp only [List.head?_cons, Option.some.injEq] at hn
      subst hn
      rcases hne with hne | hne
      · exact absurd hk hne
      · exact absurd ht hne
  · rw [if_neg h] at hbody
    have hty : (translate_key_event (g_object_ref display w) dm
        { event with window := some w, send_event := xevent.send_event } xevent).type =
        GDK_KEY_RELEASE := by
      rw [translate_key_event_type, if_neg hnk]
    refine ⟨_, hbody, ?_, ?_, ?_⟩
    · rw [← key_release_is_repeat_iff]
      simp [h]
    · intro _
      refine ⟨by rw [translate_event_done_event_true]; exact hty, ?_⟩
      rw [translate_event_done_event_true, translate_key_event_window]
    · intro _ _ _ _
      refine ⟨rfl, ?_⟩
      rw [translate_event_done_event_true]
      exact hty

theorem key_release_fails_iff_repeat_witness :
    keyRelease38.type = KeyRelease ∧
    get_event_window gdk_x11_device_manager_core_constructed otherKeyPendingDisplay
      keyRelease38 = some sampleToplevel ∧
    GDK_WINDOW_DESTROYED sampleToplevel = false ∧
    ∃ r, gdk_x11_device_manager_core_translate_event gdk_x11_device_manager_core_constructed
        otherKeyPendingDisplay (gdk_event_new GDK_NOTHING) keyRelease38 = some r ∧
      (r.return_val = false ↔
        (otherKeyPendingDisplay.have_xkb_autorepeat = false ∧
          otherKeyPendingDisplay.pending ≠ [] ∧
          ∃ next_event, otherKeyPendingDisplay.pending.head? = some next_event ∧
            next_event.type = KeyPress ∧ next_event.keycode = keyRelease38.keycode ∧
            next_event.time = keyRelease38.time)) ∧
      (r.return_val = true →
        r.event.type = GDK_KEY_RELEASE ∧ r.event.window = some sampleToplevel) ∧
      (∀ next_event rest, otherKeyPendingDisplay.pending = next_event :: rest →
        next_event.keycode ≠ keyRelease38.keycode ∨ next_event.time ≠ keyRelease38.time →
        r.return_val = true ∧ r.event.type = GDK_KEY_RELEASE) :=
  ⟨rfl, rfl, rfl,
    key_release_fails_iff_repeat gdk_x11_device_manager_core_constructed
      otherKeyPendingDisplay (gdk_event_new GDK_NOTHING) keyRelease38 sampleToplevel
      rfl rfl rfl⟩

/-! ## Button events -/

/-- C5: a native ButtonPress on a resolved, non-destroyed window whose root
    window resolves to a screen is translated successfully. Buttons 4, 5, 6, 7
    give a SCROLL event with direction UP, DOWN, LEFT, RIGHT; every other
    button gives a BUTTON_PRESS event with the native button number. In both
    cases the event carries the resolved window, the native window-relative
    and root-relative coordinates, the native time stamp in the 32 bits of the
    time field of the event, the native modifier state, the core pointer
    device and the screen. -/
theorem button_press_classification (dm : GdkX11DeviceManagerCore)
    (display : GdkX11Display) (event : GdkEvent) (xevent : XEvent) (w : GdkWindow)
    (screen : GdkScreen)
    (htype : xevent.type = ButtonPress)
    (hw : get_event_window dm display xevent = some w)
    (hd : GDK_WINDOW_DESTROYED w = false)
    (hs : display.screen_for_xrootwin xevent.root = some screen) :
    ∃ r, gdk_x11_device_manager_core_translate_event dm display event xevent = some r ∧
      r.return_val = true ∧
      (xevent.button = 4 → r.event.type = GDK_SCROLL ∧ r.event.direction = GDK_SCROLL_UP) ∧
      (xevent.button = 5 → r.event.type = GDK_SCROLL ∧ r.event.direction = GDK_SCROLL_DOWN) ∧
      (xevent.button = 6 → r.event.type = GDK_SCROLL ∧ r.event.direction = GDK_SCROLL_LEFT) ∧
      (xevent.button = 7 → r.event.type = GDK_SCROLL ∧ r.event.direction = GDK_SCROLL_RIGHT) ∧
      (xevent.button ≠ 4 ∧ xevent.button ≠ 5 ∧ xevent.button ≠ 6 ∧ xevent.button ≠ 7 →
        r.event.type = GDK_BUTTON_PRESS ∧ r.event.button = xevent.button) ∧
      r.event.window = some w ∧
      r.event.x = xevent.x ∧ r.event.y = xevent.y ∧
      r.event.x_root = xevent.x_root ∧ r.event.y_root = xevent.y_root ∧
      r.event.time = xevent.time % 2 ^ 32 ∧ r.event.state = xevent.state ∧
      r.event.device = some dm.core_pointer ∧ r.event.screen = some screen := by
  have hs2 : (g_object_ref display w).screen_for_xrootwin xevent.root = some screen := hs
  rw [translate_event_live dm display event xevent w hw hd]
  by_cases hb : xevent.button = 4 ∨ xevent.button = 5 ∨ xevent.button = 6 ∨ xevent.button = 7
  · rcases hb with h | h | h | h <;>
      simp [translate_event_body, translate_event_switch, htype, hd, hs2, h,
        set_screen_from_root, gdk_event_set_screen, translate_event_done_event_true,
        FocusIn, FocusOut, KeyPress, KeyRelease, ButtonPress, ButtonRelease, MotionNotify,
        EnterNotify, LeaveNotify, DestroyNotify]
  · have h4 : xevent.button ≠ 4 := fun h => hb (Or.inl h)
    have h5 : xevent.button ≠ 5 := fun h => hb (Or.inr (Or.inl h))
    have h6 : xevent.button ≠ 6 := fun h => hb (Or.inr (Or.inr (Or.inl h)))
    have h7 : xevent.button ≠ 7 := fun h => hb (Or.inr (Or.inr (Or.inr h)))
    simp [translate_event_body, translate_event_switch, htype, hd, hs2, h4, h5, h6, h7,
      set_screen_from_root, gdk_event_set_screen, translate_event_done_event_true,
      fill_button_event,
      FocusIn, FocusOut, KeyPress, KeyRelease, ButtonPress, ButtonRelease, MotionNotify,
      EnterNotify, LeaveNotify, DestroyNotify]

theorem button_press_classification_witness :
    buttonPress4.type = ButtonPress ∧
    get_event_window gdk_x11_device_manager_core_constructed sampleDisplay buttonPress4 =
      some sampleToplevel ∧
    GDK_WINDOW_DESTROYED sampleToplevel = false ∧
    sampleDisplay.screen_for_xrootwin buttonPress4.root = some (GdkScreen.mk 0) ∧
    ∃ r, gdk_x11_device_manager_core_translate_event gdk_x11_device_manager_core_constructed
        sampleDisplay (gdk_event_new GDK_NOTHING) buttonPress4 = some r ∧
      r.return_val = true ∧
      (buttonPress4.button = 4 → r.event.type = GDK_SCROLL ∧ r.event.direction = GDK_SCROLL_UP) ∧
      (buttonPress4.button = 5 →
        r.event.type = GDK_SCROLL ∧ r.event.direction = GDK_SCROLL_DOWN) ∧
      (buttonPress4.button = 6 →
        r.event.type = GDK_SCROLL ∧ r.event.direction = GDK_SCROLL_LEFT) ∧
      (buttonPress4.button = 7 →
        r.event.type = GDK_SCROLL ∧ r.event.direction = GDK_SCROLL_RIGHT) ∧
      (buttonPress4.button ≠ 4 ∧ buttonPress4.button ≠ 5 ∧ buttonPress4.button ≠ 6 ∧
          buttonPress4.button ≠ 7 →
        r.event.type = GDK_BUTTON_PRESS ∧ r.event.button = buttonPress4.button) ∧
      r.event.window = some sampleToplevel ∧
      r.event.x = buttonPress4.x ∧ r.event.y = buttonPress4.y ∧
      r.event.x_root = buttonPress4.x_root ∧ r.event.y_root = buttonPress4.y_root ∧
      r.event.time = buttonPress4.time % 2 ^ 32 ∧ r.event.state = buttonPress4.state ∧
      r.event.device = some gdk_x11_device_manager_core_constructed.core_pointer ∧
      r.event.screen = some (GdkScreen.mk 0) :=
  ⟨rfl, rfl, rfl, rfl,
    button_press_classification gdk_x11_device_manager_core_constructed sampleDisplay
      (gdk_event_new GDK_NOTHING) buttonPress4 sampleToplevel (GdkScreen.mk 0) rfl rfl rfl rfl⟩

/-- Past the guard of line 430 every failure goes through the label `done`,
    which empties the output slot. -/
theorem translate_event_body_failure_slot (dm : GdkX11DeviceManagerCore)
    (display : GdkX11Display) (window : Option GdkWindow) (event : GdkEvent) (xevent : XEvent)
    (r : TranslateResult)
    (hr : translate_event_body dm display window event xevent = some r)
    (hf : r.return_val = false) :
    r.event.type = GDK_NOTHING ∧ r.event.window = none := by
  unfold translate_event_body at hr
  simp only [] at hr
  split_ifs at hr
  · cases hr
    exact ⟨rfl, rfl⟩
  · cases hr
    exact ⟨rfl, rfl⟩
  · split at hr
    · cases hr
    · rename_i s _
      cases hr
      have h1 : s.1 = false := hf
      rw [h1]
      exact ⟨rfl, rfl⟩

/-- A release of button 4, 5, 6 or 7 is never translated; unless the guard of
    line 430 returned early on a destroyed window, the output slot is empty. -/
theorem button_release_scroll_fails (dm : GdkX11DeviceManagerCore)
    (display : GdkX11Display) (event : GdkEvent) (xevent : XEvent)
    (htype : xevent.type = ButtonRelease)
    (hb : xevent.button = 4 ∨ xevent.button = 5 ∨ xevent.button = 6 ∨ xevent.button = 7) :
    ∃ r, gdk_x11_device_manager_core_translate_event dm display event xevent = some r ∧
      r.return_val = false ∧
      ((∀ w, get_event_window dm display xevent = some w → GDK_WINDOW_DESTROYED w = false) →
        r.event.type = GDK_NOTHING ∧ r.event.window = none) := by
  have body : ∀ (d : GdkX11Display) (window : Option GdkWindow),
      ∃ r, translate_event_body dm d window event xevent = some r ∧ r.return_val = false := by
    intro d window
    unfold translate_event_body
    simp only []
    split_ifs
    · exact ⟨_, rfl, rfl⟩
    · exact ⟨_, rfl, rfl⟩
    · cases window <;>
        simp [translate_event_switch, htype, hb, FocusIn, FocusOut, KeyPress, KeyRelease,
          ButtonPress, ButtonRelease, MotionNotify, EnterNotify, LeaveNotify]
  cases hw : get_event_window dm display xevent with
  | none =>
    obtain ⟨r, hr, hf⟩ := body display none
    rw [translate_event_unresolved dm display event xevent hw]
    exact ⟨r, hr, hf, fun _ => translate_event_body_failure_slot dm _ _ _ _ r hr hf⟩
  | some w =>
    cases hd : GDK_WINDOW_DESTROYED w with
    | true =>
      rw [translate_event_destroyed dm display event xevent w hw hd]
      refine ⟨_, rfl, rfl, fun h => ?_⟩
      have := h w rfl
      rw [hd] at this
      cases this
    | false =>
      obtain ⟨r, hr, hf⟩ := body (g_object_ref display w) (some w)
      rw [translate_event_live dm display event xevent w hw hd]
      exact ⟨r, hr, hf, fun _ => translate_event_body_failure_slot dm _ _ _ _ r hr hf⟩

/-- An output slot that is empty on entry (type NOTHING, no window) is empty
    after every translation that returns FALSE: the guard of line 430 returns
    before the slot is written, and every other failure passes the label
    `done`. -/
theorem translate_event_failure_empty_slot (dm : GdkX11DeviceManagerCore)
    (display : GdkX11Display) (event : GdkEvent) (xevent : XEvent) (r : TranslateResult)
    (h0 : event.type = GDK_NOTHING) (hw0 : event.window = none)
    (hr : gdk_x11_device_manager_core_translate_event dm display event xevent = some r)
    (hf : r.return_val = false) :
    r.event.type = GDK_NOTHING ∧ r.event.window = none := by
  cases hw : get_event_window dm display xevent with
  | none =>
    rw [translate_event_unresolved dm display event xevent hw] at hr
    exact translate_event_body_failure_slot dm _ _ _ _ r hr hf
  | some w =>
    cases hd : GDK_WINDOW_DESTROYED w with
    | true =>
      rw [translate_event_destroyed dm display event xevent w hw hd] at hr
      cases hr
      exact ⟨h0, hw0⟩
    | false =>
      rw [translate_event_live dm display event xevent w hw hd] at hr
      exact translate_event_body_failure_slot dm _ _ _ _ r hr hf

/-- C6: for every native ButtonRelease whose button code is 4, 5, 6 or 7,
    whatever the window (unresolved, destroyed or live), the screen, the
    coordinates and the modifier state, the translator returns, and returns
    FALSE, and no event is produced: the output slot, empty on entry (type
    NOTHING, no window), has type NOTHING and no window. -/
theorem button_release_scroll_discarded (dm : GdkX11DeviceManagerCore)
    (display : GdkX11Display) (event : GdkEvent) (xevent : XEvent)
    (htype : xevent.type = ButtonRelease)
    (hb : xevent.button = 4 ∨ xevent.button = 5 ∨ xevent.button = 6 ∨ xevent.button = 7)
    (h0 : event.type = GDK_NOTHING) (hw0 : event.window = none) :
    ∃ r, gdk_x11_device_manager_core_translate_event dm display event xevent = some r ∧
      r.return_val = false ∧ r.event.type = GDK_NOTHING ∧ r.event.window = none := by
  obtain ⟨r, hr, hf, -⟩ := button_release_scroll_fails dm display event xevent htype hb
  exact ⟨r, hr, hf, translate_event_failure_empty_slot dm display event xevent r h0 hw0 hr hf⟩

theorem button_release_scroll_discarded_witness :
    buttonRelease4OnDestroyed.type = ButtonRelease ∧
    (buttonRelease4OnDestroyed.button = 4 ∨ buttonRelease4OnDestroyed.button = 5 ∨
      buttonRelease4OnDestroyed.button = 6 ∨ buttonRelease4OnDestroyed.button = 7) ∧
    (gdk_event_new GDK_NOTHING).type = GDK_NOTHING ∧
    (gdk_event_new GDK_NOTHING).window = none ∧
    get_event_window gdk_x11_device_manager_core_constructed sampleDisplay
      buttonRelease4OnDestroyed = some sampleDestroyed ∧
    ∃ r, gdk_x11_device_manager_core_translate_event gdk_x11_device_manager_core_constructed
        sampleDisplay (gdk_event_new GDK_NOTHING) buttonRelease4OnDestroyed = some r ∧
      r.return_val = false ∧ r.event.type = GDK_NOTHING ∧ r.event.window = none :=
  ⟨rfl, Or.inl rfl, rfl, rfl, rfl,
    button_release_scroll_discarded gdk_x11_device_manager_core_constructed sampleDisplay
      (gdk_event_new GDK_NOTHING) buttonRelease4OnDestroyed rfl (Or.inl rfl) rfl rfl⟩

/-! ## The string payload of key events -/

theorem key_string_default_keyval (event : GdkEvent) :
    (key_string_default event).keyval = event.keyval := by
  unfold key_string_default
  split <;> rfl

theorem key_string_default_state (event : GdkEvent) :
    (key_string_default event).state = event.state := by
  unfold key_string_default
  split <;> rfl

theorem translate_key_event_string_keyval (display : GdkX11Display) (event : GdkEvent) :
    (translate_key_event_string display event).keyval = event.keyval := by
  unfold translate_key_event_string
  simp only []
  split_ifs <;> (try split) <;> (try split) <;> simp [key_string_default_keyval]

theorem translate_key_event_string_state (display : GdkX11Display) (event : GdkEvent) :
    (translate_key_event_string display event).state = event.state := by
  unfold translate_key_event_string
  simp only []
  split_ifs <;> (try split) <;> (try split) <;> simp [key_string_default_state]

theorem g_unichar_to_utf8_ascii (c : Nat) (h : c < 0x80) : g_unichar_to_utf8 c = [c] := by
  simp [g_unichar_to_utf8, h, g_unichar_to_utf8_tail]

/-- The payload of a key whose character, after the control-key block, is `c`. -/
theorem translate_key_event_string_char (display : GdkX11Display) (event : GdkEvent)
    (c : Nat) (hk : event.keyval ≠ GDK_KEY_VoidSymbol)
    (hc : display.gdk_keyval_to_unicode event.keyval ≠ 0)
    (hf : (if event.state &&& GDK_CONTROL_MASK ≠ 0 then
        apply_control_key (display.gdk_keyval_to_unicode event.keyval)
      else some (display.gdk_keyval_to_unicode event.keyval)) = some c) :
    (translate_key_event_string display event).string =
        some (locale_payload display (g_unichar_to_utf8 c)) ∧
      (translate_key_event_string display event).length =
        (locale_payload display (g_unichar_to_utf8 c)).length := by
  unfold translate_key_event_string
  simp only [hk, hc, hf, ne_eq, not_false_eq_true, if_true]
  cases hl : display.g_locale_from_utf8 (g_unichar_to_utf8 c) <;>
    simp [key_string_default, locale_payload, hl]

/-- C7 (amended): for every key event whose final state has CONTROL set and whose
    resolved character code c is a code from the at sign (0x40) through the
    tilde (0x7e), or is space (0x20), the character encoded into the string
    payload is c AND 0x1F: the payload is the locale conversion of that single
    byte, of length 1 when the locale passes the byte through. -/
theorem control_fold_letter_range (display : GdkX11Display) (dm : GdkX11DeviceManagerCore)
    (event : GdkEvent) (xevent : XEvent) (c : Nat)
    (hk : (translate_key_event display dm event xevent).keyval ≠ GDK_KEY_VoidSymbol)
    (hctl : (translate_key_event display dm event xevent).state &&& GDK_CONTROL_MASK ≠ 0)
    (hc : display.gdk_keyval_to_unicode (translate_key_event display dm event xevent).keyval = c)
    (hrange : (0x40 ≤ c ∧ c < 0x7f) ∨ c = 0x20) :
    (translate_key_event display dm event xevent).string =
        some (locale_payload display [c &&& 0x1F]) ∧
      (translate_key_event display dm event xevent).length =
        (locale_payload display [c &&& 0x1F]).length ∧
      (display.g_locale_from_utf8 [c &&& 0x1F] = some [c &&& 0x1F] →
        (translate_key_event display dm event xevent).string = some [c &&& 0x1F] ∧
        (translate_key_event display dm event xevent).length = 1) := by
  rw [translate_key_event, translate_key_event_string_keyval] at hk hc
  rw [translate_key_event, translate_key_event_string_state] at hctl
  have hc0 : c ≠ 0 := by omega
  have hlt : c &&& 0x1F < 0x80 := lt_of_le_of_lt Nat.and_le_right (by decide)
  have hfold : (if (translate_key_event_fields display dm event xevent).state &&&
        GDK_CONTROL_MASK ≠ 0 then
        apply_control_key (display.gdk_keyval_to_unicode
          (translate_key_event_fields display dm event xevent).keyval)
      else some (display.gdk_keyval_to_unicode
          (translate_key_event_fields display dm event xevent).keyval)) = some (c &&& 0x1F) := by
    rw [if_pos hctl, hc]
    simp [apply_control_key, hrange]
  have h := translate_key_event_string_char display _ (c &&& 0x1F) hk (hc ▸ hc0) hfold
  rw [g_unichar_to_utf8_ascii _ hlt] at h
  refine ⟨h.1, h.2, fun hl => ?_⟩
  rw [translate_key_event, h.1, h.2]
  simp [locale_payload, hl]

theorem control_fold_letter_range_witness :
    (translate_key_event sampleDisplay gdk_x11_device_manager_core_constructed
      (gdk_event_new GDK_NOTHING) (controlKeyPress 0x41)).keyval ≠ GDK_KEY_VoidSymbol ∧
    (translate_key_event sampleDisplay gdk_x11_device_manager_core_constructed
      (gdk_event_new GDK_NOTHING) (controlKeyPress 0x41)).state &&& GDK_CONTROL_MASK ≠ 0 ∧
    sampleDisplay.gdk_keyval_to_unicode (translate_key_event sampleDisplay
      gdk_x11_device_manager_core_constructed (gdk_event_new GDK_NOTHING)
      (controlKeyPress 0x41)).keyval = 0x41 ∧
    ((0x40 ≤ 0x41 ∧ 0x41 < 0x7f) ∨ 0x41 = 0x20) ∧
    sampleDisplay.g_locale_from_utf8 [0x41 &&& 0x1F] = some [0x41 &&& 0x1F] ∧
    (translate_key_event sampleDisplay gdk_x11_device_manager_core_constructed
      (gdk_event_new GDK_NOTHING) (controlKeyPress 0x41)).string = some [0x01] ∧
    (translate_key_event sampleDisplay gdk_x11_device_manager_core_constructed
      (gdk_event_new GDK_NOTHING) (controlKeyPress 0x41)).length = 1 :=
  ⟨by decide, by decide, by decide, by decide, by decide,
    ((control_fold_letter_range sampleDisplay gdk_x11_device_manager_core_constructed
      (gdk_event_new GDK_NOTHING) (controlKeyPress 0x41) 0x41 (by decide) (by decide)
      (by decide) (by decide)).2.2 (by decide)).1,
    ((control_fold_letter_range sampleDisplay gdk_x11_device_manager_core_constructed
      (gdk_event_new GDK_NOTHING) (controlKeyPress 0x41) 0x41 (by decide) (by decide)
      (by decide) (by decide)).2.2 (by decide)).2⟩

/-- C7 (as stated, refuted): the character 0x7f with CONTROL set is not folded.
    Under a keymap that resolves the key to the character 0x7f and a locale
    that passes bytes through, the final state has CONTROL set and the payload
    is the byte 0x7f, whereas 0x7f AND 0x1F is 0x1f. -/
theorem control_fold_skips_0x7f :
    ((translate_key_event sampleDisplay gdk_x11_device_manager_core_constructed
        (gdk_event_new GDK_NOTHING) (controlKeyPress 0x7f)).state &&& GDK_CONTROL_MASK,
      sampleDisplay.gdk_keyval_to_unicode (translate_key_event sampleDisplay
        gdk_x11_device_manager_core_constructed (gdk_event_new GDK_NOTHING)
        (controlKeyPress 0x7f)).keyval,
      (translate_key_event sampleDisplay gdk_x11_device_manager_core_constructed
        (gdk_event_new GDK_NOTHING) (controlKeyPress 0x7f)).string,
      (0x7f &&& 0x1F : Nat)) = (4, 0x7f, some [0x7f], 0x1f) := by
  decide

/-- The branch of the digit 2 in the control-key block: one NUL byte, length 1. -/
theorem translate_key_event_string_two (display : GdkX11Display) (event : GdkEvent)
    (hk : event.keyval ≠ GDK_KEY_VoidSymbol)
    (hctl : event.state &&& GDK_CONTROL_MASK ≠ 0)
    (hc : display.gdk_keyval_to_unicode event.keyval = 0x32) :
    (translate_key_event_string display event).string = some [0] ∧
      (translate_key_event_string display event).length = 1 := by
  unfold translate_key_event_string
  simp [hk, hc, hctl, apply_control_key]

/-- C8: for every key event with CONTROL set in its final state, the digit 2
    yields a payload of one NUL byte with length 1; each of the digits 3 to 7
    yields the code c - (0x33 - 0x1B), which runs through 0x1B, 0x1C, 0x1D,
    0x1E, 0x1F; the digit 8 yields 0x7F; the slash yields 0x1F; and every
    other character outside the letter range is encoded unchanged. -/
theorem control_fold_digit_rows (display : GdkX11Display) (dm : GdkX11DeviceManagerCore)
    (event : GdkEvent) (xevent : XEvent) (c : Nat)
    (hk : (translate_key_event display dm event xevent).keyval ≠ GDK_KEY_VoidSymbol)
    (hctl : (translate_key_event display dm event xevent).state &&& GDK_CONTROL_MASK ≠ 0)
    (hc : display.gdk_keyval_to_unicode (translate_key_event display dm event xevent).keyval = c) :
    (c = 0x32 →
      (translate_key_event display dm event xevent).string = some [0] ∧
      (translate_key_event display dm event xevent).length = 1) ∧
    (0x33 ≤ c ∧ c ≤ 0x37 →
      (translate_key_event display dm event xevent).string =
        some (locale_payload display [c - (0x33 - 0x1b)]) ∧
      (translate_key_event display dm event xevent).length =
        (locale_payload display [c - (0x33 - 0x1b)]).length ∧
      c - (0x33 - 0x1b) = 0x1b + (c - 0x33) ∧ c - (0x33 - 0x1b) ≤ 0x1f) ∧
    (c = 0x38 →
      (translate_key_event display dm event xevent).string =
        some (locale_payload display [0x7f]) ∧
      (translate_key_event display dm event xevent).length =
        (locale_payload display [0x7f]).length) ∧
    (c = 0x2f →
      (translate_key_event display dm event xevent).string =
        some (locale_payload display [0x1f]) ∧
      (translate_key_event display dm event xevent).length =
        (locale_payload display [0x1f]).length) ∧
    (c ≠ 0 → ¬ ((0x40 ≤ c ∧ c < 0x7f) ∨ c = 0x20) → c ≠ 0x32 → ¬ (0x33 ≤ c ∧ c ≤ 0x37) →
      c ≠ 0x38 → c ≠ 0x2f →
      (translate_key_event display dm event xevent).string =
        some (locale_payload display (g_unichar_to_utf8 c)) ∧
      (translate_key_event display dm event xevent).length =
        (locale_payload display (g_unichar_to_utf8 c)).length) := by
  rw [translate_key_event, translate_key_event_string_keyval] at hk hc
  rw [translate_key_event, translate_key_event_string_state] at hctl
  have fold : ∀ c', c ≠ 0 → apply_control_key c = some c' →
      (translate_key_event display dm event xevent).string =
        some (locale_payload display (g_unichar_to_utf8 c')) ∧
      (translate_key_event display dm event xevent).length =
        (locale_payload display (g_unichar_to_utf8 c')).length := by
    intro c' hc0 hf
    refine translate_key_event_string_char display _ c' hk (hc ▸ hc0) ?_
    rw [if_pos hctl, hc]
    exact hf
  refine ⟨?_, ?_, ?_, ?_, ?_⟩
  · intro h2
    exact translate_key_event_string_two display _ hk hctl (hc.trans h2)
  · intro h
    have hf : apply_control_key c = some (c - (0x33 - 0x1b)) := by
      have h1 : ¬ ((0x40 ≤ c ∧ c < 0x7f) ∨ c = 0x20) := by omega
      have h2 : c ≠ 0x32 := by omega
      simp [apply_control_key, h1, h2, h]
    have := fold _ (by omega) hf
    rw [g_unichar_to_utf8_ascii _ (by omega)] at this
    exact ⟨this.1, this.2, by omega, by omega⟩
  · intro h
    have hf : apply_control_key c = some 0x7f := by
      subst h
      decide
    have := fold _ (by omega) hf
    rw [g_unichar_to_utf8_ascii _ (by decide)] at this
    exact this
  · intro h
    have hf : apply_control_key c = some 0x1f := by
      subst h
      decide
    have := fold _ (by omega) hf
    rw [g_unichar_to_utf8_ascii _ (by decide)] at this
    exact this
  · intro h0 h1 h2 h3 h4 h5
    have hf : apply_control_key c = some c := by
      simp [apply_control_key, h1, h2, h3, h4, h5]
    exact fold _ h0 hf

theorem control_fold_digit_rows_witness :
    (translate_key_event sampleDisplay gdk_x11_device_manager_core_constructed
      (gdk_event_new GDK_NOTHING) (controlKeyPress 0x33)).keyval ≠ GDK_KEY_VoidSymbol ∧
    (translate_key_event sampleDisplay gdk_x11_device_manager_core_constructed
      (gdk_event_new GDK_NOTHING) (controlKeyPress 0x33)).state &&& GDK_CONTROL_MASK ≠ 0 ∧
    sampleDisplay.gdk_keyval_to_unicode (translate_key_event sampleDisplay
      gdk_x11_device_manager_core_constructed (gdk_event_new GDK_NOTHING)
      (controlKeyPress 0x33)).keyval = 0x33 ∧
    (0x33 ≤ 0x33 ∧ 0x33 ≤ 0x37) ∧
    (translate_key_event sampleDisplay gdk_x11_device_manager_core_constructed
      (gdk_event_new GDK_NOTHING) (controlKeyPress 0x33)).string =
        some (locale_payload sampleDisplay [0x33 - (0x33 - 0x1b)]) ∧
    (translate_key_event sampleDisplay gdk_x11_device_manager_core_constructed
      (gdk_event_new GDK_NOTHING) (controlKeyPress 0x33)).length =
        (locale_payload sampleDisplay [0x33 - (0x33 - 0x1b)]).length ∧
    0x33 - (0x33 - 0x1b) = 0x1b + (0x33 - 0x33) ∧ 0x33 - (0x33 - 0x1b) ≤ 0x1f :=
  ⟨by decide, by decide, by decide, by decide,
    (control_fold_digit_rows sampleDisplay gdk_x11_device_manager_core_constructed
      (gdk_event_new GDK_NOTHING) (controlKeyPress 0x33) 0x33 (by decide) (by decide)
      (by decide)).2.1 (by decide)⟩

/-! ## Failure of the translation -/

/-- C9: for every native event other than a destroy notification whose resolved
    window is marked destroyed, the translator returns, and returns FALSE,
    whatever the event class and fields. -/
theorem destroyed_window_guard (dm : GdkX11DeviceManagerCore) (display : GdkX11Display)
    (event : GdkEvent) (xevent : XEvent) (w : GdkWindow)
    (hw : get_event_window dm display xevent = some w)
    (hd : GDK_WINDOW_DESTROYED w = true)
    (_hne : xevent.type ≠ DestroyNotify) :
    ∃ r, gdk_x11_device_manager_core_translate_event dm display event xevent = some r ∧
      r.return_val = false :=
  ⟨_, translate_event_destroyed dm display event xevent w hw hd, rfl⟩

theorem destroyed_window_guard_witness :
    get_event_window gdk_x11_device_manager_core_constructed sampleDisplay motionOnDestroyed =
      some sampleDestroyed ∧
    GDK_WINDOW_DESTROYED sampleDestroyed = true ∧
    motionOnDestroyed.type ≠ DestroyNotify ∧
    ∃ r, gdk_x11_device_manager_core_translate_event gdk_x11_device_manager_core_constructed
        sampleDisplay (gdk_event_new GDK_NOTHING) motionOnDestroyed = some r ∧
      r.return_val = false :=
  ⟨rfl, rfl, by decide,
    destroyed_window_guard gdk_x11_device_manager_core_constructed sampleDisplay
      (gdk_event_new GDK_NOTHING) motionOnDestroyed sampleDestroyed rfl rfl (by decide)⟩

/-- The switch on the event type when no window was resolved. -/
theorem translate_event_switch_unresolved (dm : GdkX11DeviceManagerCore)
    (display : GdkX11Display) (event : GdkEvent) (xevent : XEvent) :
    translate_event_switch dm display none event xevent =
      some (decide (xevent.type = FocusIn ∨ xevent.type = FocusOut), event, display) := by
  unfold translate_event_switch
  split_ifs with h1 h2 h3 h4 h5 h6 h7 h8 h9 <;>
    simp_all [translate_focus, FocusIn, FocusOut, KeyPress, KeyRelease, ButtonPress,
      ButtonRelease, MotionNotify, EnterNotify, LeaveNotify]

/-- C11 (amended): for every native event whose target window cannot be resolved
    (no registered window and no keyboard-grab redirection) the translator
    returns; it returns FALSE when the event is not a FocusIn or FocusOut, and
    TRUE when it is one, in which case the type of the output slot, the focus
    records and the event queue are left as they were. -/
theorem unresolved_window_result (dm : GdkX11DeviceManagerCore) (display : GdkX11Display)
    (event : GdkEvent) (xevent : XEvent)
    (hw : get_event_window dm display xevent = none) :
    ∃ r, gdk_x11_device_manager_core_translate_event dm display event xevent = some r ∧
      (xevent.type ≠ FocusIn ∧ xevent.type ≠ FocusOut → r.return_val = false) ∧
      (xevent.type = FocusIn ∨ xevent.type = FocusOut →
        r.return_val = true ∧ r.event.type = event.type ∧ r.event.window = none ∧
        r.display.toplevel = display.toplevel ∧
        r.display.event_queue = display.event_queue) := by
  rw [translate_event_unresolved dm display event xevent hw]
  unfold translate_event_body
  simp only [translate_event_switch_unresolved]
  by_cases hf : xevent.type = FocusIn ∨ xevent.type = FocusOut
  · have hne : ¬ (xevent.type ≠ FocusIn ∧ xevent.type ≠ FocusOut) := by
      rintro ⟨h1, h2⟩
      exact hf.elim h1 h2
    simp [hf, hne, translate_event_done_event_true]
  · have h1 : xevent.type ≠ FocusIn := fun h => hf (Or.inl h)
    have h2 : xevent.type ≠ FocusOut := fun h => hf (Or.inr h)
    simp [hf, h1, h2]

theorem unresolved_window_result_witness :
    get_event_window gdk_x11_device_manager_core_constructed sampleDisplay
      (unregisteredXEvent KeyPress) = none ∧
    ∃ r, gdk_x11_device_manager_core_translate_event gdk_x11_device_manager_core_constructed
        sampleDisplay (gdk_event_new GDK_NOTHING) (unregisteredXEvent KeyPress) = some r ∧
      ((unregisteredXEvent KeyPress).type ≠ FocusIn ∧
        (unregisteredXEvent KeyPress).type ≠ FocusOut → r.return_val = false) ∧
      ((unregisteredXEvent KeyPress).type = FocusIn ∨
        (unregisteredXEvent KeyPress).type = FocusOut →
        r.return_val = true ∧ r.event.type = (gdk_event_new GDK_NOTHING).type ∧
        r.event.window = none ∧
        r.display.toplevel = sampleDisplay.toplevel ∧
        r.display.event_queue = sampleDisplay.event_queue) :=
  ⟨rfl, unresolved_window_result gdk_x11_device_manager_core_constructed sampleDisplay
    (gdk_event_new GDK_NOTHING) (unregisteredXEvent KeyPress) rfl⟩

/-- C11 (as stated, refuted): a FocusIn on an X window that no registered window
    and no grab resolves is reported as handled: the translator returns TRUE. -/
theorem focus_in_on_unresolved_window_returns_true :
    (get_event_window gdk_x11_device_manager_core_constructed sampleDisplay
        (unregisteredXEvent FocusIn),
      (gdk_x11_device_manager_core_translate_event gdk_x11_device_manager_core_constructed
        sampleDisplay (gdk_event_new GDK_NOTHING) (unregisteredXEvent FocusIn)).map
        (fun r => r.return_val)) = (none, some true) := by
  decide

/-! ## Screen resolution -/

/-- Without a resolved window the translator returns, with TRUE exactly for
    the two focus cases. -/
theorem translate_event_unresolved_return (dm : GdkX11DeviceManagerCore)
    (display : GdkX11Display) (event : GdkEvent) (xevent : XEvent)
    (hw : get_event_window dm display xevent = none) :
    ∃ r, gdk_x11_device_manager_core_translate_event dm display event xevent = some r ∧
      r.return_val = decide (xevent.type = FocusIn ∨ xevent.type = FocusOut) := by
  rw [translate_event_unresolved dm display event xevent hw]
  unfold translate_event_body
  simp [translate_event_switch_unresolved]

theorem g_object_ref_ref_count (display : GdkX11Display) (w : GdkWindow) (x : Nat) :
    (g_object_ref display w).ref_count x =
      display.ref_count x + (if w.id = x then 1 else 0) := by
  simp only [g_object_ref, Function.update_apply]
  by_cases h : x = w.id
  · subst h
    simp
  · have h2 : ¬ w.id = x := fun e => h e.symm
    simp [h, h2]

theorem g_object_unref_ref_count (display : GdkX11Display) (w : GdkWindow) (x : Nat) :
    (g_object_unref display w).ref_count x =
      display.ref_count x - (if w.id = x then 1 else 0) := by
  simp only [g_object_unref, Function.update_apply]
  by_cases h : x = w.id
  · subst h
    simp
  · have h2 : ¬ w.id = x := fun e => h e.symm
    simp [h, h2]

/-- The label `done`: a successful translation takes the references the
    output event owns, and the reference taken at line 435 is dropped. -/
theorem translate_event_done_ref_count (rv : Bool) (window : Option GdkWindow)
    (e : GdkEvent) (d : GdkX11Display) (x : Nat) :
    (translate_event_done rv window e d).display.ref_count x =
      d.ref_count x + (if rv = true then event_refs e x else 0) -
        (if window.map GdkWindow.id = some x then 1 else 0) := by
  unfold translate_event_done event_refs
  cases rv <;> cases window <;> cases hw : e.window <;> cases hs : e.subwindow <;>
    by_cases ht : e.type = GDK_ENTER_NOTIFY ∨ e.type = GDK_LEAVE_NOTIFY <;>
    simp [hw, hs, ht, g_object_ref_ref_count, g_object_unref_ref_count] <;> omega

theorem set_user_time_ref_count (display : GdkX11Display) (w : GdkWindow) (e : GdkEvent) :
    (set_user_time display w e).ref_count = display.ref_count ∧
      (set_user_time display w e).event_queue = display.event_queue := by
  unfold set_user_time
  split
  · exact ⟨rfl, rfl⟩
  · split_ifs <;> exact ⟨rfl, rfl⟩

theorem translate_crossing_display (dm : GdkX11DeviceManagerCore) (display : GdkX11Display)
    (type : GdkEventType) (w : GdkWindow) (event : GdkEvent) (xevent : XEvent)
    (s : Bool × GdkEvent × GdkX11Display)
    (hr : translate_crossing dm display type w event xevent = some s) :
    s.2.2 = display := by
  unfold translate_crossing at hr
  split at hr
  · cases hr
    rfl
  · simp only [] at hr
    split at hr
    · cases hr
    · split at hr
      · cases hr
      · cases hr
        rfl

/-- The focus cases take one reference for each event they queue. -/
theorem translate_focus_refs (dm : GdkX11DeviceManagerCore) (display : GdkX11Display)
    (window : Option GdkWindow) (in_ : Bool) (xevent : XEvent) :
    ∃ injected,
      (translate_focus dm display window in_ xevent).event_queue =
        display.event_queue ++ injected ∧
      ∀ x, (translate_focus dm display window in_ xevent).ref_count x =
        display.ref_count x + (injected.map (fun e => event_refs e x)).sum := by
  unfold translate_focus
  cases window with
  | none => exact ⟨[], by simp, by simp⟩
  | some w =>
    simp only []
    cases ht : display.toplevel w.id with
    | none => exact ⟨[], by simp, by simp⟩
    | some t =>
      simp only []
      generalize (if in_ = true then focus_in_switch t xevent.detail xevent.mode
        else focus_out_switch t xevent.detail xevent.mode) = t'
      by_cases hne : HAS_FOCUS t' ≠ HAS_FOCUS t
      · rw [if_pos hne]
        refine ⟨[focus_change_event dm w in_], rfl, fun x => ?_⟩
        simp only [generate_focus_event, gdk_event_put, gdk_event_free, gdk_event_set_device,
          g_object_ref_ref_count, g_object_unref_ref_count, focus_change_event, event_refs,
          gdk_event_new]
        by_cases hx : w.id = x <;> simp [hx]
      · rw [if_neg hne]
        exact ⟨[], by simp, by simp⟩

/-- The switch on the event type changes reference counts and the event queue
    in the focus cases only. -/
theorem translate_event_switch_refs (dm : GdkX11DeviceManagerCore)
    (display : GdkX11Display) (window : Option GdkWindow) (event : GdkEvent)
    (xevent : XEvent) (s : Bool × GdkEvent × GdkX11Display)
    (hr : translate_event_switch dm display window event xevent = some s) :
    ∃ injected, s.2.2.event_queue = display.event_queue ++ injected ∧
      (s.1 = false → injected = []) ∧
      ∀ x, s.2.2.ref_count x =
        display.ref_count x + (injected.map (fun e => event_refs e x)).sum := by
  by_cases hf : xevent.type = FocusIn ∨ xevent.type = FocusOut
  · have hv : s.1 = true := by
      rcases hf with h | h <;>
        simp [translate_event_switch, h, FocusIn, FocusOut, KeyPress, KeyRelease, ButtonPress,
          ButtonRelease, MotionNotify, EnterNotify, LeaveNotify] at hr <;>
        rw [← hr]
    have hd : s.2.2 = translate_focus dm display window (decide (xevent.type = FocusIn))
        xevent := by
      rcases hf with h | h <;>
        simp [translate_event_switch, h, FocusIn, FocusOut, KeyPress, KeyRelease, ButtonPress,
          ButtonRelease, MotionNotify, EnterNotify, LeaveNotify] at hr <;>
        rw [← hr] <;>
        simp [h, FocusIn, FocusOut]
    rw [hd]
    obtain ⟨injected, h1, h2⟩ := translate_focus_refs dm display window
      (decide (xevent.type = FocusIn)) xevent
    exact ⟨injected, h1, (fun h => by rw [hv] at h; cases h), h2⟩
  · have h1 : xevent.type ≠ FocusIn := fun h => hf (Or.inl h)
    have h2 : xevent.type ≠ FocusOut := fun h => hf (Or.inr h)
    have hq : s.2.2.ref_count = display.ref_count ∧
        s.2.2.event_queue = display.event_queue := by
      unfold translate_event_switch at hr
      split_ifs at hr <;> cases window <;> (try simp only [] at hr) <;>
        first
        | (cases hr; exact ⟨rfl, rfl⟩)
        | (cases hr; dsimp only; exact set_user_time_ref_count _ _ _)
        | (rw [translate_crossing_display dm display _ _ _ _ s hr]; exact ⟨rfl, rfl⟩)
        | (split at hr <;> cases hr <;> exact ⟨rfl, rfl⟩)
    exact ⟨[], by simp [hq.2], fun _ => rfl, by simp [hq.1]⟩

/-- Reference balance of the translator past the guard of line 430. -/
theorem translate_event_body_refs (dm : GdkX11DeviceManagerCore)
    (display : GdkX11Display) (window : Option GdkWindow) (event : GdkEvent) (xevent : XEvent)
    (r : TranslateResult)
    (hr : translate_event_body dm display window event xevent = some r) :
    ∃ injected, r.display.event_queue = display.event_queue ++ injected ∧
      (r.return_val = false → injected = []) ∧
      ∀ x, r.display.ref_count x =
        display.ref_count x + (if r.return_val = true then event_refs r.event x else 0) +
          (injected.map (fun e => event_refs e x)).sum -
          (if window.map GdkWindow.id = some x then 1 else 0) := by
  unfold translate_event_body at hr
  simp only [] at hr
  split_ifs at hr
  · cases hr
    refine ⟨[], by simp, fun _ => rfl, fun x => ?_⟩
    rw [translate_event_done_ref_count]
    simp
  · cases hr
    refine ⟨[], by simp, fun _ => rfl, fun x => ?_⟩
    rw [translate_event_done_ref_count]
    simp
  · split at hr
    · cases hr
    · rename_i s hs
      cases hr
      obtain ⟨injected, h1, h2, h3⟩ := translate_event_switch_refs dm display window _ xevent s hs
      refine ⟨injected, by simpa using h1, h2, fun x => ?_⟩
      rw [translate_event_done_ref_count, h3 x]
      simp only [translate_event_done_return_val]
      cases hv : s.1
      · simp
      · simp [translate_event_done_event_true]
        omega

/-- C13 (amended): with the reference count of each window as explicit state, a
    call of the translator that returns leaves the count of every window at
    its old value, plus the references the output event owns when the call
    returns TRUE (one on the window of its window field, and one on the
    window of its subwindow field when it is an ENTER_NOTIFY or LEAVE_NOTIFY
    event), plus the references owned by the FOCUS_CHANGE events the call
    queued (one on the resolved window for each). When the call returns FALSE
    nothing is queued and every count is unchanged. -/
theorem reference_balance (dm : GdkX11DeviceManagerCore) (display : GdkX11Display)
    (event : GdkEvent) (xevent : XEvent) (r : TranslateResult)
    (hr : gdk_x11_device_manager_core_translate_event dm display event xevent = some r) :
    ∃ injected, r.display.event_queue = display.event_queue ++ injected ∧
      (∀ x, r.display.ref_count x =
        display.ref_count x + (if r.return_val = true then event_refs r.event x else 0) +
          (injected.map (fun e => event_refs e x)).sum) ∧
      (r.return_val = false →
        injected = [] ∧ ∀ x, r.display.ref_count x = display.ref_count x) := by
  have key : ∃ injected, r.display.event_queue = display.event_queue ++ injected ∧
      (r.return_val = false → injected = []) ∧
      ∀ x, r.display.ref_count x =
        display.ref_count x + (if r.return_val = true then event_refs r.event x else 0) +
          (injected.map (fun e => event_refs e x)).sum := by
    cases hw : get_event_window dm display xevent with
    | none =>
      rw [translate_event_unresolved dm display event xevent hw] at hr
      obtain ⟨injected, h1, h2, h3⟩ := translate_event_body_refs dm display none event xevent r hr
      exact ⟨injected, h1, h2, fun x => by simpa using h3 x⟩
    | some w =>
      cases hd : GDK_WINDOW_DESTROYED w with
      | true =>
        rw [translate_event_destroyed dm display event xevent w hw hd] at hr
        cases hr
        exact ⟨[], by simp, fun _ => rfl, fun x => by simp⟩
      | false =>
        rw [translate_event_live dm display event xevent w hw hd] at hr
        obtain ⟨injected, h1, h2, h3⟩ :=
          translate_event_body_refs dm _ (some w) event xevent r hr
        refine ⟨injected, h1, h2, fun x => ?_⟩
        rw [h3 x, g_object_ref_ref_count]
        simp only [Option.map_some', Option.some.injEq]
        omega
  obtain ⟨injected, h1, h2, h3⟩ := key
  refine ⟨injected, h1, h3, fun hf => ⟨h2 hf, fun x => ?_⟩⟩
  rw [h3 x, h2 hf, hf]
  simp

theorem reference_balance_witness :
    ∃ r, gdk_x11_device_manager_core_translate_event gdk_x11_device_manager_core_constructed
        sampleDisplay (gdk_event_new GDK_NOTHING) enterWithSubwindow = some r ∧
      ∃ injected, r.display.event_queue = sampleDisplay.event_queue ++ injected ∧
        (∀ x, r.display.ref_count x =
          sampleDisplay.ref_count x +
            (if r.return_val = true then event_refs r.event x else 0) +
            (injected.map (fun e => event_refs e x)).sum) ∧
        (r.return_val = false →
          injected = [] ∧ ∀ x, r.display.ref_count x = sampleDisplay.ref_count x) :=
  have h : (gdk_x11_device_manager_core_translate_event
      gdk_x11_device_manager_core_constructed sampleDisplay (gdk_event_new GDK_NOTHING)
      enterWithSubwindow).isSome = true := by decide
  ⟨_, (Option.some_get h).symm,
    reference_balance gdk_x11_device_manager_core_constructed sampleDisplay
      (gdk_event_new GDK_NOTHING) enterWithSubwindow _ (Option.some_get h).symm⟩

/-- C13 (as stated, refuted): a FocusIn with detail NotifyNonlinear and mode
    NotifyGrab on the all-zero focus record returns TRUE with a window in the
    output event, and the count of the resolved window goes from 1 to 3: one
    reference for the output event and one for the queued FOCUS_CHANGE
    event. -/
theorem focus_event_takes_two_references :
    (sampleDisplay.ref_count 1,
      (gdk_x11_device_manager_core_translate_event gdk_x11_device_manager_core_constructed
        sampleDisplay (gdk_event_new GDK_NOTHING) focusInNonlinearGrab).map
        (fun r => (r.return_val, r.event.window, r.display.ref_count 1,
          r.display.event_queue.map (fun e => (e.type, e.window))))) =
      (1, some (true, some sampleToplevel, 3, [(GDK_FOCUS_CHANGE, some sampleToplevel)])) := by
  rfl

/-! ## Devices of the core manager -/

/-- C14: on a constructed core manager, every device the manager lists (for any
    device type) has an associated device whose associated device is the
    device itself and which is not the device itself; the master pointer
    (source MOUSE) is associated with the master keyboard (source KEYBOARD)
    and the master keyboard with the master pointer. -/
theorem constructed_device_pairing (D : GdkDevice) (type : GdkDeviceType)
    (hD : D ∈ gdk_x11_device_manager_core_list_devices
      gdk_x11_device_manager_core_constructed type) :
    (∃ A, gdk_device_get_associated_device gdk_x11_device_manager_core_constructed_links D =
        some A ∧
      gdk_device_get_associated_device gdk_x11_device_manager_core_constructed_links A =
        some D ∧ A ≠ D) ∧
    gdk_device_get_associated_device gdk_x11_device_manager_core_constructed_links
      gdk_x11_device_manager_core_constructed.core_pointer =
        some gdk_x11_device_manager_core_constructed.core_keyboard ∧
    gdk_device_get_associated_device gdk_x11_device_manager_core_constructed_links
      gdk_x11_device_manager_core_constructed.core_keyboard =
        some gdk_x11_device_manager_core_constructed.core_pointer ∧
    gdk_x11_device_manager_core_constructed.core_pointer.type =
      GdkDeviceType.GDK_DEVICE_TYPE_MASTER ∧
    gdk_x11_device_manager_core_constructed.core_pointer.input_source =
      GdkInputSource.GDK_SOURCE_MOUSE ∧
    gdk_x11_device_manager_core_constructed.core_keyboard.type =
      GdkDeviceType.GDK_DEVICE_TYPE_MASTER ∧
    gdk_x11_device_manager_core_constructed.core_keyboard.input_source =
      GdkInputSource.GDK_SOURCE_KEYBOARD := by
  have hpk : create_core_pointer ≠ create_core_keyboard := by decide
  have hp : gdk_device_get_associated_device gdk_x11_device_manager_core_constructed_links
      create_core_pointer = some create_core_keyboard := by
    simp [gdk_device_get_associated_device, gdk_x11_device_manager_core_constructed_links,
      _gdk_device_set_associated_device, gdk_x11_device_manager_core_constructed,
      Function.update_apply, hpk]
  have hk : gdk_device_get_associated_device gdk_x11_device_manager_core_constructed_links
      create_core_keyboard = some create_core_pointer := by
    simp [gdk_device_get_associated_device, gdk_x11_device_manager_core_constructed_links,
      _gdk_device_set_associated_device, gdk_x11_device_manager_core_constructed,
      Function.update_apply]
  refine ⟨?_, hp, hk, rfl, rfl, rfl, rfl⟩
  have hD2 : D = create_core_pointer ∨ D = create_core_keyboard := by
    unfold gdk_x11_device_manager_core_list_devices at hD
    split_ifs at hD
    · simpa [gdk_x11_device_manager_core_constructed] using hD
    · simp at hD
  rcases hD2 with h | h
  · subst h
    exact ⟨_, hp, hk, fun e => hpk e.symm⟩
  · subst h
    exact ⟨_, hk, hp, hpk⟩

theorem constructed_device_pairing_witness :
    create_core_pointer ∈ gdk_x11_device_manager_core_list_devices
      gdk_x11_device_manager_core_constructed GdkDeviceType.GDK_DEVICE_TYPE_MASTER ∧
    ∃ A, gdk_device_get_associated_device gdk_x11_device_manager_core_constructed_links
        create_core_pointer = some A ∧
      gdk_device_get_associated_device gdk_x11_device_manager_core_constructed_links A =
        some create_core_pointer ∧ A ≠ create_core_pointer :=
  ⟨by decide,
    (constructed_device_pairing create_core_pointer GdkDeviceType.GDK_DEVICE_TYPE_MASTER
      (by decide)).1⟩

/-- C15: on a constructed core manager, listing the MASTER devices through the
    class slot gives exactly the core pointer followed by the core keyboard,
    both of type MASTER; listing the SLAVE or the FLOATING devices gives the
    empty list; the client pointer is the core pointer, which is the first
    element of the MASTER list and its only device of source MOUSE. The
    listing is a function of the manager and the device type alone: no
    display state enters it, and the translator, which takes the manager as
    an input, hands back no manager. -/
theorem constructed_device_enumeration :
    gdk_device_manager_list_devices gdk_x11_device_manager_core_class_init
        gdk_x11_device_manager_core_constructed GdkDeviceType.GDK_DEVICE_TYPE_MASTER =
      some [create_core_pointer, create_core_keyboard] ∧
    create_core_pointer.type = GdkDeviceType.GDK_DEVICE_TYPE_MASTER ∧
    create_core_keyboard.type = GdkDeviceType.GDK_DEVICE_TYPE_MASTER ∧
    gdk_device_manager_list_devices gdk_x11_device_manager_core_class_init
        gdk_x11_device_manager_core_constructed GdkDeviceType.GDK_DEVICE_TYPE_SLAVE =
      some [] ∧
    gdk_device_manager_list_devices gdk_x11_device_manager_core_class_init
        gdk_x11_device_manager_core_constructed GdkDeviceType.GDK_DEVICE_TYPE_FLOATING =
      some [] ∧
    gdk_device_manager_get_client_pointer gdk_x11_device_manager_core_class_init
        gdk_x11_device_manager_core_constructed = some create_core_pointer ∧
    (gdk_device_manager_list_devices gdk_x11_device_manager_core_class_init
        gdk_x11_device_manager_core_constructed GdkDeviceType.GDK_DEVICE_TYPE_MASTER).map
      (fun devices => (devices.head?,
        devices.filter (fun d => d.input_source = GdkInputSource.GDK_SOURCE_MOUSE))) =
      some (some create_core_pointer, [create_core_pointer]) := by
  refine ⟨rfl, rfl, rfl, rfl, rfl, rfl, ?_⟩
  decide

/-! ## Crossing events -/

/-- A crossing event on a live window whose root window resolves to a screen
    reaches the two conversions of mode and detail. -/
theorem translate_event_body_crossing (dm : GdkX11DeviceManagerCore)
    (display : GdkX11Display) (event : GdkEvent) (xevent : XEvent) (w : GdkWindow)
    (hd : GDK_WINDOW_DESTROYED w = false)
    (htype : xevent.type = EnterNotify ∨ xevent.type = LeaveNotify) :
    translate_event_body dm display (some w) event xevent =
      match translate_crossing dm display
        (if xevent.type = EnterNotify then GDK_ENTER_NOTIFY else GDK_LEAVE_NOTIFY) w
        { event with window := some w, send_event := xevent.send_event } xevent with
      | none => none
      | some r => some (translate_event_done r.1 (some w) r.2.1 r.2.2) := by
  rcases htype with h | h <;>
    simp [translate_event_body, translate_event_switch, h, hd, FocusIn, FocusOut, KeyPress,
      KeyRelease, ButtonPress, ButtonRelease, MotionNotify, EnterNotify, LeaveNotify,
      DestroyNotify]

/-- C16 (amended): for every native EnterNotify or LeaveNotify event on a
    resolved, non-destroyed window whose root window resolves to a screen: if
    the mode is Normal, Grab or Ungrab and the detail is Ancestor, Virtual,
    Inferior, Nonlinear or NonlinearVirtual, the translator returns TRUE with
    an ENTER_NOTIFY (for Enter) or LEAVE_NOTIFY (for Leave) event that carries
    the like-named crossing mode and notify type; for any other mode value or
    any other detail value the assertion is reached and the process aborts. -/
theorem crossing_mode_and_detail (dm : GdkX11DeviceManagerCore)
    (display : GdkX11Display) (event : GdkEvent) (xevent : XEvent) (w : GdkWindow)
    (s : GdkScreen)
    (htype : xevent.type = EnterNotify ∨ xevent.type = LeaveNotify)
    (hw : get_event_window dm display xevent = some w)
    (hd : GDK_WINDOW_DESTROYED w = false)
    (hs : display.screen_for_xrootwin xevent.root = some s) :
    ((xevent.mode = NotifyNormal ∨ xevent.mode = NotifyGrab ∨ xevent.mode = NotifyUngrab) ∧
      (xevent.detail = NotifyAncestor ∨ xevent.detail = NotifyVirtual ∨
        xevent.detail = NotifyInferior ∨ xevent.detail = NotifyNonlinear ∨
        xevent.detail = NotifyNonlinearVirtual) →
      ∃ r, gdk_x11_device_manager_core_translate_event dm display event xevent = some r ∧
        r.return_val = true ∧
        r.event.type =
          (if xevent.type = EnterNotify then GDK_ENTER_NOTIFY else GDK_LEAVE_NOTIFY) ∧
        (xevent.mode = NotifyNormal → r.event.mode = GDK_CROSSING_NORMAL) ∧
        (xevent.mode = NotifyGrab → r.event.mode = GDK_CROSSING_GRAB) ∧
        (xevent.mode = NotifyUngrab → r.event.mode = GDK_CROSSING_UNGRAB) ∧
        (xevent.detail = NotifyAncestor → r.event.detail = GDK_NOTIFY_ANCESTOR) ∧
        (xevent.detail = NotifyVirtual → r.event.detail = GDK_NOTIFY_VIRTUAL) ∧
        (xevent.detail = NotifyInferior → r.event.detail = GDK_NOTIFY_INFERIOR) ∧
        (xevent.detail = NotifyNonlinear → r.event.detail = GDK_NOTIFY_NONLINEAR) ∧
        (xevent.detail = NotifyNonlinearVirtual →
          r.event.detail = GDK_NOTIFY_NONLINEAR_VIRTUAL)) ∧
    (¬ (xevent.mode = NotifyNormal ∨ xevent.mode = NotifyGrab ∨ xevent.mode = NotifyUngrab) ∨
      ¬ (xevent.detail = NotifyAncestor ∨ xevent.detail = NotifyVirtual ∨
        xevent.detail = NotifyInferior ∨ xevent.detail = NotifyNonlinear ∨
        xevent.detail = NotifyNonlinearVirtual) →
      gdk_x11_device_manager_core_translate_event dm display event xevent = none) := by
  have hs2 : (g_object_ref display w).screen_for_xrootwin xevent.root = some s := hs
  rw [translate_event_live dm display event xevent w hw hd,
    translate_event_body_crossing dm _ event xevent w hd htype]
  constructor
  · rintro ⟨hm, hdt⟩
    rcases hm with hm | hm | hm <;> rcases hdt with hdt | hdt | hdt | hdt | hdt <;>
      simp [translate_crossing, set_screen_from_root, hs2, hm, hdt, translate_crossing_mode,
        translate_notify_type, translate_event_done_event_true, gdk_event_set_device,
        gdk_event_set_screen, NotifyNormal, NotifyGrab, NotifyUngrab, NotifyAncestor,
        NotifyVirtual, NotifyInferior, NotifyNonlinear, NotifyNonlinearVirtual]
  · intro h
    by_cases hm : xevent.mode = NotifyNormal ∨ xevent.mode = NotifyGrab ∨
        xevent.mode = NotifyUngrab
    · have hdt : ¬ (xevent.detail = NotifyAncestor ∨ xevent.detail = NotifyVirtual ∨
          xevent.detail = NotifyInferior ∨ xevent.detail = NotifyNonlinear ∨
          xevent.detail = NotifyNonlinearVirtual) := h.resolve_left (not_not.mpr hm)
      have hn : translate_notify_type xevent.detail = none := by
        simp only [not_or] at hdt
        simp [translate_notify_type, hdt.1, hdt.2.1, hdt.2.2.1, hdt.2.2.2.1, hdt.2.2.2.2]
      rcases hm with hm | hm | hm <;>
        simp [translate_crossing, set_screen_from_root, hs2, hm, hn, translate_crossing_mode,
          NotifyNormal, NotifyGrab, NotifyUngrab]
    · have hn : translate_crossing_mode xevent.mode = none := by
        simp only [not_or] at hm
        simp [translate_crossing_mode, hm.1, hm.2.1, hm.2.2]
      simp [translate_crossing, set_screen_from_root, hs2, hn]

theorem crossing_mode_and_detail_witness :
    (enterGrabInferior.type = EnterNotify ∨ enterGrabInferior.type = LeaveNotify) ∧
    get_event_window gdk_x11_device_manager_core_constructed sampleDisplay enterGrabInferior =
      some sampleToplevel ∧
    GDK_WINDOW_DESTROYED sampleToplevel = false ∧
    sampleDisplay.screen_for_xrootwin enterGrabInferior.root = some (GdkScreen.mk 0) ∧
    ((enterGrabInferior.mode = NotifyNormal ∨ enterGrabInferior.mode = NotifyGrab ∨
        enterGrabInferior.mode = NotifyUngrab) ∧
      (enterGrabInferior.detail = NotifyAncestor ∨ enterGrabInferior.detail = NotifyVirtual ∨
        enterGrabInferior.detail = NotifyInferior ∨
        enterGrabInferior.detail = NotifyNonlinear ∨
        enterGrabInferior.detail = NotifyNonlinearVirtual)) ∧
    ∃ r, gdk_x11_device_manager_core_translate_event gdk_x11_device_manager_core_constructed
        sampleDisplay (gdk_event_new GDK_NOTHING) enterGrabInferior = some r ∧
      r.return_val = true ∧
      r.event.type =
        (if enterGrabInferior.type = EnterNotify then GDK_ENTER_NOTIFY
          else GDK_LEAVE_NOTIFY) ∧
      (enterGrabInferior.mode = NotifyNormal → r.event.mode = GDK_CROSSING_NORMAL) ∧
      (enterGrabInferior.mode = NotifyGrab → r.event.mode = GDK_CROSSING_GRAB) ∧
      (enterGrabInferior.mode = NotifyUngrab → r.event.mode = GDK_CROSSING_UNGRAB) ∧
      (enterGrabInferior.detail = NotifyAncestor → r.event.detail = GDK_NOTIFY_ANCESTOR) ∧
      (enterGrabInferior.detail = NotifyVirtual → r.event.detail = GDK_NOTIFY_VIRTUAL) ∧
      (enterGrabInferior.detail = NotifyInferior → r.event.detail = GDK_NOTIFY_INFERIOR) ∧
      (enterGrabInferior.detail = NotifyNonlinear → r.event.detail = GDK_NOTIFY_NONLINEAR) ∧
      (enterGrabInferior.detail = NotifyNonlinearVirtual →
        r.event.detail = GDK_NOTIFY_NONLINEAR_VIRTUAL) :=
  ⟨Or.inl rfl, rfl, rfl, rfl, ⟨Or.inr (Or.inl rfl), Or.inr (Or.inr (Or.inl rfl))⟩,
    (crossing_mode_and_detail gdk_x11_device_manager_core_constructed sampleDisplay
      (gdk_event_new GDK_NOTHING) enterGrabInferior sampleToplevel (GdkScreen.mk 0)
      (Or.inl rfl) rfl rfl rfl).1
      ⟨Or.inr (Or.inl rfl), Or.inr (Or.inr (Or.inl rfl))⟩⟩

/-- C16 (as stated, refuted): an EnterNotify whose mode is NotifyWhileGrabbed,
    which is none of Normal, Grab and Ungrab, on an X window that resolves to
    no window. The window check comes first: the translator returns FALSE,
    and the assertion is not reached. -/
theorem crossing_bad_mode_on_unresolved_window_not_fatal :
    (translate_crossing_mode enterBadModeUnregistered.mode,
      get_event_window gdk_x11_device_manager_core_constructed sampleDisplay
        enterBadModeUnregistered,
      (gdk_x11_device_manager_core_translate_event gdk_x11_device_manager_core_constructed
        sampleDisplay (gdk_event_new GDK_NOTHING) enterBadModeUnregistered).map
        (fun r => r.return_val)) = (none, none, some false) := by
  decide

/-! ## Fixed and empty key strings -/

/-- The payload of a key without a character: the fixed strings of Escape and
    of Return and KP_Enter, and the empty string otherwise. -/
theorem translate_key_event_string_no_char (display : GdkX11Display) (event : GdkEvent)
    (hc : (if event.keyval ≠ GDK_KEY_VoidSymbol then display.gdk_keyval_to_unicode event.keyval
      else 0) = 0) :
    ((translate_key_event_string display event).string,
        (translate_key_event_string display event).length) =
      if event.keyval = GDK_KEY_Escape then (some [0x1b], 1)
      else if event.keyval = GDK_KEY_Return ∨ event.keyval = GDK_KEY_KP_Enter then
        (some [0x0d], 1)
      else (some [], 0) := by
  unfold translate_key_event_string
  simp only [hc]
  split_ifs <;> simp [key_string_default] at *

theorem key_string_default_string (event : GdkEvent) :
    (key_string_default event).string ≠ none := by
  unfold key_string_default
  split
  · simp
  · rename_i h
    simp [h]

theorem translate_key_event_string_ne_none (display : GdkX11Display) (event : GdkEvent) :
    (translate_key_event_string display event).string ≠ none := by
  unfold translate_key_event_string
  simp only []
  split_ifs <;> (try split) <;> first
    | exact key_string_default_string _
    | simp

/-- C18: for every translated key event the string payload is not null. When
    the keysym is VoidSymbol, or the key has no character and its keysym is
    none of Escape, Return and KP_Enter, or the locale conversion of its
    character fails, the payload is the empty string and the length is 0. -/
theorem key_string_never_null (display : GdkX11Display) (dm : GdkX11DeviceManagerCore)
    (event : GdkEvent) (xevent : XEvent) :
    (translate_key_event display dm event xevent).string ≠ none ∧
    ((translate_key_event display dm event xevent).keyval = GDK_KEY_VoidSymbol →
      (translate_key_event display dm event xevent).string = some [] ∧
      (translate_key_event display dm event xevent).length = 0) ∧
    (display.gdk_keyval_to_unicode (translate_key_event display dm event xevent).keyval = 0 →
      (translate_key_event display dm event xevent).keyval ≠ GDK_KEY_Escape →
      (translate_key_event display dm event xevent).keyval ≠ GDK_KEY_Return →
      (translate_key_event display dm event xevent).keyval ≠ GDK_KEY_KP_Enter →
      (translate_key_event display dm event xevent).string = some [] ∧
      (translate_key_event display dm event xevent).length = 0) ∧
    (∀ c, (translate_key_event display dm event xevent).keyval ≠ GDK_KEY_VoidSymbol →
      display.gdk_keyval_to_unicode (translate_key_event display dm event xevent).keyval ≠ 0 →
      (if (translate_key_event display dm event xevent).state &&& GDK_CONTROL_MASK ≠ 0 then
          apply_control_key (display.gdk_keyval_to_unicode
            (translate_key_event display dm event xevent).keyval)
        else some (display.gdk_keyval_to_unicode
            (translate_key_event display dm event xevent).keyval)) = some c →
      display.g_locale_from_utf8 (g_unichar_to_utf8 c) = none →
      (translate_key_event display dm event xevent).string = some [] ∧
      (translate_key_event display dm event xevent).length = 0) := by
  simp only [translate_key_event, translate_key_event_string_keyval,
    translate_key_event_string_state]
  refine ⟨translate_key_event_string_ne_none _ _, ?_, ?_, ?_⟩
  · intro hv
    have h0 := translate_key_event_string_no_char display
      (translate_key_event_fields display dm event xevent) (by simp [hv])
    have h1 : ¬ (translate_key_event_fields display dm event xevent).keyval =
        GDK_KEY_Escape := by rw [hv]; decide
    have h2 : ¬ ((translate_key_event_fields display dm event xevent).keyval =
        GDK_KEY_Return ∨ (translate_key_event_fields display dm event xevent).keyval =
        GDK_KEY_KP_Enter) := by rw [hv]; decide
    rw [if_neg h1, if_neg h2] at h0
    exact ⟨congrArg Prod.fst h0, congrArg Prod.snd h0⟩
  · intro hc h1 h2 h3
    have h0 := translate_key_event_string_no_char display
      (translate_key_event_fields display dm event xevent) (by rw [hc]; simp)
    have h23 : ¬ ((translate_key_event_fields display dm event xevent).keyval =
        GDK_KEY_Return ∨ (translate_key_event_fields display dm event xevent).keyval =
        GDK_KEY_KP_Enter) := fun h => h.elim h2 h3
    rw [if_neg h1, if_neg h23] at h0
    exact ⟨congrArg Prod.fst h0, congrArg Prod.snd h0⟩
  · intro c hv hc hf hl
    have h := translate_key_event_string_char display _ c hv hc hf
    rw [h.1, h.2]
    simp [locale_payload, hl]

/-! ## Which stored flag the emission reads -/

/-- The value of `HAS_FOCUS` after a focus transition does not depend on
    `has_focus_window`. -/
theorem HAS_FOCUS_focus_switch_set_has_focus_window (in_ : Bool) (t : GdkToplevelX11)
    (b : Bool) (detail mode : Int) :
    HAS_FOCUS (focus_switch in_ { t with has_focus_window := b } detail mode) =
      HAS_FOCUS (focus_switch in_ t detail mode) := by
  obtain ⟨a, b0, c, d⟩ := t
  by_cases hp1 : detail = NotifyAncestor ∨ detail = NotifyVirtual <;>
  by_cases hp2 : detail = NotifyNonlinear ∨ detail = NotifyNonlinearVirtual <;>
  by_cases hp3 : detail = NotifyPointer <;>
  by_cases hg1 : mode = NotifyGrab <;>
  by_cases hg2 : mode = NotifyUngrab <;>
  by_cases hwg : mode = NotifyWhileGrabbed <;>
  cases in_ <;> cases d <;>
  simp_all [focus_switch, focus_in_switch, focus_out_switch, focus_in_nonlinear,
    focus_out_nonlinear, HAS_FOCUS, NotifyAncestor, NotifyVirtual, NotifyNonlinear,
    NotifyNonlinearVirtual, NotifyPointer, NotifyGrab, NotifyUngrab, NotifyWhileGrabbed]

/-- The value of `HAS_FOCUS` before and after a focus transition does not
    depend on `has_focus_window`. -/
theorem HAS_FOCUS_ignores_has_focus_window (in_ : Bool) (t1 t2 : GdkToplevelX11)
    (detail mode : Int)
    (h1 : t1.has_focus = t2.has_focus) (h2 : t1.has_pointer_focus = t2.has_pointer_focus)
    (h3 : t1.has_pointer = t2.has_pointer) :
    HAS_FOCUS t1 = HAS_FOCUS t2 ∧
      HAS_FOCUS (focus_switch in_ t1 detail mode) =
        HAS_FOCUS (focus_switch in_ t2 detail mode) := by
  obtain ⟨a1, b1, c1, d1⟩ := t1
  obtain ⟨a2, b2, c2, d2⟩ := t2
  simp only at h1 h2 h3
  subst h1 h2 h3
  refine ⟨rfl, ?_⟩
  exact HAS_FOCUS_focus_switch_set_has_focus_window in_ ⟨a1, b2, c1, d1⟩ b1 detail mode

/-- C20 (amended): the stored field has_focus_window is redundant for emission.
    For any two focus records of the resolved window that agree on has_focus,
    has_pointer_focus and has_pointer, so that they differ at most in
    has_focus_window, and for every native FocusIn or FocusOut event, the two
    translations queue the same events: both a FOCUS_CHANGE event with the
    same fields, or both none. -/
theorem has_focus_window_redundant_for_emission (dm : GdkX11DeviceManagerCore)
    (display1 display2 : GdkX11Display) (event : GdkEvent) (xevent : XEvent) (w : GdkWindow)
    (t1 t2 : GdkToplevelX11)
    (htype : xevent.type = FocusIn ∨ xevent.type = FocusOut)
    (hw1 : get_event_window dm display1 xevent = some w)
    (hw2 : get_event_window dm display2 xevent = some w)
    (hd : GDK_WINDOW_DESTROYED w = false)
    (ht1 : display1.toplevel w.id = some t1)
    (ht2 : display2.toplevel w.id = some t2)
    (h1 : t1.has_focus = t2.has_focus) (h2 : t1.has_pointer_focus = t2.has_pointer_focus)
    (h3 : t1.has_pointer = t2.has_pointer) :
    ∃ r1 r2 injected,
      gdk_x11_device_manager_core_translate_event dm display1 event xevent = some r1 ∧
      gdk_x11_device_manager_core_translate_event dm display2 event xevent = some r2 ∧
      r1.display.event_queue = display1.event_queue ++ injected ∧
      r2.display.event_queue = display2.event_queue ++ injected ∧
      (injected = [] ∨ ∃ e, injected = [e] ∧ e.type = GDK_FOCUS_CHANGE ∧
        e.in_ = decide (xevent.type = FocusIn)) := by
  obtain ⟨r1, hr1, -, -, hq1⟩ :=
    translate_event_focus dm display1 event xevent w t1 htype hw1 hd ht1
  obtain ⟨r2, hr2, -, -, hq2⟩ :=
    translate_event_focus dm display2 event xevent w t2 htype hw2 hd ht2
  obtain ⟨hb, ha⟩ := HAS_FOCUS_ignores_has_focus_window (decide (xevent.type = FocusIn))
    t1 t2 xevent.detail xevent.mode h1 h2 h3
  rw [← ha, ← hb] at hq2
  by_cases hne : HAS_FOCUS (focus_switch (decide (xevent.type = FocusIn)) t1 xevent.detail
      xevent.mode) ≠ HAS_FOCUS t1
  · rw [if_pos hne] at hq1 hq2
    exact ⟨r1, r2, _, hr1, hr2, hq1, hq2, Or.inr ⟨_, rfl, rfl, rfl⟩⟩
  · rw [if_neg hne] at hq1 hq2
    exact ⟨r1, r2, [], hr1, hr2, by simpa using hq1, by simpa using hq2, Or.inl rfl⟩

theorem has_focus_window_redundant_for_emission_witness :
    (focusInNonlinearNormal.type = FocusIn ∨ focusInNonlinearNormal.type = FocusOut) ∧
    get_event_window gdk_x11_device_manager_core_constructed sampleDisplay
      focusInNonlinearNormal = some sampleToplevel ∧
    get_event_window gdk_x11_device_manager_core_constructed hasFocusWindowFlagDisplay
      focusInNonlinearNormal = some sampleToplevel ∧
    GDK_WINDOW_DESTROYED sampleToplevel = false ∧
    sampleDisplay.toplevel sampleToplevel.id =
      some (GdkToplevelX11.mk false false false false) ∧
    hasFocusWindowFlagDisplay.toplevel sampleToplevel.id =
      some (GdkToplevelX11.mk false true false false) ∧
    ∃ r1 r2 injected,
      gdk_x11_device_manager_core_translate_event gdk_x11_device_manager_core_constructed
        sampleDisplay (gdk_event_new GDK_NOTHING) focusInNonlinearNormal = some r1 ∧
      gdk_x11_device_manager_core_translate_event gdk_x11_device_manager_core_constructed
        hasFocusWindowFlagDisplay (gdk_event_new GDK_NOTHING) focusInNonlinearNormal =
          some r2 ∧
      r1.display.event_queue = sampleDisplay.event_queue ++ injected ∧
      r2.display.event_queue = hasFocusWindowFlagDisplay.event_queue ++ injected ∧
      (injected = [] ∨ ∃ e, injected = [e] ∧ e.type = GDK_FOCUS_CHANGE ∧
        e.in_ = decide (focusInNonlinearNormal.type = FocusIn)) :=
  ⟨Or.inl rfl, rfl, rfl, rfl, rfl, rfl,
    has_focus_window_redundant_for_emission gdk_x11_device_manager_core_constructed
      sampleDisplay hasFocusWindowFlagDisplay (gdk_event_new GDK_NOTHING)
      focusInNonlinearNormal sampleToplevel _ _ (Or.inl rfl) rfl rfl rfl rfl rfl rfl rfl rfl⟩

/-- C20 (as stated, refuted): two focus records that agree on has_focus_window,
    has_pointer_focus and has_pointer (all clear) and differ in has_focus only.
    On a FocusIn with detail NotifyNonlinear and mode NotifyNormal the
    translator queues a FOCUS_CHANGE event for the record with has_focus
    clear and queues nothing for the record with has_focus set. -/
theorem has_focus_decides_emission :
    (sampleDisplay.toplevel 1, hasFocusFlagDisplay.toplevel 1,
      (gdk_x11_device_manager_core_translate_event gdk_x11_device_manager_core_constructed
        sampleDisplay (gdk_event_new GDK_NOTHING) focusInNonlinearNormal).map
        (fun r => r.display.event_queue.map (fun e => (e.type, e.in_))),
      (gdk_x11_device_manager_core_translate_event gdk_x11_device_manager_core_constructed
        hasFocusFlagDisplay (gdk_event_new GDK_NOTHING) focusInNonlinearNormal).map
        (fun r => r.display.event_queue.map (fun e => (e.type, e.in_)))) =
      (some (GdkToplevelX11.mk false false false false),
        some (GdkToplevelX11.mk true false false false),
        some [(GDK_FOCUS_CHANGE, true)], some []) := by
  rfl

/-! ## Unimplemented class slots of a cell area -/

/-- C19 (amended): for each of the operations add, remove, forall, event, render,
    create_iter, get_request_mode, get_preferred_width, get_preferred_height
    and grab_focus whose class slot is left unimplemented, a call with
    arguments that pass the argument checks logs the warning of the
    unimplemented slot, does not call through the slot, and performs the
    default: the area is unchanged (remove has dropped the cell information of
    the renderer first), create_iter returns NULL, event returns 0,
    get_request_mode returns HEIGHT_FOR_WIDTH and the size requests leave the
    two out-parameters as they were. The height-for-width and
    width-for-height requests log no warning when their slot is left
    unimplemented: the base class has filled both slots with a handler of its
    own, so neither is empty; the handler for width-for-height answers with
    the preferred width of the class. -/
theorem unimplemented_slot_defaults (klass : GtkCellAreaClass) (area : GtkCellArea) :
    (klass.add = none → ∀ renderer,
      WarnsAndDefaults (gtk_cell_area_add klass area (some renderer)) area "add" ()) ∧
    (klass.remove = none → ∀ renderer,
      WarnsAndDefaults (gtk_cell_area_remove klass area (some renderer))
        { area with cell_info := area.cell_info.filter (fun r => r ≠ renderer) }
        "remove" ()) ∧
    (klass.forall_ = none → ∀ callback callback_data,
      WarnsAndDefaults (gtk_cell_area_forall klass area (some callback) callback_data)
        area "forall" ()) ∧
    (klass.event = none → ∀ iter widget event cell_area flags,
      WarnsAndDefaults (gtk_cell_area_event klass area (some iter) (some widget) (some event)
        (some cell_area) flags) area "event" 0) ∧
    (klass.render = none → ∀ iter widget cr cell_area flags,
      WarnsAndDefaults (gtk_cell_area_render klass area (some iter) (some widget) (some cr)
        (some cell_area) flags) area "render" ()) ∧
    (klass.create_iter = none →
      WarnsAndDefaults (gtk_cell_area_create_iter klass area) area "create_iter" none) ∧
    (klass.get_request_mode = none →
      WarnsAndDefaults (gtk_cell_area_get_request_mode klass area) area "get_request_mode"
        GtkSizeRequestMode.GTK_SIZE_REQUEST_HEIGHT_FOR_WIDTH) ∧
    (klass.get_preferred_width = none → ∀ iter widget size,
      WarnsAndDefaults (gtk_cell_area_get_preferred_width klass area iter (some widget) size)
        area "get_preferred_width" size) ∧
    (klass.get_preferred_height = none → ∀ iter widget size,
      WarnsAndDefaults (gtk_cell_area_get_preferred_height klass area iter (some widget) size)
        area "get_preferred_height" size) ∧
    (klass.grab_focus = none → ∀ direction,
      WarnsAndDefaults (gtk_cell_area_grab_focus klass area direction) area "grab_focus" ()) ∧
    (klass.get_preferred_width_for_height = GtkSizeForSizeSlot.real →
      ∀ handler, klass.get_preferred_width = some handler → ∀ iter widget height size,
      ∃ c, gtk_cell_area_get_preferred_width_for_height klass area iter (some widget) height
          size = some c ∧
        c.log = [] ∧ (c.area, c.value) = handler area iter widget size) ∧
    (klass.get_preferred_height_for_width = GtkSizeForSizeSlot.real →
      ∀ iter widget width size c,
      gtk_cell_area_get_preferred_height_for_width klass area iter (some widget) width
          size = some c →
        c.log = []) ∧
    (gtk_cell_area_class_init.get_preferred_height_for_width = GtkSizeForSizeSlot.real ∧
      gtk_cell_area_class_init.get_preferred_width_for_height = GtkSizeForSizeSlot.real) := by
  refine ⟨?_, ?_, ?_, ?_, ?_, ?_, ?_, ?_, ?_, ?_, ?_, ?_, rfl, rfl⟩
  · intro h renderer
    simp [WarnsAndDefaults, gtk_cell_area_add, h, g_warning_not_implemented]
  · intro h renderer
    simp [WarnsAndDefaults, gtk_cell_area_remove, h, g_warning_not_implemented]
  · intro h callback callback_data
    simp [WarnsAndDefaults, gtk_cell_area_forall, h, g_warning_not_implemented]
  · intro h iter widget event cell_area flags
    simp [WarnsAndDefaults, gtk_cell_area_event, h, g_warning_not_implemented]
  · intro h iter widget cr cell_area flags
    simp [WarnsAndDefaults, gtk_cell_area_render, h, g_warning_not_implemented]
  · intro h
    simp [WarnsAndDefaults, gtk_cell_area_create_iter, h, g_warning_not_implemented]
  · intro h
    simp [WarnsAndDefaults, gtk_cell_area_get_request_mode, h, g_warning_not_implemented]
  · intro h iter widget size
    simp [WarnsAndDefaults, gtk_cell_area_get_preferred_width, h, g_warning_not_implemented]
  · intro h iter widget size
    simp [WarnsAndDefaults, gtk_cell_area_get_preferred_height, h, g_warning_not_implemented]
  · intro h direction
    simp [WarnsAndDefaults, gtk_cell_area_grab_focus, h, g_warning_not_implemented]
  · intro h handler hh iter widget height size
    simp [gtk_cell_area_get_preferred_width_for_height, h,
      gtk_cell_area_real_get_preferred_width_for_height, hh]
  · intro h iter widget width size c hc
    simp only [gtk_cell_area_get_preferred_height_for_width, h] at hc
    split at hc
    · cases hc
      rfl
    · cases hc

theorem unimplemented_slot_defaults_witness :
    gtk_cell_area_class_init.grab_focus = none ∧
    gtk_cell_area_class_init.create_iter = none ∧
    WarnsAndDefaults (gtk_cell_area_grab_focus gtk_cell_area_class_init sampleArea 0)
      sampleArea "grab_focus" () ∧
    WarnsAndDefaults (gtk_cell_area_create_iter gtk_cell_area_class_init sampleArea)
      sampleArea "create_iter" none :=
  ⟨rfl, rfl,
    (unimplemented_slot_defaults gtk_cell_area_class_init sampleArea).2.2.2.2.2.2.2.2.2.1
      rfl 0,
    (unimplemented_slot_defaults gtk_cell_area_class_init sampleArea).2.2.2.2.2.1 rfl⟩

/-- C19 (as stated, refuted): a variant that implements get_preferred_width and
    leaves width-for-height unimplemented. The width-for-height request logs
    nothing, so no warning is reported: the slot holds the handler of the
    base class, which answers with the preferred width (10, 20). -/
theorem width_for_height_default_reports_no_warning :
    (gtk_cell_area_get_preferred_width_for_height widthOnlyClass sampleArea none (some 1) 5
        (0, 0)).map (fun c => (c.log, c.value)) = some ([], (10, 20)) := by
  rfl

/-- On a class that implements no slot at all, the handler of the base class
    for the height-for-width request calls the empty slot
    `get_preferred_width`. -/
theorem height_for_width_default_calls_empty_slot :
    (gtk_cell_area_get_preferred_height_for_width gtk_cell_area_class_init sampleArea none
        (some 1) 5 (0, 0)).isNone = true := by
  rfl

/-! ## The focus transition, detail by detail -/

theorem focus_xevent_type_decide (in_ : Bool) :
    decide (focus_xevent_type in_ = FocusIn) = in_ := by
  cases in_ <;> simp [focus_xevent_type, FocusIn, FocusOut]

/-- A focus event of direction `in_` on a live window with the focus record
    `t`: the translator returns TRUE and stores the record of the switch. -/
theorem translate_event_focus_record (in_ : Bool) (dm : GdkX11DeviceManagerCore)
    (display : GdkX11Display) (event : GdkEvent) (xevent : XEvent) (w : GdkWindow)
    (t : GdkToplevelX11)
    (htype : xevent.type = focus_xevent_type in_)
    (hw : get_event_window dm display xevent = some w)
    (hd : GDK_WINDOW_DESTROYED w = false)
    (ht : display.toplevel w.id = some t) :
    ∃ r, gdk_x11_device_manager_core_translate_event dm display event xevent = some r ∧
      r.return_val = true ∧
      r.display.toplevel w.id = some (focus_switch in_ t xevent.detail xevent.mode) := by
  have htype2 : xevent.type = FocusIn ∨ xevent.type = FocusOut := by
    cases in_
    · exact Or.inr htype
    · exact Or.inl htype
  obtain ⟨r, hr, hrv, htop, -⟩ :=
    translate_event_focus dm display event xevent w t htype2 hw hd ht
  refine ⟨r, hr, hrv, ?_⟩
  rw [htop, htype, focus_xevent_type_decide]

theorem focus_in_nonlinear_eq (t : GdkToplevelX11) (mode : Int) :
    focus_in_nonlinear t mode = spec_nonlinear_rule true t mode := by
  unfold focus_in_nonlinear spec_nonlinear_rule
  by_cases h1 : mode ≠ NotifyGrab ∧ mode ≠ NotifyUngrab <;>
    by_cases h2 : mode ≠ NotifyWhileGrabbed
  · simp only [if_pos h1, if_pos h2]
  · simp only [if_pos h1, if_neg h2]
  · simp only [if_neg h1, if_pos h2]
  · simp only [if_neg h1, if_neg h2]

theorem focus_out_nonlinear_eq (t : GdkToplevelX11) (mode : Int) :
    focus_out_nonlinear t mode = spec_nonlinear_rule false t mode := by
  unfold focus_out_nonlinear spec_nonlinear_rule
  by_cases h1 : mode ≠ NotifyGrab ∧ mode ≠ NotifyUngrab <;>
    by_cases h2 : mode ≠ NotifyWhileGrabbed
  · simp only [if_pos h1, if_pos h2]
  · simp only [if_pos h1, if_neg h2]
  · simp only [if_neg h1, if_pos h2]
  · simp only [if_neg h1, if_neg h2]

theorem focus_switch_true (t : GdkToplevelX11) (detail mode : Int) :
    focus_switch true t detail mode = focus_in_switch t detail mode := rfl

theorem focus_switch_false (t : GdkToplevelX11) (detail mode : Int) :
    focus_switch false t detail mode = focus_out_switch t detail mode := rfl

theorem focus_switch_nonlinear (in_ : Bool) (t : GdkToplevelX11) (detail mode : Int)
    (hdetail : detail = NotifyNonlinear ∨ detail = NotifyNonlinearVirtual) :
    focus_switch in_ t detail mode = spec_nonlinear_rule in_ t mode := by
  have h1 : ¬ (detail = NotifyAncestor ∨ detail = NotifyVirtual) := by
    rcases hdetail with h | h <;> rw [h] <;> decide
  cases in_
  · rw [focus_switch_false, focus_out_switch, if_neg h1, if_pos hdetail]
    exact focus_out_nonlinear_eq t mode
  · rw [focus_switch_true, focus_in_switch, if_neg h1, if_pos hdetail]
    exact focus_in_nonlinear_eq t mode

theorem focus_switch_ancestor (in_ : Bool) (t : GdkToplevelX11) (detail mode : Int)
    (hdetail : detail = NotifyAncestor ∨ detail = NotifyVirtual) :
    focus_switch in_ t detail mode = spec_ancestor_rule in_ t mode := by
  have hstep : ∀ b : Bool,
      (if t.has_pointer = true ∧ mode ≠ NotifyGrab ∧ mode ≠ NotifyUngrab then
          { t with has_pointer_focus := b }
        else t) =
      { t with
        has_pointer_focus :=
          if t.has_pointer = true ∧ mode ≠ NotifyGrab ∧ mode ≠ NotifyUngrab then b
          else t.has_pointer_focus } := by
    intro b
    by_cases h : t.has_pointer = true ∧ mode ≠ NotifyGrab ∧ mode ≠ NotifyUngrab
    · rw [if_pos h, if_pos h]
    · rw [if_neg h, if_neg h]
  cases in_
  · rw [focus_switch_false, focus_out_switch, if_pos hdetail]
    show focus_out_nonlinear _ mode = _
    rw [hstep true, focus_out_nonlinear_eq]
    rfl
  · rw [focus_switch_true, focus_in_switch, if_pos hdetail]
    show focus_in_nonlinear _ mode = _
    rw [hstep false, focus_in_nonlinear_eq]
    rfl

theorem focus_switch_pointer (in_ : Bool) (t : GdkToplevelX11) (mode : Int) :
    focus_switch in_ t NotifyPointer mode =
      { has_focus := t.has_focus,
        has_focus_window := t.has_focus_window,
        has_pointer_focus :=
          if mode ≠ NotifyGrab ∧ mode ≠ NotifyUngrab then in_ else t.has_pointer_focus,
        has_pointer := t.has_pointer } := by
  have h1 : ¬ (NotifyPointer = NotifyAncestor ∨ NotifyPointer = NotifyVirtual) := by decide
  have h2 : ¬ (NotifyPointer = NotifyNonlinear ∨ NotifyPointer = NotifyNonlinearVirtual) := by
    decide
  cases in_
  · rw [focus_switch_false, focus_out_switch, if_neg h1, if_neg h2, if_pos rfl]
    by_cases h : mode ≠ NotifyGrab ∧ mode ≠ NotifyUngrab
    · rw [if_pos h, if_pos h]
    · rw [if_neg h, if_neg h]
  · rw [focus_switch_true, focus_in_switch, if_neg h1, if_neg h2, if_pos rfl]
    by_cases h : mode ≠ NotifyGrab ∧ mode ≠ NotifyUngrab
    · rw [if_pos h, if_pos h]
    · rw [if_neg h, if_neg h]

/-- C22: for every focus record, direction and mode, the switch on the detail
    gives, for the details Nonlinear and NonlinearVirtual, the record whose
    has_focus_window is the direction (TRUE for FocusIn, FALSE for FocusOut)
    when the mode is neither GRAB nor UNGRAB and the old value otherwise,
    whose has_focus is the direction when the mode is not WHILE_GRABBED and
    the old value otherwise, and whose has_pointer_focus and has_pointer are
    the old values. The translator stores that record for every such native
    event on a resolved, non-destroyed window that has the record. -/
theorem nonlinear_focus_transition (in_ : Bool) (t : GdkToplevelX11) (detail mode : Int)
    (hdetail : detail = NotifyNonlinear ∨ detail = NotifyNonlinearVirtual) :
    focus_switch in_ t detail mode =
      { has_focus := if mode ≠ NotifyWhileGrabbed then in_ else t.has_focus,
        has_focus_window :=
          if mode ≠ NotifyGrab ∧ mode ≠ NotifyUngrab then in_ else t.has_focus_window,
        has_pointer_focus := t.has_pointer_focus,
        has_pointer := t.has_pointer } ∧
    ∀ (dm : GdkX11DeviceManagerCore) (display : GdkX11Display) (event : GdkEvent)
      (xevent : XEvent) (w : GdkWindow),
      xevent.type = focus_xevent_type in_ → xevent.detail = detail → xevent.mode = mode →
      get_event_window dm display xevent = some w → GDK_WINDOW_DESTROYED w = false →
      display.toplevel w.id = some t →
      ∃ r, gdk_x11_device_manager_core_translate_event dm display event xevent = some r ∧
        r.return_val = true ∧
        r.display.toplevel w.id = some (focus_switch in_ t detail mode) := by
  refine ⟨focus_switch_nonlinear in_ t detail mode hdetail, ?_⟩
  intro dm display event xevent w htype hdet hmode hw hd ht
  subst hdet hmode
  exact translate_event_focus_record in_ dm display event xevent w t htype hw hd ht

theorem nonlinear_focus_transition_witness :
    (NotifyNonlinearVirtual = NotifyNonlinear ∨
      NotifyNonlinearVirtual = NotifyNonlinearVirtual) ∧
    focus_switch false (GdkToplevelX11.mk true true true true) NotifyNonlinearVirtual
        NotifyWhileGrabbed = GdkToplevelX11.mk true false true true ∧
    ∃ r, gdk_x11_device_manager_core_translate_event gdk_x11_device_manager_core_constructed
        allFlagsDisplay (gdk_event_new GDK_NOTHING) focusOutNonlinearVirtualWhileGrabbed =
          some r ∧
      r.return_val = true ∧
      r.display.toplevel sampleToplevel.id =
        some (focus_switch false (GdkToplevelX11.mk true true true true)
          NotifyNonlinearVirtual NotifyWhileGrabbed) :=
  ⟨Or.inr rfl,
    (nonlinear_focus_transition false (GdkToplevelX11.mk true true true true)
      NotifyNonlinearVirtual NotifyWhileGrabbed (Or.inr rfl)).1,
    (nonlinear_focus_transition false (GdkToplevelX11.mk true true true true)
      NotifyNonlinearVirtual NotifyWhileGrabbed (Or.inr rfl)).2
      gdk_x11_device_manager_core_constructed allFlagsDisplay (gdk_event_new GDK_NOTHING)
      focusOutNonlinearVirtualWhileGrabbed sampleToplevel rfl rfl rfl rfl rfl rfl⟩

/-- C23: for every focus record, direction and mode, the switch on the detail
    gives, for the detail Pointer, the record whose has_pointer_focus is the
    direction (TRUE for FocusIn, FALSE for FocusOut) when the mode is neither
    GRAB nor UNGRAB and the old value otherwise, with has_focus_window,
    has_focus and has_pointer at their old values in every mode. The
    translator stores that record for every such native event on a resolved,
    non-destroyed window that has the record. -/
theorem pointer_focus_transition (in_ : Bool) (t : GdkToplevelX11) (mode : Int) :
    focus_switch in_ t NotifyPointer mode =
      { has_focus := t.has_focus,
        has_focus_window := t.has_focus_window,
        has_pointer_focus :=
          if mode ≠ NotifyGrab ∧ mode ≠ NotifyUngrab then in_ else t.has_pointer_focus,
        has_pointer := t.has_pointer } ∧
    ∀ (dm : GdkX11DeviceManagerCore) (display : GdkX11Display) (event : GdkEvent)
      (xevent : XEvent) (w : GdkWindow),
      xevent.type = focus_xevent_type in_ → xevent.detail = NotifyPointer →
      xevent.mode = mode →
      get_event_window dm display xevent = some w → GDK_WINDOW_DESTROYED w = false →
      display.toplevel w.id = some t →
      ∃ r, gdk_x11_device_manager_core_translate_event dm display event xevent = some r ∧
        r.return_val = true ∧
        r.display.toplevel w.id = some (focus_switch in_ t NotifyPointer mode) := by
  constructor
  · exact focus_switch_pointer in_ t mode
  · intro dm display event xevent w htype hdet hmode hw hd ht
    have h := translate_event_focus_record in_ dm display event xevent w t htype hw hd ht
    rw [hdet, hmode] at h
    exact h

theorem pointer_focus_transition_witness :
    focus_switch false (GdkToplevelX11.mk true true true true) NotifyPointer NotifyNormal =
      GdkToplevelX11.mk true true false true ∧
    ∃ r, gdk_x11_device_manager_core_translate_event gdk_x11_device_manager_core_constructed
        allFlagsDisplay (gdk_event_new GDK_NOTHING) focusOutPointerNormal = some r ∧
      r.return_val = true ∧
      r.display.toplevel sampleToplevel.id =
        some (focus_switch false (GdkToplevelX11.mk true true true true) NotifyPointer
          NotifyNormal) :=
  ⟨(pointer_focus_transition false (GdkToplevelX11.mk true true true true) NotifyNormal).1,
    (pointer_focus_transition false (GdkToplevelX11.mk true true true true) NotifyNormal).2
      gdk_x11_device_manager_core_constructed allFlagsDisplay (gdk_event_new GDK_NOTHING)
      focusOutPointerNormal sampleToplevel rfl rfl rfl rfl rfl rfl⟩

/-- C21: for every focus record, direction and mode, the switch on the detail
    gives, for the details Ancestor and Virtual, the record of the rule as the
    specification words it: first has_pointer_focus is set to FALSE (FocusIn)
    or TRUE (FocusOut) when has_pointer is set and the mode is neither GRAB nor
    UNGRAB, and is left as it is otherwise; then the NONLINEAR rule of the
    same direction and mode is applied to that intermediate record. The same
    record comes out of the switch on the detail Nonlinear applied to the
    intermediate record, and the translator stores it for every such native
    event on a resolved, non-destroyed window that has the record. -/
theorem ancestor_focus_transition (in_ : Bool) (t : GdkToplevelX11) (detail mode : Int)
    (hdetail : detail = NotifyAncestor ∨ detail = NotifyVirtual) :
    focus_switch in_ t detail mode = spec_ancestor_rule in_ t mode ∧
    focus_switch in_ t detail mode =
      focus_switch in_ (spec_ancestor_step in_ t mode) NotifyNonlinear mode ∧
    (spec_ancestor_step in_ t mode).has_pointer_focus =
      (if t.has_pointer = true ∧ mode ≠ NotifyGrab ∧ mode ≠ NotifyUngrab then !in_
        else t.has_pointer_focus) ∧
    ∀ (dm : GdkX11DeviceManagerCore) (display : GdkX11Display) (event : GdkEvent)
      (xevent : XEvent) (w : GdkWindow),
      xevent.type = focus_xevent_type in_ → xevent.detail = detail → xevent.mode = mode →
      get_event_window dm display xevent = some w → GDK_WINDOW_DESTROYED w = false →
      display.toplevel w.id = some t →
      ∃ r, gdk_x11_device_manager_core_translate_event dm display event xevent = some r ∧
        r.return_val = true ∧
        r.display.toplevel w.id = some (spec_ancestor_rule in_ t mode) := by
  have h1 : focus_switch in_ t detail mode = spec_ancestor_rule in_ t mode :=
    focus_switch_ancestor in_ t detail mode hdetail
  refine ⟨h1, ?_, rfl, ?_⟩
  · rw [h1, focus_switch_nonlinear in_ _ NotifyNonlinear mode (Or.inl rfl)]
    rfl
  · intro dm display event xevent w htype hdet hmode hw hd ht
    have h := translate_event_focus_record in_ dm display event xevent w t htype hw hd ht
    rw [hdet, hmode, h1] at h
    exact h

theorem ancestor_focus_transition_witness :
    (NotifyVirtual = NotifyAncestor ∨ NotifyVirtual = NotifyVirtual) ∧
    focus_switch true (GdkToplevelX11.mk true true true true) NotifyVirtual NotifyNormal =
      GdkToplevelX11.mk true true false true ∧
    ∃ r, gdk_x11_device_manager_core_translate_event gdk_x11_device_manager_core_constructed
        allFlagsDisplay (gdk_event_new GDK_NOTHING) focusInVirtualNormal = some r ∧
      r.return_val = true ∧
      r.display.toplevel sampleToplevel.id =
        some (spec_ancestor_rule true (GdkToplevelX11.mk true true true true)
          NotifyNormal) :=
  ⟨Or.inr rfl,
    (ancestor_focus_transition true (GdkToplevelX11.mk true true true true) NotifyVirtual
      NotifyNormal (Or.inr rfl)).1,
    (ancestor_focus_transition true (GdkToplevelX11.mk true true true true) NotifyVirtual
      NotifyNormal (Or.inr rfl)).2.2.2
      gdk_x11_device_manager_core_constructed allFlagsDisplay (gdk_event_new GDK_NOTHING)
      focusInVirtualNormal sampleToplevel rfl rfl rfl rfl rfl rfl⟩

/-! ## What the translator leaves alone -/

@[simp] theorem translate_event_done_user_time_calls (rv : Bool) (window : Option GdkWindow)
    (e : GdkEvent) (d : GdkX11Display) :
    (translate_event_done rv window e d).display.user_time_calls = d.user_time_calls := by
  unfold translate_event_done
  cases rv <;> cases window <;> simp [g_object_ref, g_object_unref] <;>
    (repeat' split) <;> rfl

theorem set_user_time_toplevel (display : GdkX11Display) (w : GdkWindow) (e : GdkEvent) :
    (set_user_time display w e).toplevel = display.toplevel := by
  unfold set_user_time
  split
  · rfl
  · split_ifs <;> rfl

theorem focus_switch_noop (in_ : Bool) (t : GdkToplevelX11) (detail mode : Int)
    (h1 : ¬ (detail = NotifyAncestor ∨ detail = NotifyVirtual))
    (h2 : ¬ (detail = NotifyNonlinear ∨ detail = NotifyNonlinearVirtual))
    (h3 : ¬ detail = NotifyPointer) :
    focus_switch in_ t detail mode = t := by
  cases in_
  · rw [focus_switch_false, focus_out_switch, if_neg h1, if_neg h2, if_neg h3]
  · rw [focus_switch_true, focus_in_switch, if_neg h1, if_neg h2, if_neg h3]

theorem focus_switch_has_pointer (in_ : Bool) (t : GdkToplevelX11) (detail mode : Int) :
    (focus_switch in_ t detail mode).has_pointer = t.has_pointer := by
  by_cases h1 : detail = NotifyAncestor ∨ detail = NotifyVirtual
  · rw [focus_switch_ancestor in_ t detail mode h1]
    rfl
  · by_cases h2 : detail = NotifyNonlinear ∨ detail = NotifyNonlinearVirtual
    · rw [focus_switch_nonlinear in_ t detail mode h2]
      rfl
    · by_cases h3 : detail = NotifyPointer
      · rw [h3, focus_switch_pointer]
      · rw [focus_switch_noop in_ t detail mode h1 h2 h3]

/-- The focus cases as one update of the table of focus records. -/
theorem translate_focus_toplevel_table (dm : GdkX11DeviceManagerCore)
    (display : GdkX11Display) (w : GdkWindow) (t : GdkToplevelX11) (in_ : Bool)
    (xevent : XEvent) (ht : display.toplevel w.id = some t) :
    (translate_focus dm display (some w) in_ xevent).toplevel =
      Function.update display.toplevel w.id
        (some (focus_switch in_ t xevent.detail xevent.mode)) := by
  unfold translate_focus focus_switch
  simp only [ht]
  by_cases h : HAS_FOCUS (if in_ = true then focus_in_switch t xevent.detail xevent.mode
      else focus_out_switch t xevent.detail xevent.mode) = HAS_FOCUS t
  · simp [h]
  · simp [h, generate_focus_event_toplevel]

theorem translate_focus_no_record (dm : GdkX11DeviceManagerCore) (display : GdkX11Display)
    (window : Option GdkWindow) (in_ : Bool) (xevent : XEvent)
    (h : ∀ w, window = some w → display.toplevel w.id = none) :
    translate_focus dm display window in_ xevent = display := by
  unfold translate_focus
  cases window with
  | none => rfl
  | some w => simp only [h w rfl]

/-- The focus cases never write `has_pointer`. -/
theorem translate_focus_has_pointer (dm : GdkX11DeviceManagerCore) (display : GdkX11Display)
    (window : Option GdkWindow) (in_ : Bool) (xevent : XEvent) (i : Nat) :
    ((translate_focus dm display window in_ xevent).toplevel i).map
        GdkToplevelX11.has_pointer =
      (display.toplevel i).map GdkToplevelX11.has_pointer := by
  cases window with
  | none => rw [translate_focus_no_record dm display none in_ xevent (fun _ h => by cases h)]
  | some w =>
    cases ht : display.toplevel w.id with
    | none =>
      rw [translate_focus_no_record dm display (some w) in_ xevent
        (fun w2 h => by cases h; exact ht)]
    | some t =>
      rw [translate_focus_toplevel_table dm display w t in_ xevent ht]
      by_cases hi : i = w.id
      · subst hi
        rw [Function.update_same, ht]
        simp [focus_switch_has_pointer]
      · rw [Function.update_noteq hi]

/-- A focus event whose detail is none of Ancestor, Virtual, Nonlinear,
    NonlinearVirtual and Pointer leaves the display as it is. -/
theorem translate_focus_noop (dm : GdkX11DeviceManagerCore) (display : GdkX11Display)
    (window : Option GdkWindow) (in_ : Bool) (xevent : XEvent)
    (h1 : ¬ (xevent.detail = NotifyAncestor ∨ xevent.detail = NotifyVirtual))
    (h2 : ¬ (xevent.detail = NotifyNonlinear ∨ xevent.detail = NotifyNonlinearVirtual))
    (h3 : ¬ xevent.detail = NotifyPointer) :
    translate_focus dm display window in_ xevent = display := by
  cases window with
  | none => exact translate_focus_no_record dm display none in_ xevent (fun _ h => by cases h)
  | some w =>
    cases ht : display.toplevel w.id with
    | none =>
      exact translate_focus_no_record dm display (some w) in_ xevent
        (fun w2 h => by cases h; exact ht)
    | some t =>
      have hs : (if in_ = true then focus_in_switch t xevent.detail xevent.mode
          else focus_out_switch t xevent.detail xevent.mode) = t :=
        focus_switch_noop in_ t xevent.detail xevent.mode h1 h2 h3
      unfold translate_focus
      simp only [ht, hs, ne_eq, not_true_eq_false, if_false]
      have hu : Function.update display.toplevel w.id (some t) = display.toplevel := by
        rw [← ht, Function.update_eq_self]
      rw [hu]

/-- The switch on the event type, focus cases. -/
theorem translate_event_switch_focus (dm : GdkX11DeviceManagerCore)
    (display : GdkX11Display) (window : Option GdkWindow) (event : GdkEvent) (xevent : XEvent)
    (htype : xevent.type = FocusIn ∨ xevent.type = FocusOut) :
    translate_event_switch dm display window event xevent =
      some (true, event,
        translate_focus dm display window (decide (xevent.type = FocusIn)) xevent) := by
  rcases htype with h | h <;>
    simp [translate_event_switch, h, FocusIn, FocusOut, KeyPress, KeyRelease, ButtonPress,
      ButtonRelease, MotionNotify, EnterNotify, LeaveNotify]

/-- The switch on the event type, every case but the focus cases: the focus
    records and the event queue are left as they were. -/
theorem translate_event_switch_other (dm : GdkX11DeviceManagerCore)
    (display : GdkX11Display) (window : Option GdkWindow) (event : GdkEvent) (xevent : XEvent)
    (s : Bool × GdkEvent × GdkX11Display)
    (h1 : xevent.type ≠ FocusIn) (h2 : xevent.type ≠ FocusOut)
    (hr : translate_event_switch dm display window event xevent = some s) :
    s.2.2.toplevel = display.toplevel ∧ s.2.2.event_queue = display.event_queue := by
  unfold translate_event_switch at hr
  split_ifs at hr <;> cases window <;> (try simp only [] at hr) <;>
    first
    | (cases hr; exact ⟨rfl, rfl⟩)
    | (cases hr; dsimp only
       exact ⟨set_user_time_toplevel _ _ _, (set_user_time_ref_count _ _ _).2⟩)
    | (rw [translate_crossing_display dm display _ _ _ _ s hr]; exact ⟨rfl, rfl⟩)
    | (split at hr <;> cases hr <;> exact ⟨rfl, rfl⟩)

/-- The frame of the translator past the guard of line 430. -/
theorem translate_event_body_frame (dm : GdkX11DeviceManagerCore)
    (display : GdkX11Display) (window : Option GdkWindow) (event : GdkEvent) (xevent : XEvent)
    (r : TranslateResult)
    (hr : translate_event_body dm display window event xevent = some r) :
    (∀ i, (r.display.toplevel i).map GdkToplevelX11.has_pointer =
      (display.toplevel i).map GdkToplevelX11.has_pointer) ∧
    ((xevent.type ≠ FocusIn ∧ xevent.type ≠ FocusOut) ∨ r.return_val = false →
      r.display.toplevel = display.toplevel ∧ r.display.event_queue = display.event_queue) := by
  unfold translate_event_body at hr
  simp only [] at hr
  split_ifs at hr
  · cases hr
    simp
  · cases hr
    simp
  · split at hr
    · cases hr
    · rename_i s hs
      cases hr
      simp only [translate_event_done_toplevel, translate_event_done_event_queue,
        translate_event_done_return_val]
      by_cases hf : xevent.type = FocusIn ∨ xevent.type = FocusOut
      · rw [translate_event_switch_focus dm display window _ xevent hf] at hs
        cases hs
        refine ⟨fun i => translate_focus_has_pointer dm display window _ xevent i, ?_⟩
        rintro (⟨h1, h2⟩ | h)
        · exact absurd hf (by rintro (h | h); exact h1 h; exact h2 h)
        · cases h
      · have h1 : xevent.type ≠ FocusIn := fun h => hf (Or.inl h)
        have h2 : xevent.type ≠ FocusOut := fun h => hf (Or.inr h)
        obtain ⟨ha, hb⟩ := translate_event_switch_other dm display window _ xevent s h1 h2 hs
        exact ⟨fun i => by rw [ha], fun _ => ⟨ha, hb⟩⟩

/-- C29: across a call of the translator that returns, no focus record changes
    in has_pointer, and no record appears or disappears; when the native event
    is neither a FocusIn nor a FocusOut, and whenever the call returns FALSE,
    every focus record is as it was and the event queue is as it was, so no
    FOCUS_CHANGE event is queued. The fields a call can change are therefore
    has_focus, has_focus_window and has_pointer_focus, and only for a FocusIn
    or FocusOut that returns TRUE. -/
theorem focus_record_frame (dm : GdkX11DeviceManagerCore) (display : GdkX11Display)
    (event : GdkEvent) (xevent : XEvent) (r : TranslateResult)
    (hr : gdk_x11_device_manager_core_translate_event dm display event xevent = some r) :
    (∀ i, (r.display.toplevel i).map GdkToplevelX11.has_pointer =
      (display.toplevel i).map GdkToplevelX11.has_pointer) ∧
    (xevent.type ≠ FocusIn ∧ xevent.type ≠ FocusOut →
      r.display.toplevel = display.toplevel ∧ r.display.event_queue = display.event_queue) ∧
    (r.return_val = false →
      r.display.toplevel = display.toplevel ∧ r.display.event_queue = display.event_queue) := by
  have key : (∀ i, (r.display.toplevel i).map GdkToplevelX11.has_pointer =
        (display.toplevel i).map GdkToplevelX11.has_pointer) ∧
      ((xevent.type ≠ FocusIn ∧ xevent.type ≠ FocusOut) ∨ r.return_val = false →
        r.display.toplevel = display.toplevel ∧
          r.display.event_queue = display.event_queue) := by
    cases hw : get_event_window dm display xevent with
    | none =>
      rw [translate_event_unresolved dm display event xevent hw] at hr
      exact translate_event_body_frame dm display none event xevent r hr
    | some w =>
      cases hd : GDK_WINDOW_DESTROYED w with
      | true =>
        rw [translate_event_destroyed dm display event xevent w hw hd] at hr
        cases hr
        exact ⟨fun _ => rfl, fun _ => ⟨rfl, rfl⟩⟩
      | false =>
        rw [translate_event_live dm display event xevent w hw hd] at hr
        exact translate_event_body_frame dm (g_object_ref display w) (some w) event xevent r hr
  exact ⟨key.1, fun h => key.2 (Or.inl h), fun h => key.2 (Or.inr h)⟩

theorem focus_record_frame_witness :
    ∃ r, gdk_x11_device_manager_core_translate_event gdk_x11_device_manager_core_constructed
        allFlagsDisplay (gdk_event_new GDK_NOTHING) buttonPress4 = some r ∧
      (∀ i, (r.display.toplevel i).map GdkToplevelX11.has_pointer =
        (allFlagsDisplay.toplevel i).map GdkToplevelX11.has_pointer) ∧
      (buttonPress4.type ≠ FocusIn ∧ buttonPress4.type ≠ FocusOut →
        r.display.toplevel = allFlagsDisplay.toplevel ∧
          r.display.event_queue = allFlagsDisplay.event_queue) ∧
      (r.return_val = false →
        r.display.toplevel = allFlagsDisplay.toplevel ∧
          r.display.event_queue = allFlagsDisplay.event_queue) :=
  have h : (gdk_x11_device_manager_core_translate_event gdk_x11_device_manager_core_constructed
      allFlagsDisplay (gdk_event_new GDK_NOTHING) buttonPress4).isSome = true := by decide
  ⟨_, (Option.some_get h).symm,
    focus_record_frame gdk_x11_device_manager_core_constructed allFlagsDisplay
      (gdk_event_new GDK_NOTHING) buttonPress4 _ (Option.some_get h).symm⟩

/-- C24: for every display, so for every focus record, and for every mode, a
    native FocusIn or FocusOut event with detail Inferior, PointerRoot or
    DetailNone makes the translator return with every focus record as it was
    and the event queue as it was: no FOCUS_CHANGE event is queued. -/
theorem noop_focus_details (dm : GdkX11DeviceManagerCore) (display : GdkX11Display)
    (event : GdkEvent) (xevent : XEvent)
    (htype : xevent.type = FocusIn ∨ xevent.type = FocusOut)
    (hdetail : xevent.detail = NotifyInferior ∨ xevent.detail = NotifyPointerRoot ∨
      xevent.detail = NotifyDetailNone) :
    ∃ r, gdk_x11_device_manager_core_translate_event dm display event xevent = some r ∧
      r.display.toplevel = display.toplevel ∧
      r.display.event_queue = display.event_queue := by
  have h1 : ¬ (xevent.detail = NotifyAncestor ∨ xevent.detail = NotifyVirtual) := by
    rcases hdetail with h | h | h <;> rw [h] <;> decide
  have h2 : ¬ (xevent.detail = NotifyNonlinear ∨ xevent.detail = NotifyNonlinearVirtual) := by
    rcases hdetail with h | h | h <;> rw [h] <;> decide
  have h3 : ¬ xevent.detail = NotifyPointer := by
    rcases hdetail with h | h | h <;> rw [h] <;> decide
  cases hw : get_event_window dm display xevent with
  | none =>
    rw [translate_event_unresolved dm display event xevent hw]
    have hb : translate_event_body dm display none event xevent =
        some (translate_event_done true none
          { event with window := none, send_event := xevent.send_event } display) := by
      unfold translate_event_body
      simp [translate_event_switch_unresolved, htype]
    rw [hb]
    exact ⟨_, rfl, by simp, by simp⟩
  | some w =>
    cases hd : GDK_WINDOW_DESTROYED w with
    | true =>
      rw [translate_event_destroyed dm display event xevent w hw hd]
      exact ⟨_, rfl, rfl, rfl⟩
    | false =>
      rw [translate_event_live dm display event xevent w hw hd,
        translate_event_body_focus dm _ event xevent w hd htype,
        translate_focus_noop dm _ (some w) _ xevent h1 h2 h3]
      refine ⟨_, rfl, ?_, ?_⟩
      · rw [translate_event_done_toplevel]
        rfl
      · rw [translate_event_done_event_queue]
        rfl

theorem noop_focus_details_witness :
    (focusOutInferiorNormal.type = FocusIn ∨ focusOutInferiorNormal.type = FocusOut) ∧
    (focusOutInferiorNormal.detail = NotifyInferior ∨
      focusOutInferiorNormal.detail = NotifyPointerRoot ∨
      focusOutInferiorNormal.detail = NotifyDetailNone) ∧
    ∃ r, gdk_x11_device_manager_core_translate_event gdk_x11_device_manager_core_constructed
        allFlagsDisplay (gdk_event_new GDK_NOTHING) focusOutInferiorNormal = some r ∧
      r.display.toplevel = allFlagsDisplay.toplevel ∧
      r.display.event_queue = allFlagsDisplay.event_queue :=
  ⟨Or.inr rfl, Or.inl rfl,
    noop_focus_details gdk_x11_device_manager_core_constructed allFlagsDisplay
      (gdk_event_new GDK_NOTHING) focusOutInferiorNormal (Or.inr rfl) (Or.inl rfl)⟩

/-! ## The modifier state of key events -/

theorem translate_key_event_state (display : GdkX11Display) (dm : GdkX11DeviceManagerCore)
    (event : GdkEvent) (xevent : XEvent) :
    (translate_key_event display dm event xevent).state =
      xevent.state ||| display.add_virt_mods
        (xevent.state &&& (0xFFFFFFFF ^^^ (consumed_modifiers display xevent % 2 ^ 32))) := by
  rw [translate_key_event, translate_key_event_string_state]
  rfl

theorem and_not_consumed_testBit (s consumed i : Nat) (hi : i < 32) :
    (s &&& (0xFFFFFFFF ^^^ (consumed % 2 ^ 32))).testBit i =
      (s.testBit i && !consumed.testBit i) := by
  have h : (0xFFFFFFFF : Nat) = 2 ^ 32 - 1 := by norm_num
  rw [Nat.testBit_and, Nat.testBit_xor, h, Nat.testBit_two_pow_sub_one,
    Nat.testBit_mod_two_pow]
  simp [hi]

/-- C25: for every key event, with s the native modifier state and consumed
    the modifiers the keymap reports as consumed, the state of the translated
    event is s OR V (s AND NOT consumed), V being the virtual-modifier
    expansion of the keymap and NOT the complement on the 32 bits of the
    modifier type; every bit set in s is set in that final state; and the
    control-key block is entered exactly when CONTROL is set in the final
    state: for a key with a character c, the payload is the folded character
    when the final state has CONTROL and the character c itself when it has
    not. -/
theorem key_modifier_state (display : GdkX11Display) (dm : GdkX11DeviceManagerCore)
    (event : GdkEvent) (xevent : XEvent) :
    (translate_key_event display dm event xevent).state =
      xevent.state ||| display.add_virt_mods
        (xevent.state &&& (0xFFFFFFFF ^^^ (consumed_modifiers display xevent % 2 ^ 32))) ∧
    (∀ i, i < 32 →
      (xevent.state &&& (0xFFFFFFFF ^^^ (consumed_modifiers display xevent % 2 ^ 32))).testBit i =
        (xevent.state.testBit i && !(consumed_modifiers display xevent).testBit i)) ∧
    (∀ i, xevent.state.testBit i = true →
      (translate_key_event display dm event xevent).state.testBit i = true) ∧
    (∀ c, (translate_key_event display dm event xevent).keyval ≠ GDK_KEY_VoidSymbol →
      display.gdk_keyval_to_unicode (translate_key_event display dm event xevent).keyval = c →
      c ≠ 0 →
      ((translate_key_event display dm event xevent).state &&& GDK_CONTROL_MASK ≠ 0 →
        (∀ d, apply_control_key c = some d →
          (translate_key_event display dm event xevent).string =
            some (locale_payload display (g_unichar_to_utf8 d))) ∧
        (apply_control_key c = none →
          (translate_key_event display dm event xevent).string = some [0])) ∧
      ((translate_key_event display dm event xevent).state &&& GDK_CONTROL_MASK = 0 →
        (translate_key_event display dm event xevent).string =
          some (locale_payload display (g_unichar_to_utf8 c)))) := by
  refine ⟨translate_key_event_state display dm event xevent,
    fun i hi => and_not_consumed_testBit _ _ i hi, ?_, ?_⟩
  · intro i hi
    rw [translate_key_event_state, Nat.testBit_or, hi]
    rfl
  · intro c hk hc hc0
    rw [translate_key_event, translate_key_event_string_keyval] at hk hc
    rw [translate_key_event, translate_key_event_string_state]
    subst hc
    refine ⟨fun hctl => ⟨fun d hd => ?_, fun hn => ?_⟩, fun hctl => ?_⟩
    · exact (translate_key_event_string_char display _ d hk hc0
        (by rw [if_pos hctl]; exact hd)).1
    · unfold translate_key_event_string
      simp [hk, hc0, hctl, hn]
    · exact (translate_key_event_string_char display _ _ hk hc0
        (by rw [if_neg (not_not.mpr hctl)])).1

/-- Under a keymap whose expansion adds CONTROL to Mod1, a key press of the
    letter a with the native state Mod1 has the final state Mod1 OR CONTROL
    and the payload 0x01: the folding is decided on the final state. -/
theorem key_modifier_state_witness :
    mod1KeyPress.state &&& GDK_CONTROL_MASK = 0 ∧
    (translate_key_event virtualControlDisplay gdk_x11_device_manager_core_constructed
      (gdk_event_new GDK_NOTHING) mod1KeyPress).state = 12 ∧
    (translate_key_event virtualControlDisplay gdk_x11_device_manager_core_constructed
      (gdk_event_new GDK_NOTHING) mod1KeyPress).string =
        some (locale_payload virtualControlDisplay (g_unichar_to_utf8 1)) :=
  ⟨by decide, by decide,
    ((key_modifier_state virtualControlDisplay gdk_x11_device_manager_core_constructed
      (gdk_event_new GDK_NOTHING) mod1KeyPress).2.2.2 0x61 (by decide) (by decide)
      (by decide)).1 (by decide) |>.1 1 (by decide)⟩

/-! ## Control folding as a projection -/

theorem apply_control_key_low (d : Nat) (h : d ≤ 0x1f) : apply_control_key d = some d := by
  unfold apply_control_key
  rw [if_neg (by omega), if_neg (by omega), if_neg (by omega), if_neg (by omega),
    if_neg (by omega)]

theorem apply_control_key_delete : apply_control_key 0x7f = some 0x7f := by
  decide

/-- The control-key block on each part of its domain. -/
theorem apply_control_key_cases (c : Nat) :
    ((0x40 ≤ c ∧ c < 0x7f) ∨ c = 0x20 → apply_control_key c = some (c &&& 0x1F)) ∧
    (c = 0x32 → apply_control_key c = none) ∧
    (0x33 ≤ c ∧ c ≤ 0x37 → apply_control_key c = some (c - (0x33 - 0x1b))) ∧
    (c = 0x38 → apply_control_key c = some 0x7f) ∧
    (c = 0x2f → apply_control_key c = some 0x1f) ∧
    (¬ ((0x40 ≤ c ∧ c < 0x7f) ∨ c = 0x20) → c ≠ 0x32 → ¬ (0x33 ≤ c ∧ c ≤ 0x37) →
      c ≠ 0x38 → c ≠ 0x2f → apply_control_key c = some c) := by
  refine ⟨fun h => ?_, fun h => ?_, fun h => ?_, fun h => ?_, fun h => ?_,
    fun h1 h2 h3 h4 h5 => ?_⟩
  · unfold apply_control_key
    rw [if_pos (by omega)]
  · subst h
    decide
  · unfold apply_control_key
    rw [if_neg (by omega), if_neg (by omega), if_pos (by omega)]
  · subst h
    decide
  · subst h
    decide
  · unfold apply_control_key
    rw [if_neg (by omega), if_neg h2, if_neg (by omega), if_neg h4, if_neg h5]

/-- What the control-key block yields is a control code, the delete code or
    the character it was given. -/
theorem apply_control_key_result (c d : Nat) (h : apply_control_key c = some d) :
    d ≤ 0x1f ∨ d = 0x7f ∨
      (d = c ∧ ¬ ((0x40 ≤ c ∧ c < 0x7f) ∨ c = 0x20) ∧ c ≠ 0x32 ∧ ¬ (0x33 ≤ c ∧ c ≤ 0x37) ∧
        c ≠ 0x38 ∧ c ≠ 0x2f) := by
  obtain ⟨k1, k2, k3, k4, k5, k6⟩ := apply_control_key_cases c
  by_cases h1 : (0x40 ≤ c ∧ c < 0x7f) ∨ c = 0x20
  · rw [k1 h1] at h
    cases h
    exact Or.inl Nat.and_le_right
  · by_cases h2 : c = 0x32
    · rw [k2 h2] at h
      cases h
    · by_cases h3 : 0x33 ≤ c ∧ c ≤ 0x37
      · rw [k3 h3] at h
        cases h
        exact Or.inl (by omega)
      · by_cases h4 : c = 0x38
        · rw [k4 h4] at h
          cases h
          exact Or.inr (Or.inl rfl)
        · by_cases h5 : c = 0x2f
          · rw [k5 h5] at h
            cases h
            exact Or.inl (by omega)
          · rw [k6 h1 h2 h3 h4 h5] at h
            cases h
            exact Or.inr (Or.inr ⟨rfl, h1, h2, h3, h4, h5⟩)

/-- C27: writing fold for the control-key block (the character it produces from
    c when CONTROL is set; the digit 2 has no character, its payload is NUL),
    every c of the folding domain (the at sign through the tilde, space, the
    digits 3 to 8, the slash) has a fold that lies in 0x00..0x1F or is 0x7F,
    and for every character c that has a fold d, the fold of d is d. Reading
    the payload NUL of the digit 2 as the character 0, fold after fold is
    fold for every character. -/
theorem control_fold_projection (c : Nat) :
    ((0x40 ≤ c ∧ c ≤ 0x7e) ∨ c = 0x20 ∨ (0x33 ≤ c ∧ c ≤ 0x38) ∨ c = 0x2f →
      ∃ d, apply_control_key c = some d ∧ (d ≤ 0x1f ∨ d = 0x7f)) ∧
    (c ≠ 0x32 → ∃ d, apply_control_key c = some d) ∧
    (∀ d, apply_control_key c = some d → apply_control_key d = some d) ∧
    (apply_control_key ((apply_control_key c).getD 0)).getD 0 =
      (apply_control_key c).getD 0 := by
  obtain ⟨k1, k2, k3, k4, k5, k6⟩ := apply_control_key_cases c
  have hidem : ∀ d, apply_control_key c = some d → apply_control_key d = some d := by
    intro d hd
    rcases apply_control_key_result c d hd with h | h | ⟨h, -⟩
    · exact apply_control_key_low d h
    · rw [h]
      exact apply_control_key_delete
    · rw [h]
      rw [h] at hd
      exact hd
  have hsome : c ≠ 0x32 → ∃ d, apply_control_key c = some d := by
    intro h2
    by_cases h1 : (0x40 ≤ c ∧ c < 0x7f) ∨ c = 0x20
    · exact ⟨_, k1 h1⟩
    · by_cases h3 : 0x33 ≤ c ∧ c ≤ 0x37
      · exact ⟨_, k3 h3⟩
      · by_cases h4 : c = 0x38
        · exact ⟨_, k4 h4⟩
        · by_cases h5 : c = 0x2f
          · exact ⟨_, k5 h5⟩
          · exact ⟨_, k6 h1 h2 h3 h4 h5⟩
  refine ⟨fun hdom => ?_, hsome, hidem, ?_⟩
  · obtain ⟨d, hd⟩ := hsome (by omega)
    refine ⟨d, hd, ?_⟩
    rcases apply_control_key_result c d hd with h | h | ⟨-, h1, -, h3, h4, h5⟩
    · exact Or.inl h
    · exact Or.inr h
    · omega
  · cases hc : apply_control_key c with
    | none =>
      show (apply_control_key 0).getD 0 = 0
      decide
    | some d =>
      show (apply_control_key d).getD 0 = d
      rw [hidem d hc]
      rfl

theorem control_fold_projection_witness :
    (∃ d, apply_control_key 0x61 = some d ∧ (d ≤ 0x1f ∨ d = 0x7f)) ∧
    apply_control_key 0x01 = some 0x01 :=
  ⟨(control_fold_projection 0x61).1 (Or.inl (by decide)),
    (control_fold_projection 0x61).2.2.1 0x01 (by decide)⟩

/-! ## User-interaction time -/

theorem key_string_default_time (event : GdkEvent) :
    (key_string_default event).time = event.time := by
  unfold key_string_default
  split <;> rfl

theorem translate_key_event_string_time (display : GdkX11Display) (event : GdkEvent) :
    (translate_key_event_string display event).time = event.time := by
  unfold translate_key_event_string
  simp only []
  split_ifs <;> (try split) <;> (try split) <;> simp [key_string_default_time]

theorem translate_key_event_time (display : GdkX11Display) (dm : GdkX11DeviceManagerCore)
    (event : GdkEvent) (xevent : XEvent) :
    (translate_key_event display dm event xevent).time = xevent.time % 2 ^ 32 := by
  rw [translate_key_event, translate_key_event_string_time]
  rfl

/-- The function `set_user_time` on an event with a window and a time stamp. -/
theorem set_user_time_calls (display : GdkX11Display) (w0 w : GdkWindow) (e : GdkEvent)
    (hw : e.window = some w)
    (ht : e.type = GDK_KEY_PRESS ∨ e.type = GDK_BUTTON_PRESS ∨ e.type = GDK_SCROLL) :
    (set_user_time display w0 e).user_time_calls =
      display.user_time_calls ++ user_time_call display w e.time := by
  have htime : gdk_event_get_time e = e.time := by
    rcases ht with h | h | h <;> simp [gdk_event_get_time, h]
  unfold set_user_time user_time_call
  simp only [hw, htime, GDK_IS_WINDOW]
  by_cases h0 : e.time ≠ GDK_CURRENT_TIME
  · simp [h0]
  · simp [h0]

theorem translate_focus_user_time_calls (dm : GdkX11DeviceManagerCore)
    (display : GdkX11Display) (window : Option GdkWindow) (in_ : Bool) (xevent : XEvent) :
    (translate_focus dm display window in_ xevent).user_time_calls =
      display.user_time_calls := by
  unfold translate_focus
  cases window with
  | none => rfl
  | some w =>
    simp only []
    cases display.toplevel w.id with
    | none => rfl
    | some t =>
      simp only []
      split_ifs <;> rfl

/-- The switch on the event type calls `set_user_time` in the cases `KeyPress`
    and `ButtonPress` only. -/
theorem translate_event_switch_user_time_other (dm : GdkX11DeviceManagerCore)
    (display : GdkX11Display) (window : Option GdkWindow) (event : GdkEvent) (xevent : XEvent)
    (s : Bool × GdkEvent × GdkX11Display)
    (h1 : xevent.type ≠ KeyPress) (h2 : xevent.type ≠ ButtonPress)
    (hr : translate_event_switch dm display window event xevent = some s) :
    s.2.2.user_time_calls = display.user_time_calls := by
  by_cases hf : xevent.type = FocusIn ∨ xevent.type = FocusOut
  · rw [translate_event_switch_focus dm display window event xevent hf] at hr
    cases hr
    exact translate_focus_user_time_calls dm display window _ xevent
  · have h3 : xevent.type ≠ FocusIn := fun h => hf (Or.inl h)
    have h4 : xevent.type ≠ FocusOut := fun h => hf (Or.inr h)
    unfold translate_event_switch at hr
    rw [if_neg h1] at hr
    split_ifs at hr <;> cases window <;> (try simp only [] at hr) <;>
      first
      | (cases hr; rfl)
      | (rw [translate_crossing_display dm display _ _ _ _ s hr])
      | (split at hr <;> cases hr <;> rfl)

/-- The cases `KeyPress` and `ButtonPress` with a window: `set_user_time` runs
    on the event, also when the screen of a `ButtonPress` is not resolved. -/
theorem translate_event_switch_press (dm : GdkX11DeviceManagerCore)
    (display : GdkX11Display) (w : GdkWindow) (event : GdkEvent) (xevent : XEvent)
    (htype : xevent.type = KeyPress ∨ xevent.type = ButtonPress)
    (hw : event.window = some w) :
    ∃ s, translate_event_switch dm display (some w) event xevent = some s ∧
      s.2.2.user_time_calls =
        display.user_time_calls ++ user_time_call display w (xevent.time % 2 ^ 32) ∧
      (xevent.type = ButtonPress → display.screen_for_xrootwin xevent.root = none →
        s.1 = false) := by
  rcases htype with h | h
  · have hs : translate_event_switch dm display (some w) event xevent =
        some (true, translate_key_event display dm event xevent,
          set_user_time display w (translate_key_event display dm event xevent)) := by
      simp [translate_event_switch, h]
    refine ⟨_, hs, ?_, ?_⟩
    · dsimp only
      rw [set_user_time_calls display w w _
        (by rw [translate_key_event_window]; exact hw)
        (Or.inl (by rw [translate_key_event_type, if_pos h])),
        translate_key_event_time]
    · intro hb
      rw [h] at hb
      exact absurd hb (by decide)
  · have hk : xevent.type ≠ KeyPress := by rw [h]; decide
    have hkr : xevent.type ≠ KeyRelease := by rw [h]; decide
    unfold translate_event_switch
    rw [if_neg hk, if_neg hkr, if_pos h]
    simp only []
    refine ⟨_, rfl, ?_, ?_⟩
    · dsimp only
      by_cases hb : xevent.button = 4 ∨ xevent.button = 5 ∨ xevent.button = 6 ∨
          xevent.button = 7
      · rw [if_pos hb]
        cases hsc : display.screen_for_xrootwin xevent.root <;>
          simp only [set_screen_from_root, hsc, gdk_event_set_screen] <;>
          rw [set_user_time_calls display w w _ rfl (Or.inr (Or.inr rfl))]
      · rw [if_neg hb]
        cases hsc : display.screen_for_xrootwin xevent.root <;>
          simp only [set_screen_from_root, hsc, gdk_event_set_screen, fill_button_event] <;>
          rw [set_user_time_calls display w w _ rfl (Or.inr (Or.inl rfl))]
    · intro _ hsc
      dsimp only
      by_cases hb : xevent.button = 4 ∨ xevent.button = 5 ∨ xevent.button = 6 ∨
          xevent.button = 7
      · rw [if_pos hb]
        simp only [set_screen_from_root, hsc]
      · rw [if_neg hb]
        simp only [set_screen_from_root, hsc]

/-- The translator past the guard of line 430, every case but `KeyPress` and
    `ButtonPress`. -/
theorem translate_event_body_user_time_other (dm : GdkX11DeviceManagerCore)
    (display : GdkX11Display) (window : Option GdkWindow) (event : GdkEvent) (xevent : XEvent)
    (r : TranslateResult)
    (h1 : xevent.type ≠ KeyPress) (h2 : xevent.type ≠ ButtonPress)
    (hr : translate_event_body dm display window event xevent = some r) :
    r.display.user_time_calls = display.user_time_calls := by
  unfold translate_event_body at hr
  simp only [] at hr
  split_ifs at hr
  · cases hr
    simp
  · cases hr
    simp
  · split at hr
    · cases hr
    · rename_i s hs
      cases hr
      rw [translate_event_done_user_time_calls]
      exact translate_event_switch_user_time_other dm display window _ xevent s h1 h2 hs

/-- The translator past the guard of line 430, the cases `KeyPress` and
    `ButtonPress` on a live window. -/
theorem translate_event_body_press (dm : GdkX11DeviceManagerCore)
    (display : GdkX11Display) (w : GdkWindow) (event : GdkEvent) (xevent : XEvent)
    (htype : xevent.type = KeyPress ∨ xevent.type = ButtonPress)
    (hd : GDK_WINDOW_DESTROYED w = false) :
    ∃ r, translate_event_body dm display (some w) event xevent = some r ∧
      r.display.user_time_calls =
        display.user_time_calls ++ user_time_call display w (xevent.time % 2 ^ 32) ∧
      (xevent.type = ButtonPress → display.screen_for_xrootwin xevent.root = none →
        r.return_val = false) := by
  have hnm : ¬ (xevent.type = MotionNotify ∨ xevent.type = ButtonRelease) := by
    rcases htype with h | h <;> rw [h] <;> decide
  obtain ⟨s, hs, h1, h2⟩ := translate_event_switch_press dm display w
    { event with window := some w, send_event := xevent.send_event } xevent htype rfl
  refine ⟨translate_event_done s.1 (some w) s.2.1 s.2.2, ?_, ?_, ?_⟩
  · unfold translate_event_body
    simp [hd, hnm, hs]
  · rw [translate_event_done_user_time_calls]
    exact h1
  · intro hb hsc
    rw [translate_event_done_return_val]
    exact h2 hb hsc

/-- C28: the translator calls gdk_x11_window_set_user_time, on the toplevel of
    the resolved window and with the time stamp of the event (the native time
    in the 32 bits of the time field), exactly when the native event is a
    KeyPress or a ButtonPress (scroll buttons included) on a resolved,
    non-destroyed window and that time stamp is not GDK_CURRENT_TIME;
    a ButtonPress whose root window resolves to no screen returns FALSE and
    the call is made all the same; for every other native event type no call
    is made. -/
theorem user_time_update (dm : GdkX11DeviceManagerCore) (display : GdkX11Display)
    (event : GdkEvent) (xevent : XEvent) :
    (xevent.type = KeyPress ∨ xevent.type = ButtonPress →
      ∃ r, gdk_x11_device_manager_core_translate_event dm display event xevent = some r ∧
        (∀ w, get_event_window dm display xevent = some w →
          GDK_WINDOW_DESTROYED w = false → xevent.time % 2 ^ 32 ≠ GDK_CURRENT_TIME →
          r.display.user_time_calls = display.user_time_calls ++
            [((display.gdk_window_get_toplevel (display.gdk_window_get_toplevel w)).id,
              xevent.time % 2 ^ 32)]) ∧
        (get_event_window dm display xevent = none ∨
            (∃ w, get_event_window dm display xevent = some w ∧
              GDK_WINDOW_DESTROYED w = true) ∨
            xevent.time % 2 ^ 32 = GDK_CURRENT_TIME →
          r.display.user_time_calls = display.user_time_calls) ∧
        (xevent.type = ButtonPress → display.screen_for_xrootwin xevent.root = none →
          r.return_val = false)) ∧
    (xevent.type ≠ KeyPress → xevent.type ≠ ButtonPress →
      ∀ r, gdk_x11_device_manager_core_translate_event dm display event xevent = some r →
        r.display.user_time_calls = display.user_time_calls) := by
  constructor
  · intro htype
    cases hw : get_event_window dm display xevent with
    | none =>
      obtain ⟨r, hr, hv⟩ := translate_event_unresolved_return dm display event xevent hw
      have hcalls : r.display.user_time_calls = display.user_time_calls := by
        rw [translate_event_unresolved dm display event xevent hw] at hr
        unfold translate_event_body at hr
        simp [translate_event_switch_unresolved] at hr
        rw [← hr]
        simp
      refine ⟨r, hr, (fun w h => by cases h), fun _ => hcalls, fun hb _ => ?_⟩
      rw [hv]
      rw [hb]
      decide
    | some w =>
      cases hd : GDK_WINDOW_DESTROYED w with
      | true =>
        rw [translate_event_destroyed dm display event xevent w hw hd]
        refine ⟨_, rfl, fun w2 h hd2 => ?_, fun _ => rfl, fun _ _ => rfl⟩
        cases h
        rw [hd] at hd2
        cases hd2
      | false =>
        rw [translate_event_live dm display event xevent w hw hd]
        obtain ⟨r, hr, h1, h2⟩ :=
          translate_event_body_press dm (g_object_ref display w) w event xevent htype hd
        have h1b : r.display.user_time_calls =
            display.user_time_calls ++ user_time_call display w (xevent.time % 2 ^ 32) := h1
        refine ⟨r, hr, fun w2 h _ ht => ?_, ?_, h2⟩
        · cases h
          rw [h1b, user_time_call, if_pos ht]
        · rintro (h | ⟨w2, h, hd2⟩ | h)
          · cases h
          · cases h
            rw [hd] at hd2
            cases hd2
          · rw [h1b, user_time_call, if_neg (not_not.mpr h), List.append_nil]
  · intro h1 h2 r hr
    cases hw : get_event_window dm display xevent with
    | none =>
      rw [translate_event_unresolved dm display event xevent hw] at hr
      exact translate_event_body_user_time_other dm display none event xevent r h1 h2 hr
    | some w =>
      cases hd : GDK_WINDOW_DESTROYED w with
      | true =>
        rw [translate_event_destroyed dm display event xevent w hw hd] at hr
        cases hr
        rfl
      | false =>
        rw [translate_event_live dm display event xevent w hw hd] at hr
        exact translate_event_body_user_time_other dm (g_object_ref display w) (some w) event
          xevent r h1 h2 hr

theorem user_time_update_witness :
    ∃ r, gdk_x11_device_manager_core_translate_event gdk_x11_device_manager_core_constructed
        sampleDisplay (gdk_event_new GDK_NOTHING) buttonPressUnknownRoot = some r ∧
      r.display.user_time_calls = sampleDisplay.user_time_calls ++ [(1, 1000)] ∧
      r.return_val = false :=
  match (user_time_update gdk_x11_device_manager_core_constructed sampleDisplay
      (gdk_event_new GDK_NOTHING) buttonPressUnknownRoot).1 (Or.inr rfl) with
  | ⟨r, hr, h1, _, h3⟩ => ⟨r, hr, h1 sampleToplevel rfl rfl (by decide), h3 rfl rfl⟩

/-- A KeyPress at time 1000 records the call; a KeyRelease at the same time
    does not. -/
theorem user_time_key_press_only :
    ((gdk_x11_device_manager_core_translate_event gdk_x11_device_manager_core_constructed
        sampleDisplay (gdk_event_new GDK_NOTHING) keyPress38).map
        (fun r => (r.return_val, r.display.user_time_calls)),
      (gdk_x11_device_manager_core_translate_event gdk_x11_device_manager_core_constructed
        sampleDisplay (gdk_event_new GDK_NOTHING) keyRelease38).map
        (fun r => (r.return_val, r.display.user_time_calls))) =
      (some (true, [(1, 1000)]), some (true, [])) := by
  decide

/-! ## The default size-for-size requests of a cell area -/

/-- C26 (failing input): a variant that implements get_preferred_width with the
    answer (10, 20) and get_preferred_height with the answer (30, 40), and
    does not override height-for-width. The height-for-width request at width
    5 returns (10, 20), the preferred width, and not (30, 40), the preferred
    height; the width-for-height request returns the preferred width. -/
theorem default_height_for_width_returns_width :
    ((gtk_cell_area_get_preferred_height widthHeightClass sampleArea none (some 1)
        (0, 0)).map (fun c => c.value),
      (gtk_cell_area_get_preferred_width widthHeightClass sampleArea none (some 1)
        (0, 0)).map (fun c => c.value),
      (gtk_cell_area_get_preferred_height_for_width widthHeightClass sampleArea none (some 1) 5
        (0, 0)).map (fun c => c.value),
      (gtk_cell_area_get_preferred_width_for_height widthHeightClass sampleArea none (some 1) 5
        (0, 0)).map (fun c => c.value)) =
      (some (30, 40), some (10, 20), some (10, 20), some (10, 20)) := by
  rfl

/-- The default handlers of both size-for-size requests answer with the slot
    `get_preferred_width` of the class, whatever the given size. -/
theorem default_size_for_size_requests (klass : GtkCellAreaClass) (area : GtkCellArea)
    (handler : GtkCellArea → Option GtkCellAreaIter → GtkWidget → GtkRequestedSize →
      GtkCellArea × GtkRequestedSize)
    (hw : klass.get_preferred_width = some handler) (iter : Option GtkCellAreaIter)
    (widget : GtkWidget) (for_size : Int) (size : GtkRequestedSize) :
    (klass.get_preferred_height_for_width = GtkSizeForSizeSlot.real →
      (gtk_cell_area_get_preferred_height_for_width klass area iter (some widget) for_size
        size).map (fun c => (c.area, c.value)) = some (handler area iter widget size)) ∧
    (klass.get_preferred_width_for_height = GtkSizeForSizeSlot.real →
      (gtk_cell_area_get_preferred_width_for_height klass area iter (some widget) for_size
        size).map (fun c => (c.area, c.value)) = some (handler area iter widget size)) := by
  constructor <;> intro h
  · simp [gtk_cell_area_get_preferred_height_for_width, h,
      gtk_cell_area_real_get_preferred_height_for_width, hw]
  · simp [gtk_cell_area_get_preferred_width_for_height, h,
      gtk_cell_area_real_get_preferred_width_for_height, hw]

/-! ## Margin arithmetic of the renderer request -/

theorem gint_of_representable (x : Int) (h : gint_representable x) : gint x = x := by
  unfold gint_representable G_MININT G_MAXINT at h
  unfold gint
  omega

theorem MAX_eq_max (a b : Int) : MAX a b = max a b := by
  unfold MAX
  split_ifs with h
  · exact (max_eq_left (le_of_lt h)).symm
  · exact (max_eq_right (not_lt.mp h)).symm

/-- C30 (amended): for every cell border, renderer and widget, as long as the
    sums of the border widths, the reduced size and the increased answers are
    values of gint (no 32-bit overflow): in horizontal orientation the
    renderer is asked for its plain preferred width when for_size is negative
    and otherwise for its width for the height max (0, for_size - (top +
    bottom)), and the reported minimum and natural sizes are its answers plus
    (left + right); in vertical orientation it is asked for its plain
    preferred height, or for its height for the width max (0, for_size -
    (left + right)), and the reported sizes are its answers plus (top +
    bottom). Nothing is logged and the area is unchanged. -/
theorem request_renderer_margins (requests : GtkCellRendererRequests) (area : GtkCellArea)
    (renderer : GtkCellRenderer) (widget : GtkWidget) (for_size minimum_size natural_size : Int)
    (hlr : gint_representable (area.cell_border.left + area.cell_border.right))
    (htb : gint_representable (area.cell_border.top + area.cell_border.bottom)) :
    (∀ size : GtkRequestedSize,
      size = (if for_size < 0 then requests.get_preferred_width renderer widget
        else requests.get_preferred_width_for_height renderer widget
          (max 0 (for_size - (area.cell_border.top + area.cell_border.bottom)))) →
      (0 ≤ for_size →
        gint_representable (for_size - (area.cell_border.top + area.cell_border.bottom))) →
      gint_representable (size.1 + (area.cell_border.left + area.cell_border.right)) →
      gint_representable (size.2 + (area.cell_border.left + area.cell_border.right)) →
      gtk_cell_area_request_renderer requests area (some renderer)
          GtkOrientation.GTK_ORIENTATION_HORIZONTAL (some widget) for_size
          (some minimum_size) (some natural_size) =
        { area := area, log := [],
          value := (some (size.1 + (area.cell_border.left + area.cell_border.right)),
            some (size.2 + (area.cell_border.left + area.cell_border.right))) }) ∧
    (∀ size : GtkRequestedSize,
      size = (if for_size < 0 then requests.get_preferred_height renderer widget
        else requests.get_preferred_height_for_width renderer widget
          (max 0 (for_size - (area.cell_border.left + area.cell_border.right)))) →
      (0 ≤ for_size →
        gint_representable (for_size - (area.cell_border.left + area.cell_border.right))) →
      gint_representable (size.1 + (area.cell_border.top + area.cell_border.bottom)) →
      gint_representable (size.2 + (area.cell_border.top + area.cell_border.bottom)) →
      gtk_cell_area_request_renderer requests area (some renderer)
          GtkOrientation.GTK_ORIENTATION_VERTICAL (some widget) for_size
          (some minimum_size) (some natural_size) =
        { area := area, log := [],
          value := (some (size.1 + (area.cell_border.top + area.cell_border.bottom)),
            some (size.2 + (area.cell_border.top + area.cell_border.bottom))) }) := by
  constructor
  · intro size hsize hfor h1 h2
    by_cases hneg : for_size < 0
    · rw [if_pos hneg] at hsize
      simp only [gtk_cell_area_request_renderer, if_pos hneg, if_true,
        gint_of_representable _ hlr, ← hsize, gint_of_representable _ h1,
        gint_of_representable _ h2]
    · rw [if_neg hneg] at hsize
      have hf := hfor (not_lt.mp hneg)
      simp only [gtk_cell_area_request_renderer, if_neg hneg, if_true,
        gint_of_representable _ hlr, gint_of_representable _ htb,
        gint_of_representable _ hf, MAX_eq_max, ← hsize, gint_of_representable _ h1,
        gint_of_representable _ h2]
  · intro size hsize hfor h1 h2
    have hv : ¬ (GtkOrientation.GTK_ORIENTATION_VERTICAL =
        GtkOrientation.GTK_ORIENTATION_HORIZONTAL) := by decide
    by_cases hneg : for_size < 0
    · rw [if_pos hneg] at hsize
      simp only [gtk_cell_area_request_renderer, if_pos hneg, if_neg hv,
        gint_of_representable _ htb, ← hsize, gint_of_representable _ h1,
        gint_of_representable _ h2]
    · rw [if_neg hneg] at hsize
      have hf := hfor (not_lt.mp hneg)
      simp only [gtk_cell_area_request_renderer, if_neg hneg, if_neg hv,
        gint_of_representable _ hlr, gint_of_representable _ htb,
        gint_of_representable _ hf, MAX_eq_max, ← hsize, gint_of_representable _ h1,
        gint_of_representable _ h2]

theorem request_renderer_margins_witness :
    gint_representable (borderedArea.cell_border.left + borderedArea.cell_border.right) ∧
    gint_representable (borderedArea.cell_border.top + borderedArea.cell_border.bottom) ∧
    gtk_cell_area_request_renderer sampleRequests borderedArea (some 1)
        GtkOrientation.GTK_ORIENTATION_HORIZONTAL (some 1) 5 (some 0) (some 0) =
      { area := borderedArea, log := [], value := (some (0 + (1 + 2)), some (100 + (1 + 2))) } ∧
    gtk_cell_area_request_renderer sampleRequests borderedArea (some 1)
        GtkOrientation.GTK_ORIENTATION_VERTICAL (some 1) (-1) (some 0) (some 0) =
      { area := borderedArea, log := [], value := (some (30 + (3 + 4)), some (40 + (3 + 4))) } :=
  ⟨by decide, by decide,
    (request_renderer_margins sampleRequests borderedArea 1 1 5 0 0 (by decide)
      (by decide)).1 (0, 100) (by decide) (fun _ => by decide) (by decide) (by decide),
    (request_renderer_margins sampleRequests borderedArea 1 1 (-1) 0 0 (by decide)
      (by decide)).2 (30, 40) (by decide) (fun _ => by decide) (by decide) (by decide)⟩

/-- C30 (as stated, refuted): a cell border with left 1 and the other widths 0,
    and a renderer whose preferred width is G_MAXINT. In horizontal
    orientation with for_size -1 the reported sizes are G_MININT: the sum of
    the answer and (left + right), 2147483648, is no value of gint. -/
theorem request_renderer_sum_wraps :
    ((gtk_cell_area_request_renderer hugeRequests
        { sampleArea with cell_border := { left := 1, right := 0, top := 0, bottom := 0 } }
        (some 1) GtkOrientation.GTK_ORIENTATION_HORIZONTAL (some 1) (-1) (some 0)
        (some 0)).value,
      (hugeRequests.get_preferred_width 1 1).1 + (1 + 0)) =
      ((some (-2147483648), some (-2147483648)), 2147483648) := by
  decide

end Gdk
